import Mathlib

/-!
Verification of the markdown-to-html translator core: a shallow embedding of
the character-level state machine (`src/parsing/state_handlers.hpp`,
`src/parsing/markdown_parser.hpp`), the tree builder
(`src/parsing_tree/tree_builder.hpp`), the table manager and token emitter
(`src/parsing/emitting_middleware.hpp`) and the return-state stack
(`src/parsing/parsing_helpers.hpp`), together with theorems about the
document trees the pipeline produces.
-/

namespace MdHtml

/-- `TokenType` from `src/token.hpp`. -/
inductive TokenType where
  | OpenToken
  | CloseToken
  | ContentToken
  | EOF_Token
deriving DecidableEq, Repr

/-- `ElementType` from `src/token.hpp` (the trailing `EOF_Reached` enumerator
included; its nonzero value matters for the escape-handling bug, see
`handle_escape_sequence`). -/
inductive ElementType where
  | DOCSTART
  | Content
  | Header_1
  | Header_2
  | Header_3
  | Header_4
  | Header_5
  | Header_6
  | Paragraph
  | Codeblock
  | Horizontalline
  | Hypertext
  | ImageType
  | Span
  | List_Ordered
  | List_Unordered
  | List_Element
  | Table
  | Table_Head
  | Table_Row
  | Table_Cell
  | EOF_Reached
deriving DecidableEq, Repr

/-- `Attribute` from `src/node.hpp`. -/
inductive Attribute where
  | Bold
  | Italic
  | FontSize1
  | FontSize2
  | FontSize3
  | FontSize4
  | FontSize5
  | FontSize6
  | Inline
  | Block
  | BlockQuote
  | TableStyle
  | TableHeader
  | TableRow
  | TableCell
  | ImageAttr
deriving DecidableEq, Repr

/-- `State` from `src/parsing/state.hpp`. -/
inductive State where
  | Data
  | DataHashtag
  | DataAsterisk
  | DataAsteriskData
  | DataDoubleAsterisk
  | DataDoubleAsteriskData
  | DataTripleAsterisk
  | DataTripleAsteriskData
  | DataConsumingNumber
  | DataOrdinalNumber
  | HorizontalLine
  | DataBacktick
  | DataDoubleBacktick
  | CodeInline
  | CodeBlock
  | UnorderedListPrep
  | UnorderedList
  | OrderedListPrep
  | Image
  | AltOpenSquared
  | AltClosedSquared
  | UrlOpenRound
  | TitleOpenRound
  | TitleConsuming
  | TitleClosedRound
  | TableHeaderNames
  | TableHeaderSeparationPipeAwaiting
  | TableHeaderSeparation
  | TableCellPipeAwaiting
  | TableCellData
deriving DecidableEq, Repr

/-- `Token` from `src/token.hpp`. -/
structure Token where
  type : TokenType
  element : ElementType
  content : List Char
  alt : List Char
  title : List Char
deriving DecidableEq, Repr

/-- The variant payload of the four node kinds of `src/node.hpp`
(`Node`, `ContentNode`, `ImageNode`, `HyperlinkNode`). -/
inductive NPayload where
  | plain
  | contentP (content : List Char)
  | imageP (src : List Char) (alt : List Char) (title : List Char)
  | linkP (href : List Char) (displayed : List Char) (title : List Char)
deriving DecidableEq, Repr

/-- A node of the parsing tree (`src/node.hpp`): every C++ node kind shares
`element`, `attributes` and `children`; the payload distinguishes the kind.
The parent pointer is represented implicitly by tree paths. -/
inductive Node where
  | node (element : ElementType) (attrs : List Attribute) (payload : NPayload)
      (children : List Node)

mutual

/-- Decidable equality for `Node` (the automatic derivation does not handle
the nested `List Node` field). -/
def nodeDecEq : (a b : Node) → Decidable (a = b)
  | .node e1 a1 p1 c1, .node e2 a2 p2 c2 =>
    match decEq e1 e2 with
    | isFalse h => isFalse (fun hh => Node.noConfusion hh (fun he _ _ _ => absurd he h))
    | isTrue h1 =>
      match decEq a1 a2 with
      | isFalse h => isFalse (fun hh => Node.noConfusion hh (fun _ ha _ _ => absurd ha h))
      | isTrue h2 =>
        match decEq p1 p2 with
        | isFalse h => isFalse (fun hh => Node.noConfusion hh (fun _ _ hp _ => absurd hp h))
        | isTrue h3 =>
          match nodeListDecEq c1 c2 with
          | isFalse h => isFalse (fun hh => Node.noConfusion hh (fun _ _ _ hc => absurd hc h))
          | isTrue h4 => isTrue (by rw [h1, h2, h3, h4])

/-- Decidable equality for lists of nodes. -/
def nodeListDecEq : (a b : List Node) → Decidable (a = b)
  | [], [] => isTrue rfl
  | [], _ :: _ => isFalse (fun h => List.noConfusion h)
  | _ :: _, [] => isFalse (fun h => List.noConfusion h)
  | x :: xs, y :: ys =>
    match nodeDecEq x y with
    | isFalse h => isFalse (fun hh => List.noConfusion hh (fun hx _ => absurd hx h))
    | isTrue hx =>
      match nodeListDecEq xs ys with
      | isFalse h => isFalse (fun hh => List.noConfusion hh (fun _ hxs => absurd hxs h))
      | isTrue hxs => isTrue (by rw [hx, hxs])

end

instance : DecidableEq Node := nodeDecEq

/-- The element tag of a node (`Node::element`). -/
def Node.element : Node → ElementType
  | .node e _ _ _ => e

/-- The attribute list of a node (`Node::attributes`). -/
def Node.attrs : Node → List Attribute
  | .node _ a _ _ => a

/-- The payload of a node (the data distinguishing the C++ node subclass). -/
def Node.payload : Node → NPayload
  | .node _ _ p _ => p

/-- The ordered children of a node (`Node::children`). -/
def Node.children : Node → List Node
  | .node _ _ _ c => c

instance : Inhabited Node := ⟨.node .DOCSTART [] .plain []⟩

/-- `Node::add_child`: append a child at the end of the children sequence. -/
def Node.addChild (n : Node) (c : Node) : Node :=
  .node n.element n.attrs n.payload (n.children ++ [c])

/-- `Node::add_attribute`: append an attribute. -/
def Node.addAttr (n : Node) (a : Attribute) : Node :=
  .node n.element (n.attrs ++ [a]) n.payload n.children

/-- `Node::remove_last_child`: detach and return the last child, or `none`
when there are no children. -/
def Node.removeLastChild (n : Node) : Option (Node × Node) :=
  match n.children.getLast? with
  | none => none
  | some last => some (last, .node n.element n.attrs n.payload n.children.dropLast)

mutual

/-- Look up the node designated by a path of child indices.  This models
following the raw `Node*` pointers of the C++ builders. -/
def getAt : Node → List Nat → Option Node
  | n, [] => some n
  | .node _ _ _ cs, i :: p => getAtL cs i p

/-- Helper of `getAt` on children lists. -/
def getAtL : List Node → Nat → List Nat → Option Node
  | [], _, _ => none
  | c :: _, 0, p => getAt c p
  | _ :: cs, i + 1, p => getAtL cs i p

end

mutual

/-- Apply `f` to the node designated by a path, leaving everything else in
place (mutation through a `Node*` in the C++ code). -/
def modifyAt : Node → List Nat → (Node → Node) → Node
  | n, [], f => f n
  | .node e a pl cs, i :: p, f => .node e a pl (modifyAtL cs i p f)

/-- Helper of `modifyAt` on children lists. -/
def modifyAtL : List Node → Nat → List Nat → (Node → Node) → List Node
  | [], _, _, _ => []
  | c :: cs, 0, p, f => modifyAt c p f :: cs
  | c :: cs, i + 1, p, f => c :: modifyAtL cs i p f

end

mutual

/-- In-order concatenation of the `ContentNode` texts of a tree, as a list of
characters (a node's own content precedes its children's). -/
def contentsOf : Node → List Char
  | .node _ _ p cs =>
    (match p with
     | .contentP s => s
     | _ => []) ++ contentsOfL cs

/-- Helper of `contentsOf` on children lists. -/
def contentsOfL : List Node → List Char
  | [] => []
  | n :: ns => contentsOf n ++ contentsOfL ns

end

/-- Internal failure kinds: each models one of the distinct `throw` sites of
the C++ pipeline (plus path/pointer validity conditions that the C++ code
leaves as undefined behaviour on a null or dangling pointer). -/
inductive Err where
  | nullCursor
  | invalidPath
  | closeMismatch
  | tableRootNotNull
  | tableCloseOpen
  | emptyHeader
  | emitFailNull
  | badPush
  | fuelExhausted
deriving DecidableEq, Repr

instance {ε α : Type} [DecidableEq ε] [DecidableEq α] : DecidableEq (Except ε α) := fun a b =>
  match a, b with
  | .error e, .error f =>
    if h : e = f then .isTrue (by rw [h]) else .isFalse (fun hh => h (by injection hh))
  | .ok x, .ok y =>
    if h : x = y then .isTrue (by rw [h]) else .isFalse (fun hh => h (by injection hh))
  | .error _, .ok _ => .isFalse (fun hh => Except.noConfusion hh)
  | .ok _, .error _ => .isFalse (fun hh => Except.noConfusion hh)

/-- The state of `TreeBuilder` (`src/parsing_tree/tree_builder.hpp`): the
owned root and the `current` cursor, expressed as a path from the root
(`none` models a null `current`, which arises from closing the root). -/
structure TreeB where
  root : Node
  cur : Option (List Nat)
deriving DecidableEq

/-- The freshly constructed builder: root is a `DOCSTART` node and `current`
points at it. -/
def TreeB.init : TreeB :=
  { root := .node .DOCSTART [] .plain [], cur := some [] }

/-- Attach `child` under the cursor and descend into it (the `Open` behaviour
shared by the three open branches of `TreeBuilder::consume_token`). -/
def TreeB.openChild (b : TreeB) (child : Node) : Except Err TreeB := do
  match b.cur with
  | none => .error .nullCursor
  | some p =>
    match getAt b.root p with
    | none => .error .invalidPath
    | some parent =>
      pure { root := modifyAt b.root p (fun n => n.addChild child),
             cur := some (p ++ [parent.children.length]) }

/-- Attach `child` under the cursor without moving the cursor (the `Content`
behaviour, and `TreeBuilder::append_subtree`). -/
def TreeB.attachChild (b : TreeB) (child : Node) : Except Err TreeB := do
  match b.cur with
  | none => .error .nullCursor
  | some p =>
    pure { root := modifyAt b.root p (fun n => n.addChild child), cur := b.cur }

/-- `TreeBuilder::consume_token`. -/
def TreeB.consume (b : TreeB) (t : Token) : Except Err TreeB := do
  match t.type with
  | .OpenToken =>
    if t.element = .ImageType then
      b.openChild (.node .ImageType [] (.imageP t.content t.alt t.title) [])
    else if t.element = .Hypertext then
      b.openChild (.node .Hypertext [] (.linkP t.content t.alt t.title) [])
    else
      b.openChild (.node t.element [] .plain [])
  | .CloseToken =>
    match b.cur with
    | none => .error .nullCursor
    | some p =>
      match getAt b.root p with
      | none => .error .invalidPath
      | some cn =>
        if t.element ≠ cn.element then .error .closeMismatch
        else
          -- closing `DOCSTART` only logs a warning in C++; `current` becomes
          -- null (`cur = none`).
          pure { b with cur := if p = [] then none else some p.dropLast }
  | .ContentToken => b.attachChild (.node t.element [] (.contentP t.content) [])
  | .EOF_Token => pure b

/-- `TreeBuilder::get_current_element`. -/
def TreeB.get_current_element (b : TreeB) : Except Err ElementType := do
  match b.cur with
  | none => .error .nullCursor
  | some p =>
    match getAt b.root p with
    | none => .error .invalidPath
    | some cn => pure cn.element

/-- `TreeBuilder::add_attribute`. -/
def TreeB.add_attribute (b : TreeB) (a : Attribute) : Except Err TreeB := do
  match b.cur with
  | none => .error .nullCursor
  | some p => pure { b with root := modifyAt b.root p (fun n => n.addAttr a) }

/-- `TreeBuilder::append_subtree`. -/
def TreeB.append_subtree (b : TreeB) (subtree : Node) : Except Err TreeB :=
  b.attachChild subtree

/-- `ParseWarningFlags` from `src/parsing/emitting_middleware.hpp`. -/
inductive ParseWarningFlags where
  | TableFailed
  | TableSuccess
deriving DecidableEq, Repr

/-- The state of `TableManager`: its own `table_root`, the `current` cursor
as a path inside `table_root` (`none` models a null `current`), and the
column count `col_dims` fixed by the header row. -/
structure TableM where
  table_root : Option Node
  cur : Option (List Nat)
  col_dims : Nat
deriving DecidableEq

/-- The table manager as constructed: null root, null cursor, zero columns. -/
def TableM.init : TableM :=
  { table_root := none, cur := none, col_dims := 0 }

/-- Dereference the `current` pointer of the table manager. -/
def TableM.getCur (tm : TableM) : Except Err Node := do
  match tm.cur with
  | none => .error .nullCursor
  | some p =>
    match tm.table_root with
    | none => .error .invalidPath
    | some r =>
      match getAt r p with
      | none => .error .invalidPath
      | some n => pure n

/-- Mutate the node under the `current` pointer of the table manager. -/
def TableM.modifyCur (tm : TableM) (f : Node → Node) : Except Err TableM := do
  match tm.cur with
  | none => .error .nullCursor
  | some p =>
    match tm.table_root with
    | none => .error .invalidPath
    | some r => pure { tm with table_root := some (modifyAt r p f) }

/-- `current = current->parent` (dereferences `current`, so a null cursor is
an error; at the table root the parent pointer is null). -/
def TableM.ascend (tm : TableM) : Except Err TableM := do
  match tm.cur with
  | none => .error .nullCursor
  | some [] => pure { tm with cur := none }
  | some p => pure { tm with cur := some p.dropLast }

/-- `TableManager::create_new_node`: allocate a node for the token's element
(rows, heads and cells receive their fixed attribute), attach it under
`current` and descend into it. -/
def TableM.create_new_node (tm : TableM) (el : ElementType) : Except Err TableM := do
  let attrs : List Attribute :=
    if el = .Table_Row then [.TableRow]
    else if el = .Table_Head then [.TableHeader]
    else if el = .Table_Cell then [.TableCell]
    else []
  match tm.cur with
  | none => .error .nullCursor
  | some p =>
    match tm.table_root with
    | none => .error .invalidPath
    | some r =>
      match getAt r p with
      | none => .error .invalidPath
      | some parent =>
        pure { tm with
          table_root := some (modifyAt r p
            (fun n => n.addChild (.node el attrs .plain []))),
          cur := some (p ++ [parent.children.length]) }

/-- `TableManager::consume_token`.  Note the C++ `Hypertext` close case has
no `break` and falls through into the `Span`/`Codeblock` case, ascending a
second time. -/
def TableM.consume_token (tm : TableM) (t : Token) : Except Err TableM := do
  match t.element with
  | .Table =>
    if t.type = .OpenToken then
      if tm.table_root ≠ none then .error .tableRootNotNull
      else
        pure { tm with
          table_root := some (.node .Table [.TableStyle] .plain []),
          cur := some [] }
    else .error .tableCloseOpen
  | .Table_Row =>
    if t.type = .OpenToken then tm.create_new_node .Table_Row
    else
      if tm.col_dims ≠ 0 then
        -- not the header row: pad with empty `Table_Cell` children (created
        -- directly, without the `TableCell` attribute) up to `col_dims`.
        let cn ← tm.getCur
        let tm ← tm.modifyCur (fun n =>
          .node n.element n.attrs n.payload
            (n.children ++ List.replicate (tm.col_dims - cn.children.length)
              (.node .Table_Cell [] .plain [])))
        tm.ascend
      else
        -- the header row: drop the trailing empty head and fix `col_dims`.
        -- (C++ `pop_back` on an empty vector is undefined; `dropLast` of the
        -- empty list models it as a no-op.)
        let cn ← tm.getCur
        let tm ← tm.modifyCur (fun n =>
          .node n.element n.attrs n.payload n.children.dropLast)
        let tm := { tm with col_dims := cn.children.dropLast.length }
        if cn.children.dropLast.length = 0 then .error .emptyHeader
        else tm.ascend
  | .Table_Head =>
    if t.type = .OpenToken then tm.create_new_node .Table_Head
    else tm.ascend
  | .Table_Cell =>
    if t.type = .OpenToken then
      let cn ← tm.getCur
      if cn.children.length < tm.col_dims then tm.create_new_node .Table_Cell
      else pure tm
    else
      let cn ← tm.getCur
      if cn.element = .Table_Cell then tm.ascend else pure tm
  | .Content =>
    let cn ← tm.getCur
    if cn.element = .Table_Row then pure tm
      -- the current amount of data cells is greater than col_dims
    else tm.modifyCur (fun n =>
      n.addChild (.node .Content [] (.contentP t.content) []))
  | .Hypertext =>
    if t.type = .OpenToken then
      match tm.cur with
      | none => .error .nullCursor
      | some p =>
        match tm.table_root with
        | none => .error .invalidPath
        | some r =>
          match getAt r p with
          | none => .error .invalidPath
          | some parent =>
            pure { tm with
              table_root := some (modifyAt r p (fun n =>
                n.addChild (.node .Hypertext [] (.linkP t.content t.alt t.title) []))),
              cur := some (p ++ [parent.children.length]) }
    else do
      -- first ascent, then the C++ fall-through into the next case ascends
      -- once more.
      let tm ← tm.ascend
      tm.ascend
  | .Span =>
    if t.type = .OpenToken then tm.create_new_node .Span else tm.ascend
  | .Codeblock =>
    if t.type = .OpenToken then tm.create_new_node .Codeblock else tm.ascend
  | _ =>
    -- "Unrecognized element in table parsing" is printed to stderr and the
    -- token is otherwise ignored.
    pure tm

/-- `TableManager::add_attribute`. -/
def TableM.add_attribute (tm : TableM) (a : Attribute) : Except Err TableM :=
  tm.modifyCur (fun n => n.addAttr a)

/-- `TableManager::emit_on_success`: graft `table_root` onto the main
builder and null the root. -/
def TableM.emit_on_success (tm : TableM) (b : TreeB) : Except Err (TableM × TreeB) := do
  match tm.table_root with
  | none => .error .nullCursor  -- C++ would dereference the moved null root
  | some r =>
    let b ← b.append_subtree r
    pure ({ tm with table_root := none }, b)

/-- `TableManager::emit_row_as_paragraph`: the demoted row keeps its element
slot (rewritten to `Paragraph`) and attributes; its children become, for each
cell in order, a literal "|" content leaf followed by that cell's children. -/
def TableM.emit_row_as_paragraph (row : Node) (b : TreeB) : Except Err TreeB := do
  if row.children.isEmpty then pure b
  else
    let newChildren :=
      (row.children.map (fun td =>
        Node.node .Content [] (.contentP ['|']) [] :: td.children)).flatten
    b.append_subtree (.node .Paragraph row.attrs row.payload newChildren)

/-- `TableManager::emit_on_failure`: drop the last row; if body rows remain,
emit the remaining table; then re-emit the dropped row as a paragraph.  When
the table has no rows at all the method returns early and, faithfully to the
C++ code, does not null `table_root`. -/
def TableM.emit_on_failure (tm : TableM) (b : TreeB) : Except Err (TableM × TreeB) := do
  match tm.table_root with
  | none => .error .emitFailNull
  | some r =>
    match r.removeLastChild with
    | none => pure (tm, b)
    | some (lastRow, r2) =>
      let (tm, b) ←
        if r2.children.length ≠ 0 then
          TableM.emit_on_success { tm with table_root := some r2 } b
        else pure ({ tm with table_root := some r2 }, b)
      let b ← TableM.emit_row_as_paragraph lastRow b
      pure ({ tm with table_root := none, col_dims := 0 }, b)

/-- The state of `Token_Emitter`: the shared tree builder, the table manager
and the `table_parsing_flag` mode bit. -/
structure Emitter where
  builder : TreeB
  tm : TableM
  table_parsing_flag : Bool
deriving DecidableEq

/-- The emitter as constructed by `Context`. -/
def Emitter.init : Emitter :=
  { builder := TreeB.init, tm := TableM.init, table_parsing_flag := false }

/-- `Token_Emitter::emit_token`: route to the table manager while
`table_parsing_flag` is set; a `Table` token flips the mode on; everything
else goes to the tree builder. -/
def Emitter.emit_token (em : Emitter) (t : Token) : Except Err Emitter := do
  if em.table_parsing_flag then
    let tm ← em.tm.consume_token t
    pure { em with tm := tm }
  else if t.element = .Table then
    let tm ← em.tm.consume_token t
    pure { em with tm := tm, table_parsing_flag := true }
  else
    let b ← em.builder.consume t
    pure { em with builder := b }

/-- `Token_Emitter::handle_flag`. -/
def Emitter.handle_flag (em : Emitter) (flag : ParseWarningFlags) : Except Err Emitter := do
  match flag with
  | .TableFailed =>
    let (tm, b) ← em.tm.emit_on_failure em.builder
    pure { builder := b, tm := tm, table_parsing_flag := false }
  | .TableSuccess =>
    let (tm, b) ← em.tm.emit_on_success em.builder
    pure { builder := b, tm := tm, table_parsing_flag := false }

/-- `Token_Emitter::fetch_current_element` (always asks the tree builder,
even in table mode). -/
def Emitter.fetch_current_element (em : Emitter) : Except Err ElementType :=
  em.builder.get_current_element

/-- `Token_Emitter::add_attribute`. -/
def Emitter.add_attribute (em : Emitter) (a : Attribute) : Except Err Emitter := do
  if em.table_parsing_flag then
    let tm ← em.tm.add_attribute a
    pure { em with tm := tm }
  else
    let b ← em.builder.add_attribute a
    pure { em with builder := b }

/-- `Token_Emitter::get_col_dims`. -/
def Emitter.get_col_dims (em : Emitter) : Nat :=
  em.tm.col_dims

/-- The backtick character, written through its code point (96). -/
def backtickChar : Char :=
  Char.ofNat 96

/-- `escaped_chars` from `src/parsing/parsing_helpers.hpp`. -/
def escaped_chars : List Char :=
  ['\\', backtickChar, '*', '_', '{', '}', '[', ']', '<', '>', '(', ')', '#',
   '+', '-', '.', '!', '|']

/-- `is_escaped_char` from `src/parsing/parsing_helpers.hpp`. -/
def is_escaped_char (c : Char) : Bool :=
  escaped_chars.contains c

/-- `ReturnStateStack::allowed_return_states`. -/
def allowed_return_states : List State :=
  [.Data, .UnorderedListPrep, .OrderedListPrep, .TableHeaderNames, .TableCellData]

/-- `ReturnStateStack::is_a_return_state`. -/
def is_a_return_state (s : State) : Bool :=
  allowed_return_states.contains s

/-- `ReturnStateStack::push`: rejects states outside the allowed set with an
internal-state error. -/
def RSS.push (s : State) (st : List State) : Except Err (List State) :=
  if is_a_return_state s then pure (s :: st) else .error .badPush

/-- `ReturnStateStack::top`: on an empty stack, logs a warning (the returned
boolean) and yields `State::Data`. -/
def RSS.top (st : List State) : State × Bool :=
  match st with
  | [] => (.Data, true)
  | s :: _ => (s, false)

/-- `ReturnStateStack::top_n_pop`: on an empty stack, logs a warning (the
returned boolean) and yields `State::Data`. -/
def RSS.top_n_pop (st : List State) : State × List State × Bool :=
  match st with
  | [] => (.Data, [], true)
  | s :: rest => (s, rest, false)

/-- `Context` from `src/parsing/state_handlers.hpp`: the mutable parsing
state.  The C++ `short`/`size_t` counters are modelled as `Int`/`Nat`
(no claim in scope exercises their overflow). -/
structure Ctx where
  EOF_Reached : Bool
  consumed : List Char
  counter : Int
  alt_counter : Int
  indent_level : Int
  newline_counter : Nat
  src : List Char
  alt : List Char
  blockquote_in_list : Bool
  is_escaped : Bool
  is_image : Bool
  state : State
  warning_msg : String
  emitter : Emitter
  return_stack : List State
deriving DecidableEq

/-- `Context::emit_token`: close tokens clear `consumed`; content tokens move
`consumed` into the token; open tokens leave `consumed` untouched. -/
def Ctx.emit_token (ctx : Ctx) (ty : TokenType) (el : ElementType) : Except Err Ctx := do
  let (text, consumed2) :=
    match ty with
    | .OpenToken => ([], ctx.consumed)
    | .CloseToken => ([], [])
    | .ContentToken => (ctx.consumed, [])
    | .EOF_Token => ([], ctx.consumed)
  let em ← ctx.emitter.emit_token ⟨ty, el, text, [], []⟩
  pure { ctx with consumed := consumed2, emitter := em }

/-- `Context::emit_content_token`: skip when `consumed` is empty; lazily open
a `Paragraph` when the cursor still sits on `DOCSTART`. -/
def Ctx.emit_content_token (ctx : Ctx) : Except Err Ctx := do
  if ctx.consumed.isEmpty then pure ctx
  else
    let cur ← ctx.emitter.fetch_current_element
    if cur = .DOCSTART then
      let ctx ← ctx.emit_token .OpenToken .Paragraph
      ctx.emit_token .ContentToken .Content
    else
      ctx.emit_token .ContentToken .Content

/-- `Context::handle_pipe_in_table`. -/
def Ctx.handle_pipe_in_table (ctx : Ctx) (to_emit : List Char) (full : Bool) :
    Except Err Ctx := do
  let to_close : ElementType :=
    if (RSS.top ctx.return_stack).1 = .TableCellData then .Table_Cell else .Table_Head
  let ctx := { ctx with
    consumed := if full then to_emit else to_emit ++ ctx.consumed }
  let ctx ← ctx.emit_token .ContentToken .Content
  let (s, st, _) := RSS.top_n_pop ctx.return_stack
  let ctx := { ctx with state := s, return_stack := st }
  let ctx ← ctx.emit_token .CloseToken to_close
  ctx.emit_token .OpenToken to_close

/-- `Context::handle_unexpected_newline`.  (Call sites that pass
`std::move(context.consumed)` leave the member empty; those call sites in the
model clear `consumed` before calling.) -/
def Ctx.handle_unexpected_newline (ctx : Ctx) (to_emit : List Char) (eofR : Bool) :
    Except Err Ctx := do
  let top := (RSS.top ctx.return_stack).1
  if top = .TableHeaderNames ∨ top = .TableCellData then
    let ctx := { ctx with consumed := ctx.consumed ++ to_emit }
    let ctx ← ctx.emit_token .ContentToken .Content
    let em ← ctx.emitter.handle_flag .TableFailed
    let ctx := { ctx with emitter := em }
    let (s, st, _) := RSS.top_n_pop ctx.return_stack
    pure { ctx with state := s, return_stack := st }
  else
    let ctx ←
      if ¬to_emit.isEmpty then
        let ctx := { ctx with consumed := ctx.consumed ++ to_emit }
        ctx.emit_content_token
      else pure ctx
    let currElement ← ctx.emitter.fetch_current_element
    let ctx ←
      if currElement = .Paragraph ∧ ¬eofR then
        pure { ctx with newline_counter := ctx.newline_counter + 1 }
      else
        let ctx := { ctx with newline_counter := 0 }
        ctx.emit_token .CloseToken currElement
    let (s, st, _) := RSS.top_n_pop ctx.return_stack
    pure { ctx with counter := 0, state := s, return_stack := st }

/-- `Context::setup_list_parsing`. -/
def Ctx.setup_list_parsing (ctx : Ctx) : Ctx :=
  { ctx with counter := 0, indent_level := 0 }

/-- `Context::move_up_the_tree`. -/
def Ctx.move_up_the_tree (ctx : Ctx) : Except Err Ctx := do
  let el ← ctx.emitter.fetch_current_element
  ctx.emit_token .CloseToken el

/-- `Context::consumed_only_whitespace`. -/
def Ctx.consumed_only_whitespace (ctx : Ctx) : Bool :=
  ctx.consumed.all (fun c => c == ' ' || c == '\t')

/-- Iterate `Context::move_up_the_tree` a fixed number of times (the C++
`for` loops over indentation levels). -/
def Ctx.move_up_times (ctx : Ctx) : Nat → Except Err Ctx
  | 0 => pure ctx
  | n + 1 => do
    let ctx ← ctx.move_up_the_tree
    ctx.move_up_times n

/-- Number of iterations of `for (short i = 0; i <= bound; i += 4)`. -/
def leLoopCount (bound : Int) : Nat :=
  if bound < 0 then 0 else bound.toNat / 4 + 1

/-- Number of iterations of `for (short i = 0; i < bound; i += 4)`. -/
def ltLoopCount (bound : Int) : Nat :=
  if bound ≤ 0 then 0 else (bound - 1).toNat / 4 + 1

/-- `emit_image` from `src/parsing/state_handlers.hpp`: the open token
carries `src` in `content`, `alt` in `alt` and `consumed` in `title`. -/
def emit_image (ctx : Ctx) : Except Err Ctx := do
  let em ← ctx.emitter.emit_token ⟨.OpenToken, .ImageType, ctx.src, ctx.alt, ctx.consumed⟩
  let ctx := { ctx with emitter := em }
  let ctx ← ctx.emit_token .CloseToken .ImageType
  pure { ctx with src := [], alt := [], consumed := [] }

/-- `emit_hyperlink` from `src/parsing/state_handlers.hpp`. -/
def emit_hyperlink (ctx : Ctx) : Except Err Ctx := do
  let em ← ctx.emitter.emit_token ⟨.OpenToken, .Hypertext, ctx.src, ctx.alt, ctx.consumed⟩
  let ctx := { ctx with emitter := em }
  let ctx ← ctx.emit_token .CloseToken .Hypertext
  pure { ctx with src := [], alt := [], consumed := [] }

/-- The underlying integer of an `ElementType` enumerator. -/
def ElementType.toIdx : ElementType → Nat
  | .DOCSTART => 0
  | .Content => 1
  | .Header_1 => 2
  | .Header_2 => 3
  | .Header_3 => 4
  | .Header_4 => 5
  | .Header_5 => 6
  | .Header_6 => 7
  | .Paragraph => 8
  | .Codeblock => 9
  | .Horizontalline => 10
  | .Hypertext => 11
  | .ImageType => 12
  | .Span => 13
  | .List_Ordered => 14
  | .List_Unordered => 15
  | .List_Element => 16
  | .Table => 17
  | .Table_Head => 18
  | .Table_Row => 19
  | .Table_Cell => 20
  | .EOF_Reached => 21

/-- The `ElementType` enumerator with a given underlying integer (values
outside the enumerator range are undefined behaviour in C++; they are mapped
to the last enumerator here and are never reached by the theorems below). -/
def elementFromIdx (i : Int) : ElementType :=
  if i = 0 then .DOCSTART
  else if i = 1 then .Content
  else if i = 2 then .Header_1
  else if i = 3 then .Header_2
  else if i = 4 then .Header_3
  else if i = 5 then .Header_4
  else if i = 6 then .Header_5
  else if i = 7 then .Header_6
  else if i = 8 then .Paragraph
  else if i = 9 then .Codeblock
  else if i = 10 then .Horizontalline
  else if i = 11 then .Hypertext
  else if i = 12 then .ImageType
  else if i = 13 then .Span
  else if i = 14 then .List_Ordered
  else if i = 15 then .List_Unordered
  else if i = 16 then .List_Element
  else if i = 17 then .Table
  else if i = 18 then .Table_Head
  else if i = 19 then .Table_Row
  else if i = 20 then .Table_Cell
  else .EOF_Reached

/-- The underlying integer of an `Attribute` enumerator. -/
def Attribute.toIdx : Attribute → Nat
  | .Bold => 0
  | .Italic => 1
  | .FontSize1 => 2
  | .FontSize2 => 3
  | .FontSize3 => 4
  | .FontSize4 => 5
  | .FontSize5 => 6
  | .FontSize6 => 7
  | .Inline => 8
  | .Block => 9
  | .BlockQuote => 10
  | .TableStyle => 11
  | .TableHeader => 12
  | .TableRow => 13
  | .TableCell => 14
  | .ImageAttr => 15

/-- The `Attribute` enumerator with a given underlying integer (values
outside the range map to the last enumerator; never reached below). -/
def attributeFromIdx (i : Int) : Attribute :=
  if i = 0 then .Bold
  else if i = 1 then .Italic
  else if i = 2 then .FontSize1
  else if i = 3 then .FontSize2
  else if i = 4 then .FontSize3
  else if i = 5 then .FontSize4
  else if i = 6 then .FontSize5
  else if i = 7 then .FontSize6
  else if i = 8 then .Inline
  else if i = 9 then .Block
  else if i = 10 then .BlockQuote
  else if i = 11 then .TableStyle
  else if i = 12 then .TableHeader
  else if i = 13 then .TableRow
  else if i = 14 then .TableCell
  else .ImageAttr

/-- `EnumArithmetic::operator()` on `ElementType`. -/
def enumOpElement (e : ElementType) (offset : Int) : ElementType :=
  elementFromIdx ((e.toIdx : Int) + offset)

/-- `EnumArithmetic::operator()` on `Attribute`. -/
def enumOpAttribute (a : Attribute) (offset : Int) : Attribute :=
  attributeFromIdx ((a.toIdx : Int) + offset)

/-- A string of `n` copies of `c` (the C++ `for` loops that re-materialise
counted sigils). -/
def charRun (c : Char) (n : Int) : List Char :=
  List.replicate n.toNat c

/-- The single character produced by the C++ integral promotion bug
`char + char`: both operands are promoted to `int`, added, and the sum is
narrowed back to a `char`.  For ASCII operands the result is the byte
`(a + b) mod 256`, not a two-character string. -/
def charPlusChar (a b : Char) : Char :=
  Char.ofNat ((a.toNat + b.toNat) % 256)

namespace handlers

/-- `handlers::handleData`. -/
def handleData (ctx : Ctx) (next : Char) : Except Err Ctx := do
  if next = '#' then
    if ctx.consumed.isEmpty then
      let st ← RSS.push .Data ctx.return_stack
      pure { ctx with return_stack := st, counter := ctx.counter + 1,
                      state := .DataHashtag }
    else pure { ctx with consumed := ctx.consumed ++ [next] }
  else if next = '*' then
    let ctx ← ctx.emit_content_token
    let st ← RSS.push .Data ctx.return_stack
    pure { ctx with return_stack := st, state := .DataAsterisk }
  else if next = '-' then
    if ctx.consumed.isEmpty then
      let st ← RSS.push .Data ctx.return_stack
      pure { ctx with counter := ctx.counter + 1, return_stack := st,
                      state := .HorizontalLine }
    else pure { ctx with consumed := ctx.consumed ++ [next] }
  else if next = backtickChar then
    let ctx ← ctx.emit_content_token
    let st ← RSS.push .Data ctx.return_stack
    pure { ctx with return_stack := st, state := .DataBacktick }
  else if next = '>' then
    if ctx.consumed.isEmpty then
      let ctx ← ctx.emit_token .OpenToken .Span
      let em ← ctx.emitter.add_attribute .BlockQuote
      let ctx := { ctx with emitter := em }
      let st ← RSS.push .Data ctx.return_stack
      pure { ctx with return_stack := st }
    else pure { ctx with consumed := ctx.consumed ++ [next] }
  else if next = '[' then
    let ctx ← ctx.emit_content_token
    let st ← RSS.push .Data ctx.return_stack
    pure { ctx with return_stack := st, is_image := false,
                    state := .AltOpenSquared }
  else if next = '!' then
    let ctx ← ctx.emit_content_token
    let st ← RSS.push .Data ctx.return_stack
    pure { ctx with state := .Image, is_image := true, return_stack := st }
  else if next = '|' then
    if ctx.consumed_only_whitespace then
      let ctx := { ctx with consumed := [], state := .TableHeaderNames }
      let st ← RSS.push .Data ctx.return_stack
      let ctx := { ctx with return_stack := st }
      let ctx ← ctx.emit_token .OpenToken .Table
      let ctx ← ctx.emit_token .OpenToken .Table_Row
      ctx.emit_token .OpenToken .Table_Head
    else pure { ctx with consumed := ctx.consumed ++ ['|'] }
  else if next = '\n' then
    let curr_el ← ctx.emitter.fetch_current_element
    let ctx ← ctx.emit_content_token
    let ctx ←
      if ctx.newline_counter = 1 ∧ curr_el = .Paragraph then
        ctx.emit_token .CloseToken .Paragraph
      else if curr_el ≠ .DOCSTART ∧ curr_el ≠ .Paragraph then
        let ctx ← ctx.emit_token .CloseToken curr_el
        let ctx ←
          if ctx.blockquote_in_list then
            let ctx ← ctx.emit_token .CloseToken .List_Element
            pure { ctx with blockquote_in_list := false }
          else pure ctx
        let (s, st, _) := RSS.top_n_pop ctx.return_stack
        pure { ctx with state := s, return_stack := st }
      else pure ctx
    if curr_el = .Paragraph then
      pure { ctx with newline_counter := ctx.newline_counter + 1 }
    else pure ctx
  else
    if ctx.consumed.isEmpty ∧ next.isDigit then
      let st ← RSS.push .Data ctx.return_stack
      pure { ctx with consumed := ctx.consumed ++ [next], return_stack := st,
                      state := .DataConsumingNumber }
    else pure { ctx with consumed := ctx.consumed ++ [next] }

/-- `handlers::handleHashtag`. -/
def handleHashtag (ctx : Ctx) (next : Char) : Except Err Ctx := do
  if next = '#' ∧ ctx.counter < 6 then
    pure { ctx with counter := ctx.counter + 1 }
  else if next = ' ' then
    let ctx ← ctx.emit_token .OpenToken (enumOpElement .Header_1 (ctx.counter - 1))
    let em ← ctx.emitter.add_attribute .Bold
    let ctx := { ctx with emitter := em }
    let em ← ctx.emitter.add_attribute (enumOpAttribute .FontSize1 (ctx.counter - 1))
    let ctx := { ctx with emitter := em, counter := 0 }
    let st ← RSS.push .Data ctx.return_stack
    pure { ctx with return_stack := st, state := .Data }
  else if next = '\n' then
    let ctx := { ctx with consumed := ctx.consumed ++ charRun '#' ctx.counter }
    -- `std::move(context.consumed)` empties the member before the call
    Ctx.handle_unexpected_newline { ctx with consumed := [] } ctx.consumed ctx.EOF_Reached
  else
    -- the current character `next` is dropped here (see the heading-bound
    -- theorems below)
    let ctx := { ctx with consumed := ctx.consumed ++ charRun '#' ctx.counter }
    let (s, st, _) := RSS.top_n_pop ctx.return_stack
    pure { ctx with state := s, return_stack := st }

/-- `handlers::handleDataAsterisk`. -/
def handleDataAsterisk (ctx : Ctx) (next : Char) : Except Err Ctx := do
  if next = '*' then
    pure { ctx with state := .DataDoubleAsterisk }
  else if next = '\n' then
    let ctx := { ctx with warning_msg := "unclosed asterisk" }
    ctx.handle_unexpected_newline ['*'] ctx.EOF_Reached
  else if next = '|' ∧
      ((RSS.top ctx.return_stack).1 = .TableHeaderNames ∨
       (RSS.top ctx.return_stack).1 = .TableCellData) then
    let ctx := { ctx with warning_msg := "unclosed asterisk" }
    ctx.handle_pipe_in_table ['*'] false
  else
    pure { ctx with consumed := ctx.consumed ++ [next], state := .DataAsteriskData }

/-- `handlers::handleAsteriskData`.  The `'\n'` call site does not move
`consumed`, so `handle_unexpected_newline` appends `'*' + consumed` to the
still-populated buffer. -/
def handleAsteriskData (ctx : Ctx) (next : Char) : Except Err Ctx := do
  if next = '*' then
    let ctx ← ctx.emit_token .OpenToken .Span
    let em ← ctx.emitter.add_attribute .Italic
    let ctx := { ctx with emitter := em }
    let ctx ← ctx.emit_token .ContentToken .Content
    let ctx ← ctx.emit_token .CloseToken .Span
    let (s, st, _) := RSS.top_n_pop ctx.return_stack
    pure { ctx with state := s, return_stack := st }
  else if next = '\n' then
    let ctx := { ctx with warning_msg := "unclosed asterisk" }
    ctx.handle_unexpected_newline ('*' :: ctx.consumed) ctx.EOF_Reached
  else if next = '|' ∧
      ((RSS.top ctx.return_stack).1 = .TableCellData ∨
       (RSS.top ctx.return_stack).1 = .TableHeaderNames) then
    let ctx := { ctx with warning_msg := "unclosed asterisk" }
    ctx.handle_pipe_in_table ['*'] false
  else
    pure { ctx with consumed := ctx.consumed ++ [next] }

/-- `handlers::handleDoubleAsterisk`. -/
def handleDoubleAsterisk (ctx : Ctx) (next : Char) : Except Err Ctx := do
  if next = '*' then
    pure { ctx with state := .DataTripleAsterisk }
  else if next = '\n' then
    let ctx := { ctx with warning_msg := "unclosed asterisk" }
    ctx.handle_unexpected_newline ['*', '*'] ctx.EOF_Reached
  else if next = '|' ∧
      ((RSS.top ctx.return_stack).1 = .TableHeaderNames ∨
       (RSS.top ctx.return_stack).1 = .TableCellData) then
    let ctx := { ctx with warning_msg := "unclosed asterisk" }
    ctx.handle_pipe_in_table ['*', '*'] false
  else
    pure { ctx with consumed := ctx.consumed ++ [next],
                    state := .DataDoubleAsteriskData }

/-- `handlers::handleDataDoubleAsteriskData`. -/
def handleDataDoubleAsteriskData (ctx : Ctx) (next : Char) : Except Err Ctx := do
  if next = '*' then
    let ctx := { ctx with counter := ctx.counter + 1 }
    if ctx.counter = (2 : Int) then
      let ctx := { ctx with counter := 0 }
      let ctx ← ctx.emit_token .OpenToken .Span
      let em ← ctx.emitter.add_attribute .Bold
      let ctx := { ctx with emitter := em }
      let ctx ← ctx.emit_token .ContentToken .Content
      let ctx ← ctx.emit_token .CloseToken .Span
      let (s, st, _) := RSS.top_n_pop ctx.return_stack
      pure { ctx with state := s, return_stack := st }
    else pure ctx
  else if next = '\n' then
    let ctx := { ctx with warning_msg := "unclosed asterisk" }
    let ctx := { ctx with consumed := ['*', '*'] ++ ctx.consumed }
    let ctx :=
      if ctx.counter = 1 then { ctx with consumed := ctx.consumed ++ ['*'] }
      else ctx
    Ctx.handle_unexpected_newline { ctx with consumed := [] } ctx.consumed ctx.EOF_Reached
  else if next = '|' ∧
      ((RSS.top ctx.return_stack).1 = .TableCellData ∨
       (RSS.top ctx.return_stack).1 = .TableHeaderNames) then
    let ctx := { ctx with warning_msg := "unclosed asterisk" }
    ctx.handle_pipe_in_table ['*', '*'] false
  else
    let ctx := if ctx.counter ≠ 0 then { ctx with counter := 0 } else ctx
    pure { ctx with consumed := ctx.consumed ++ [next] }

/-- `handlers::handleDataTripleAsterisk`.  A fourth `*` turns the whole run
into the literal text `****` and resets the state without emitting. -/
def handleDataTripleAsterisk (ctx : Ctx) (next : Char) : Except Err Ctx := do
  if next = '*' then
    let ctx := { ctx with consumed := ctx.consumed ++ ['*', '*', '*', '*'] }
    let (s, st, _) := RSS.top_n_pop ctx.return_stack
    pure { ctx with state := s, return_stack := st }
  else if next = '\n' then
    let ctx := { ctx with warning_msg := "unclosed asterisk" }
    ctx.handle_unexpected_newline ['*', '*', '*'] ctx.EOF_Reached
  else if next = '|' ∧
      ((RSS.top ctx.return_stack).1 = .TableHeaderNames ∨
       (RSS.top ctx.return_stack).1 = .TableCellData) then
    let ctx := { ctx with warning_msg := "unclosed asterisk" }
    ctx.handle_pipe_in_table ['*', '*', '*'] false
  else
    pure { ctx with consumed := ctx.consumed ++ [next],
                    state := .DataTripleAsteriskData }

/-- `handlers::handleDataTripleAsteriskData`. -/
def handleDataTripleAsteriskData (ctx : Ctx) (next : Char) : Except Err Ctx := do
  if next = '*' then
    let ctx := { ctx with counter := ctx.counter + 1 }
    if ctx.counter = (3 : Int) then
      let ctx := { ctx with counter := 0 }
      let ctx ← ctx.emit_token .OpenToken .Span
      let em ← ctx.emitter.add_attribute .Bold
      let ctx := { ctx with emitter := em }
      let em ← ctx.emitter.add_attribute .Italic
      let ctx := { ctx with emitter := em }
      let ctx ← ctx.emit_token .ContentToken .Content
      let ctx ← ctx.emit_token .CloseToken .Span
      let (s, st, _) := RSS.top_n_pop ctx.return_stack
      pure { ctx with state := s, return_stack := st }
    else pure ctx
  else if next = '\n' then
    let ctx := { ctx with warning_msg := "unclosed asterisk" }
    let ctx := { ctx with consumed := ['*', '*', '*'] ++ ctx.consumed ++ charRun '*' ctx.counter }
    Ctx.handle_unexpected_newline { ctx with consumed := [] } ctx.consumed ctx.EOF_Reached
  else if next = '|' ∧
      ((RSS.top ctx.return_stack).1 = .TableCellData ∨
       (RSS.top ctx.return_stack).1 = .TableHeaderNames) then
    let ctx := { ctx with warning_msg := "unclosed asterisk" }
    ctx.handle_pipe_in_table ['*', '*', '*'] false
  else
    let ctx := if ctx.counter ≠ 0 then { ctx with counter := 0 } else ctx
    pure { ctx with consumed := ctx.consumed ++ [next] }

/-- `handlers::handleDataConsumingNumber`. -/
def handleDataConsumingNumber (ctx : Ctx) (next : Char) : Except Err Ctx := do
  if next = '.' then
    pure { ctx with consumed := ctx.consumed ++ ['.'], state := .DataOrdinalNumber }
  else if next = '\n' then
    Ctx.handle_unexpected_newline { ctx with consumed := [] } ctx.consumed ctx.EOF_Reached
  else
    let (s, st, _) := RSS.top_n_pop ctx.return_stack
    pure { ctx with consumed := ctx.consumed ++ [next], state := s, return_stack := st }

/-- `handlers::handleDataOrdinalNumber`. -/
def handleDataOrdinalNumber (ctx : Ctx) (next : Char) : Except Err Ctx := do
  if next = ' ' then
    let ctx := { ctx with consumed := [] }
    let cur ← ctx.emitter.fetch_current_element
    if cur = .List_Ordered ∨ cur = .List_Unordered then
      if ctx.counter ≥ ctx.indent_level + (4 : Int) then
        let ctx := { ctx with indent_level := ctx.counter, counter := 0 }
        let ctx ← ctx.emit_token .OpenToken .List_Ordered
        let ctx ← ctx.emit_token .OpenToken .List_Element
        let ctx ←
          if ctx.blockquote_in_list then
            let ctx ← ctx.emit_token .OpenToken .Span
            let em ← ctx.emitter.add_attribute .BlockQuote
            pure { ctx with emitter := em }
          else pure ctx
        let st ← RSS.push .OrderedListPrep ctx.return_stack
        pure { ctx with return_stack := st, state := .Data }
      else
        let ctx :=
          if ctx.counter % 4 ≠ (0 : Int) then { ctx with counter := ctx.counter - 1 }
          else ctx
        let curr_indent : Int := (ctx.indent_level - ctx.counter) / 4
        let ctx := { ctx with indent_level := ctx.counter, counter := 0 }
        let ctx ← ctx.move_up_times curr_indent.toNat
        let st ← RSS.push .OrderedListPrep ctx.return_stack
        let ctx := { ctx with return_stack := st }
        let ctx ← ctx.emit_token .OpenToken .List_Element
        let ctx ←
          if ctx.blockquote_in_list then
            let ctx ← ctx.emit_token .OpenToken .Span
            let em ← ctx.emitter.add_attribute .BlockQuote
            pure { ctx with emitter := em }
          else pure ctx
        pure { ctx with state := .Data }
    else
      let ctx ← ctx.emit_token .OpenToken .List_Ordered
      let ctx ← ctx.emit_token .OpenToken .List_Element
      let st ← RSS.push .OrderedListPrep ctx.return_stack
      pure { ctx with return_stack := st, state := .Data }
  else if next = '\n' then
    Ctx.handle_unexpected_newline { ctx with consumed := [] } ctx.consumed ctx.EOF_Reached
  else
    let (s, st, _) := RSS.top_n_pop ctx.return_stack
    pure { ctx with consumed := ctx.consumed ++ [next], state := s, return_stack := st }

/-- `handlers::handleHorizontalLine`. -/
def handleHorizontalLine (ctx : Ctx) (next : Char) : Except Err Ctx := do
  if next = '-' then
    pure { ctx with counter := ctx.counter + 1 }
  else if next = '\n' then
    if ctx.counter ≥ 3 then
      let ctx ← ctx.emit_token .OpenToken .Horizontalline
      let ctx ← ctx.emit_token .CloseToken .Horizontalline
      let (s, st, _) := RSS.top_n_pop ctx.return_stack
      pure { ctx with state := s, return_stack := st, counter := 0 }
    else
      let ctx := { ctx with consumed := ctx.consumed ++ charRun '-' ctx.counter,
                            counter := 0 }
      let ctx ← ctx.emit_content_token
      let (s, st, _) := RSS.top_n_pop ctx.return_stack
      pure { ctx with state := s, return_stack := st }
  else
    if (next = ' ' ∨ next = '\t') ∧ ctx.counter = (1 : Int) then
      let ctx ← ctx.emit_token .OpenToken .List_Unordered
      let ctx ← ctx.emit_token .OpenToken .List_Element
      let ctx := { ctx with state := .Data }
      let st ← RSS.push .UnorderedListPrep ctx.return_stack
      pure (Ctx.setup_list_parsing { ctx with return_stack := st })
    else
      let ctx := { ctx with consumed := ctx.consumed ++ charRun '-' ctx.counter,
                            counter := 0 }
      let ctx := { ctx with consumed := ctx.consumed ++ [next] }
      let ctx ← ctx.emit_content_token
      let (s, st, _) := RSS.top_n_pop ctx.return_stack
      pure { ctx with state := s, return_stack := st }

/-- `handlers::handleDataBacktick`. -/
def handleDataBacktick (ctx : Ctx) (next : Char) : Except Err Ctx := do
  if next = backtickChar then
    if (RSS.top ctx.return_stack).1 = .TableHeaderNames ∨
       (RSS.top ctx.return_stack).1 = .TableCellData then
      let ctx := { ctx with consumed := [backtickChar, backtickChar] }
      let ctx ← ctx.emit_token .ContentToken .Content
      let (s, st, _) := RSS.top_n_pop ctx.return_stack
      pure { ctx with state := s, return_stack := st }
    else
      pure { ctx with state := .DataDoubleBacktick }
  else if next = '\n' then
    let ctx := { ctx with warning_msg := "unclosed backtick" }
    ctx.handle_unexpected_newline [backtickChar] ctx.EOF_Reached
  else if next = '|' ∧
      ((RSS.top ctx.return_stack).1 = .TableHeaderNames ∨
       (RSS.top ctx.return_stack).1 = .TableCellData) then
    let ctx := { ctx with warning_msg := "unclosed backtick" }
    ctx.handle_pipe_in_table [backtickChar] false
  else
    pure { ctx with consumed := ctx.consumed ++ [next], state := .CodeInline }

/-- `handlers::handleDataDoubleBacktick`.  In the default branch `consumed`
is replaced by the literal "``" and the current character is dropped. -/
def handleDataDoubleBacktick (ctx : Ctx) (next : Char) : Except Err Ctx := do
  if next = backtickChar then
    pure { ctx with state := .CodeBlock }
  else if next = '\n' then
    ctx.handle_unexpected_newline [backtickChar, backtickChar] ctx.EOF_Reached
  else
    let ctx := { ctx with consumed := [backtickChar, backtickChar] }
    let ctx ← ctx.emit_content_token
    let (s, st, _) := RSS.top_n_pop ctx.return_stack
    pure { ctx with state := s, return_stack := st }

/-- `handlers::handleCodeInlineState`.  The `'\n'` call site does not move
`consumed`. -/
def handleCodeInlineState (ctx : Ctx) (next : Char) : Except Err Ctx := do
  if next = backtickChar then
    let ctx ← ctx.emit_token .OpenToken .Codeblock
    let em ← ctx.emitter.add_attribute .Inline
    let ctx := { ctx with emitter := em }
    let ctx ← ctx.emit_token .ContentToken .Content
    let ctx ← ctx.emit_token .CloseToken .Codeblock
    let (s, st, _) := RSS.top_n_pop ctx.return_stack
    pure { ctx with state := s, return_stack := st }
  else if next = '\n' then
    let ctx := { ctx with warning_msg := "unclosed backtick" }
    ctx.handle_unexpected_newline (backtickChar :: ctx.consumed) ctx.EOF_Reached
  else if next = '|' ∧
      ((RSS.top ctx.return_stack).1 = .TableHeaderNames ∨
       (RSS.top ctx.return_stack).1 = .TableCellData) then
    let ctx := { ctx with warning_msg := "unclosed backtick" }
    ctx.handle_pipe_in_table [backtickChar] false
  else
    pure { ctx with consumed := ctx.consumed ++ [next] }

/-- `handlers::handleCodeBlock`.  A newline falls through into the default
branch and is appended to the code text. -/
def handleCodeBlock (ctx : Ctx) (next : Char) : Except Err Ctx := do
  if next = backtickChar then
    let ctx := { ctx with counter := ctx.counter + 1 }
    if ctx.counter = (3 : Int) then
      let ctx ← ctx.emit_token .OpenToken .Codeblock
      let em ← ctx.emitter.add_attribute .Block
      let ctx := { ctx with emitter := em }
      let ctx ← ctx.emit_token .ContentToken .Content
      let ctx ← ctx.emit_token .CloseToken .Codeblock
      let ctx := { ctx with counter := 0 }
      let (s, st, _) := RSS.top_n_pop ctx.return_stack
      pure { ctx with state := s, return_stack := st }
    else pure ctx
  else
    let ctx :=
      if ctx.counter ≠ 0 then
        { ctx with consumed := ctx.consumed ++ charRun backtickChar ctx.counter, counter := 0 }
      else ctx
    pure { ctx with consumed := ctx.consumed ++ [next] }

/-- `handlers::handleUnorderedListPrep`. -/
def handleUnorderedListPrep (ctx : Ctx) (next : Char) : Except Err Ctx := do
  if next = '\n' then
    let (s, st, _) := RSS.top_n_pop ctx.return_stack
    let ctx := { ctx with state := s, return_stack := st }
    let ctx ← ctx.move_up_times (leLoopCount ctx.indent_level)
    pure ctx.setup_list_parsing
  else if next = ' ' then
    pure { ctx with counter := ctx.counter + 1 }
  else if next = '\t' then
    pure { ctx with counter := ctx.counter + 4 }
  else if next = '*' ∨ next = '+' ∨ next = '>' ∨ next = '-' then
    if ctx.counter > ctx.indent_level + (4 : Int) then
      let ctx ← ctx.move_up_times (leLoopCount ctx.indent_level)
      let (s, st, _) := RSS.top_n_pop ctx.return_stack
      let ctx := { ctx with state := s, return_stack := st }
      let ctx := ctx.setup_list_parsing
      pure { ctx with consumed := [next] }
    else
      let ctx := if next = '>' then { ctx with blockquote_in_list := true } else ctx
      pure { ctx with state := .UnorderedList }
  else
    let ctx := { ctx with consumed := ctx.consumed ++ [next] }
    if next.isDigit then
      pure { ctx with state := .DataConsumingNumber }
    else
      let ctx ← ctx.move_up_times (leLoopCount ctx.indent_level)
      let (s, st, _) := RSS.top_n_pop ctx.return_stack
      pure (Ctx.setup_list_parsing { ctx with state := s, return_stack := st })

/-- `handlers::handleUnorderedList`.  The default branch contains the C++
`char + char` bug: `consumed = '-' + next` stores the single character
`('-' + next) mod 256`. -/
def handleUnorderedList (ctx : Ctx) (next : Char) : Except Err Ctx := do
  if next = '\t' ∨ next = ' ' then
    if ctx.counter ≥ ctx.indent_level + (4 : Int) then
      let ctx := { ctx with indent_level := ctx.counter, counter := 0 }
      let ctx ← ctx.emit_token .OpenToken .List_Unordered
      let ctx ← ctx.emit_token .OpenToken .List_Element
      let ctx := { ctx with state := .Data }
      let ctx ←
        if ctx.blockquote_in_list then
          let ctx ← ctx.emit_token .OpenToken .Span
          let em ← ctx.emitter.add_attribute .BlockQuote
          pure { ctx with emitter := em }
        else pure ctx
      let st ← RSS.push .UnorderedListPrep ctx.return_stack
      pure { ctx with return_stack := st }
    else
      let ctx :=
        if ctx.counter % 4 ≠ (0 : Int) then { ctx with counter := ctx.counter - 1 }
        else ctx
      let curr_indent : Int := (ctx.indent_level - ctx.counter) / 4
      let ctx := { ctx with indent_level := ctx.counter, counter := 0 }
      let ctx ← ctx.move_up_times curr_indent.toNat
      let ctx := { ctx with state := .Data }
      let ctx ← ctx.emit_token .OpenToken .List_Element
      let ctx ←
        if ctx.blockquote_in_list then
          let ctx ← ctx.emit_token .OpenToken .Span
          let em ← ctx.emitter.add_attribute .BlockQuote
          pure { ctx with emitter := em }
        else pure ctx
      let st ← RSS.push .UnorderedListPrep ctx.return_stack
      pure { ctx with return_stack := st }
  else
    let ctx ← ctx.move_up_times (ltLoopCount ctx.indent_level)
    let ctx := { ctx with consumed := [charPlusChar '-' next] }
    let ctx := { ctx with counter := 0 }
    let (s, st, _) := RSS.top_n_pop ctx.return_stack
    pure { ctx with state := s, return_stack := st, indent_level := 0 }

/-- `handlers::handleOrderedListPrep`. -/
def handleOrderedListPrep (ctx : Ctx) (next : Char) : Except Err Ctx := do
  if next = '\n' then
    let (s, st, _) := RSS.top_n_pop ctx.return_stack
    let ctx := { ctx with state := s, return_stack := st }
    let ctx ← ctx.move_up_times (leLoopCount ctx.indent_level)
    pure ctx.setup_list_parsing
  else if next = '\t' then
    pure { ctx with counter := ctx.counter + 4 }
  else if next = ' ' then
    pure { ctx with counter := ctx.counter + 1 }
  else if next = '+' ∨ next = '*' ∨ next = '-' ∨ next = '>' then
    if ctx.counter > ctx.indent_level + (4 : Int) then
      let ctx ← ctx.move_up_times (leLoopCount ctx.indent_level)
      let (s, st, _) := RSS.top_n_pop ctx.return_stack
      let ctx := { ctx with state := s, return_stack := st }
      let ctx := ctx.setup_list_parsing
      pure { ctx with consumed := [next] }
    else
      let ctx := if next = '>' then { ctx with blockquote_in_list := true } else ctx
      pure { ctx with state := .UnorderedList }
  else
    if next.isDigit then
      pure { ctx with consumed := ctx.consumed ++ [next],
                      state := .DataConsumingNumber }
    else
      let ctx ← ctx.move_up_times (leLoopCount ctx.indent_level)
      let ctx := { ctx with consumed := ctx.consumed ++ [next] }
      let (s, st, _) := RSS.top_n_pop ctx.return_stack
      pure (Ctx.setup_list_parsing { ctx with state := s, return_stack := st })

/-- `handlers::handleImage`.  The default branch contains the C++
`char + char` bug: `consumed = '!' + next` stores the single character
`('!' + next) mod 256`. -/
def handleImage (ctx : Ctx) (next : Char) : Except Err Ctx := do
  if next = '[' then
    pure { ctx with state := .AltOpenSquared }
  else if next = '\n' then
    ctx.handle_unexpected_newline ['!'] ctx.EOF_Reached
  else
    let ctx := { ctx with consumed := [charPlusChar '!' next] }
    let (s, st, _) := RSS.top_n_pop ctx.return_stack
    pure { ctx with state := s, return_stack := st }

/-- `handlers::handleAltOpenSquared`.  The `'|'` case has no `break`: after
`handle_pipe_in_table` it falls through into the default branch and appends
the pipe to the (moved-from, hence emptied) `alt` buffer. -/
def handleAltOpenSquared (ctx : Ctx) (next : Char) : Except Err Ctx := do
  if next = ']' then
    pure { ctx with state := .AltClosedSquared }
  else if next = '\n' then
    let ctx := { ctx with consumed := ['['] ++ ctx.alt }
    let ctx :=
      if ctx.is_image then { ctx with consumed := '!' :: ctx.consumed } else ctx
    let ctx ← Ctx.handle_unexpected_newline { ctx with consumed := [] }
      ctx.consumed ctx.EOF_Reached
    pure { ctx with alt := [] }
  else if next = '|' then
    let ctx ←
      if ¬ctx.is_image ∧
          ((RSS.top ctx.return_stack).1 = .TableHeaderNames ∨
           (RSS.top ctx.return_stack).1 = .TableCellData) then
        let ctx ← Ctx.handle_pipe_in_table { ctx with alt := [] }
          ('[' :: ctx.alt) true
        pure ctx
      else pure ctx
    pure { ctx with alt := ctx.alt ++ [next] }
  else
    pure { ctx with alt := ctx.alt ++ [next] }

/-- `handlers::handleAltClosedSquared`.  The `'|'` case breaks inside the
table branch only; otherwise it falls through into the default branch. -/
def handleAltClosedSquared (ctx : Ctx) (next : Char) : Except Err Ctx := do
  if next = '(' then
    pure { ctx with state := .UrlOpenRound }
  else if next = '\n' then
    let ctx := { ctx with consumed := ['['] ++ ctx.alt ++ [']'] ++ ctx.consumed }
    let ctx :=
      if ctx.is_image then { ctx with consumed := '!' :: ctx.consumed } else ctx
    let ctx ← Ctx.handle_unexpected_newline { ctx with consumed := [] }
      ctx.consumed ctx.EOF_Reached
    pure { ctx with alt := [] }
  else if next = '|' ∧ ¬ctx.is_image ∧
      ((RSS.top ctx.return_stack).1 = .TableHeaderNames ∨
       (RSS.top ctx.return_stack).1 = .TableCellData) then
    Ctx.handle_pipe_in_table { ctx with alt := [] } ('[' :: ctx.alt ++ [']']) true
  else
    let ctx := { ctx with consumed := ['['] ++ ctx.alt ++ [']'] ++ [next] }
    let ctx :=
      if ctx.is_image then { ctx with consumed := '!' :: ctx.consumed } else ctx
    let (s, st, _) := RSS.top_n_pop ctx.return_stack
    pure { ctx with state := s, return_stack := st, alt := [] }

/-- `handlers::handleUrlOpenRound`.  The `'|'` table branch constructs its
fallback text with `'[' + alt + "[("` (the second bracket is `[` in the
source, not `]`). -/
def handleUrlOpenRound (ctx : Ctx) (next : Char) : Except Err Ctx := do
  if next = ')' then
    let ctx ← if ctx.is_image then emit_image ctx else emit_hyperlink ctx
    let (s, st, _) := RSS.top_n_pop ctx.return_stack
    pure { ctx with state := s, return_stack := st }
  else if next = ' ' then
    pure { ctx with state := .TitleOpenRound }
  else if next = '\n' then
    let ctx := { ctx with consumed := ['['] ++ ctx.alt ++ [']', '('] ++ ctx.consumed }
    let ctx :=
      if ctx.is_image then { ctx with consumed := '!' :: ctx.consumed } else ctx
    let ctx ← Ctx.handle_unexpected_newline { ctx with consumed := [] }
      ctx.consumed ctx.EOF_Reached
    pure { ctx with alt := [], src := [] }
  else if next = '|' ∧ ¬ctx.is_image ∧
      ((RSS.top ctx.return_stack).1 = .TableHeaderNames ∨
       (RSS.top ctx.return_stack).1 = .TableCellData) then
    ctx.handle_pipe_in_table ('[' :: ctx.alt ++ ['[', '(']) false
  else
    pure { ctx with src := ctx.src ++ [next] }

/-- `handlers::handleTitleOpenRound`. -/
def handleTitleOpenRound (ctx : Ctx) (next : Char) : Except Err Ctx := do
  if next = '"' then
    pure { ctx with state := .TitleConsuming }
  else if next = '\n' then
    let ctx := { ctx with consumed := ['['] ++ ctx.alt ++ [']', '('] ++ ctx.src ++ [' '] }
    let ctx :=
      if ctx.is_image then { ctx with consumed := '!' :: ctx.consumed } else ctx
    let ctx ← Ctx.handle_unexpected_newline { ctx with consumed := [] }
      ctx.consumed ctx.EOF_Reached
    pure { ctx with alt := [], src := [] }
  else if next = '|' ∧ ¬ctx.is_image ∧
      ((RSS.top ctx.return_stack).1 = .TableHeaderNames ∨
       (RSS.top ctx.return_stack).1 = .TableCellData) then
    ctx.handle_pipe_in_table (['['] ++ ctx.alt ++ [']', '('] ++ ctx.src ++ [' ']) true
  else
    let ctx := { ctx with consumed := ['['] ++ ctx.alt ++ [']', '('] ++ ctx.src ++ [' '] ++ [next] }
    let ctx :=
      if ctx.is_image then { ctx with consumed := '!' :: ctx.consumed } else ctx
    let (s, st, _) := RSS.top_n_pop ctx.return_stack
    pure { ctx with state := s, return_stack := st, alt := [], src := [] }

/-- `handlers::handleTitleConsuming`.  The `'\n'` fallback starts with a
literal `"!["` even for hyperlinks, and prefixes a further `'!'` for
images. -/
def handleTitleConsuming (ctx : Ctx) (next : Char) : Except Err Ctx := do
  if next = '"' then
    pure { ctx with state := .TitleClosedRound }
  else if next = '\n' then
    let ctx := { ctx with
      consumed := ['!', '['] ++ ctx.alt ++ [']', '('] ++ ctx.src ++ [' ', '"'] ++ ctx.consumed }
    let ctx :=
      if ctx.is_image then { ctx with consumed := '!' :: ctx.consumed } else ctx
    let ctx ← Ctx.handle_unexpected_newline { ctx with consumed := [] }
      ctx.consumed ctx.EOF_Reached
    pure { ctx with alt := [], src := [] }
  else if next = '|' ∧ ¬ctx.is_image ∧
      ((RSS.top ctx.return_stack).1 = .TableHeaderNames ∨
       (RSS.top ctx.return_stack).1 = .TableCellData) then
    ctx.handle_pipe_in_table (['['] ++ ctx.alt ++ [']', '('] ++ ctx.src ++ ['"']) false
  else
    pure { ctx with consumed := ctx.consumed ++ [next] }

/-- `handlers::handleTitleClosedRound`.  The default fallback always starts
with `"!["` and never adds the image prefix. -/
def handleTitleClosedRound (ctx : Ctx) (next : Char) : Except Err Ctx := do
  if next = ')' then
    let ctx ← if ctx.is_image then emit_image ctx else emit_hyperlink ctx
    let (s, st, _) := RSS.top_n_pop ctx.return_stack
    pure { ctx with state := s, return_stack := st }
  else if next = '\n' then
    let ctx := { ctx with
      consumed := ['['] ++ ctx.alt ++ [']', '('] ++ ctx.src ++ [' ', '"'] ++ ctx.consumed ++ ['"'] }
    let ctx :=
      if ctx.is_image then { ctx with consumed := '!' :: ctx.consumed } else ctx
    let ctx ← Ctx.handle_unexpected_newline { ctx with consumed := [] }
      ctx.consumed ctx.EOF_Reached
    pure { ctx with alt := [], src := [] }
  else if next = '|' ∧ ¬ctx.is_image ∧
      ((RSS.top ctx.return_stack).1 = .TableHeaderNames ∨
       (RSS.top ctx.return_stack).1 = .TableCellData) then
    ctx.handle_pipe_in_table
      (['['] ++ ctx.alt ++ [']', '('] ++ ctx.src ++ [' ', '"'] ++ ctx.consumed ++ ['"']) false
  else
    let ctx := { ctx with
      consumed := ['!', '['] ++ ctx.alt ++ [']', '('] ++ ctx.src ++ [' ', '"'] ++ ctx.consumed ++ [next] }
    let (s, st, _) := RSS.top_n_pop ctx.return_stack
    pure { ctx with state := s, return_stack := st, alt := [], src := [] }

/-- `handlers::handleTableHeaderNames`. -/
def handleTableHeaderNames (ctx : Ctx) (next : Char) : Except Err Ctx := do
  if next = '\n' then
    if ctx.consumed_only_whitespace then
      let ctx ← ctx.emit_token .CloseToken .Table_Head
      let ctx ← ctx.emit_token .CloseToken .Table_Row
      pure { ctx with state := .TableHeaderSeparationPipeAwaiting, counter := 0 }
    else
      let ctx ← ctx.emit_token .ContentToken .Content
      let em ← ctx.emitter.handle_flag .TableFailed
      let ctx := { ctx with emitter := em }
      let (s, st, _) := RSS.top_n_pop ctx.return_stack
      pure { ctx with state := s, return_stack := st }
  else if next = '|' then
    let ctx ← ctx.emit_token .ContentToken .Content
    let ctx ← ctx.emit_token .CloseToken .Table_Head
    ctx.emit_token .OpenToken .Table_Head
  else if next = '*' then
    let ctx ← ctx.emit_token .ContentToken .Content
    let ctx := { ctx with state := .DataAsterisk }
    let st ← RSS.push .TableHeaderNames ctx.return_stack
    pure { ctx with return_stack := st }
  else if next = backtickChar then
    let ctx ← ctx.emit_token .ContentToken .Content
    let ctx := { ctx with state := .DataBacktick }
    let st ← RSS.push .TableHeaderNames ctx.return_stack
    pure { ctx with return_stack := st }
  else if next = '[' then
    let ctx ← ctx.emit_token .ContentToken .Content
    let ctx := { ctx with state := .AltOpenSquared }
    let st ← RSS.push .TableHeaderNames ctx.return_stack
    pure { ctx with return_stack := st }
  else
    pure { ctx with consumed := ctx.consumed ++ [next] }

/-- `handlers::handleTableHeaderSeparationPipeAwaiting`. -/
def handleTableHeaderSeparationPipeAwaiting (ctx : Ctx) (next : Char) :
    Except Err Ctx := do
  if next = '\n' then
    let em ← ctx.emitter.handle_flag .TableFailed
    let ctx := { ctx with emitter := em }
    let ctx ← ctx.emit_content_token
    let (s, st, _) := RSS.top_n_pop ctx.return_stack
    pure { ctx with state := s, return_stack := st }
  else if next = ' ' ∨ next = '\t' then
    pure { ctx with consumed := ctx.consumed ++ [next] }
  else if next = '|' then
    pure { ctx with consumed := ctx.consumed ++ ['|'], counter := 0,
                    alt_counter := 0, state := .TableHeaderSeparation }
  else
    let ctx := { ctx with consumed := ctx.consumed ++ [next] }
    let em ← ctx.emitter.handle_flag .TableFailed
    let ctx := { ctx with emitter := em }
    let ctx ← ctx.emit_content_token
    let (s, st, _) := RSS.top_n_pop ctx.return_stack
    pure { ctx with state := s, return_stack := st }

/-- `handlers::handleTableHeaderSeparation`.  A column terminated by `|`
needs at least three dashes; on the closing newline the number of column
separators must equal `col_dims`. -/
def handleTableHeaderSeparation (ctx : Ctx) (next : Char) : Except Err Ctx := do
  if next = '\n' then
    if (ctx.emitter.get_col_dims : Int) = ctx.alt_counter then
      let ctx := { ctx with alt_counter := 0, consumed := [], counter := 0,
                            state := .TableCellPipeAwaiting }
      let ctx ← ctx.emit_token .OpenToken .Table_Row
      if ctx.EOF_Reached then
        let em ← ctx.emitter.handle_flag .TableFailed
        pure { ctx with emitter := em }
      else pure ctx
    else
      let ctx := { ctx with alt_counter := 0, counter := 0 }
      let ctx ← ctx.emit_token .ContentToken .Content
      let em ← ctx.emitter.handle_flag .TableFailed
      let ctx := { ctx with emitter := em }
      let (s, st, _) := RSS.top_n_pop ctx.return_stack
      pure { ctx with state := s, return_stack := st }
  else if next = '|' then
    let ctx := { ctx with alt_counter := ctx.alt_counter + 1,
                          consumed := ctx.consumed ++ ['|'] }
    if ctx.counter < (3 : Int) then
      let em ← ctx.emitter.handle_flag .TableFailed
      let ctx := { ctx with emitter := em }
      let ctx ← ctx.emit_content_token
      let (s, st, _) := RSS.top_n_pop ctx.return_stack
      pure { ctx with state := s, return_stack := st }
    else
      pure { ctx with counter := 0 }
  else if next = ' ' ∨ next = '\t' then
    pure { ctx with consumed := ctx.consumed ++ [next] }
  else if next = '-' then
    pure { ctx with counter := ctx.counter + 1, consumed := ctx.consumed ++ ['-'] }
  else
    let ctx := { ctx with consumed := ctx.consumed ++ [next] }
    let em ← ctx.emitter.handle_flag .TableFailed
    let ctx := { ctx with emitter := em }
    let ctx ← ctx.emit_content_token
    let (s, st, _) := RSS.top_n_pop ctx.return_stack
    pure { ctx with state := s, return_stack := st }

/-- `handlers::handleTableCellPipeAwaiting`. -/
def handleTableCellPipeAwaiting (ctx : Ctx) (next : Char) : Except Err Ctx := do
  if next = '\n' then
    let em ← ctx.emitter.handle_flag .TableFailed
    let ctx := { ctx with emitter := em }
    let (s, st, _) := RSS.top_n_pop ctx.return_stack
    pure { ctx with state := s, return_stack := st }
  else if next = ' ' ∨ next = '\t' then
    pure ctx
  else if next = '|' then
    let ctx ← ctx.emit_token .OpenToken .Table_Cell
    pure { ctx with state := .TableCellData }
  else
    let em ← ctx.emitter.handle_flag .TableFailed
    let ctx := { ctx with emitter := em }
    let (s, st, _) := RSS.top_n_pop ctx.return_stack
    let ctx := { ctx with state := s, return_stack := st }
    pure { ctx with consumed := ctx.consumed ++ [next] }

/-- `handlers::handleTableCellData`. -/
def handleTableCellData (ctx : Ctx) (next : Char) : Except Err Ctx := do
  if next = '\n' then
    if ¬ctx.consumed_only_whitespace then
      let ctx ← ctx.emit_token .ContentToken .Content
      let em ← ctx.emitter.handle_flag .TableFailed
      let ctx := { ctx with emitter := em }
      let (s, st, _) := RSS.top_n_pop ctx.return_stack
      pure { ctx with state := s, return_stack := st }
    else
      let ctx ← ctx.emit_token .CloseToken .Table_Cell
      let ctx ← ctx.emit_token .CloseToken .Table_Row
      let ctx ← ctx.emit_token .OpenToken .Table_Row
      let ctx ←
        if ctx.EOF_Reached then
          let em ← ctx.emitter.handle_flag .TableFailed
          pure { ctx with emitter := em }
        else pure ctx
      pure { ctx with state := .TableCellPipeAwaiting, consumed := [] }
  else if next = '|' then
    let ctx ← ctx.emit_token .ContentToken .Content
    let ctx ← ctx.emit_token .CloseToken .Table_Cell
    ctx.emit_token .OpenToken .Table_Cell
  else if next = '*' then
    let ctx ← ctx.emit_token .ContentToken .Content
    let ctx := { ctx with state := .DataAsterisk }
    let st ← RSS.push .TableCellData ctx.return_stack
    pure { ctx with return_stack := st }
  else if next = backtickChar then
    let ctx ← ctx.emit_token .ContentToken .Content
    let ctx := { ctx with state := .DataBacktick }
    let st ← RSS.push .TableCellData ctx.return_stack
    pure { ctx with return_stack := st }
  else if next = '[' then
    let ctx ← ctx.emit_token .ContentToken .Content
    let ctx := { ctx with state := .AltOpenSquared }
    let st ← RSS.push .TableCellData ctx.return_stack
    pure { ctx with return_stack := st }
  else
    pure { ctx with consumed := ctx.consumed ++ [next] }

end handlers

/-- The `state_handlers` dispatch table: handler keyed by the current
state. -/
def dispatch (ctx : Ctx) (next : Char) : Except Err Ctx :=
  match ctx.state with
  | .Data => handlers.handleData ctx next
  | .DataHashtag => handlers.handleHashtag ctx next
  | .DataAsterisk => handlers.handleDataAsterisk ctx next
  | .DataAsteriskData => handlers.handleAsteriskData ctx next
  | .DataDoubleAsterisk => handlers.handleDoubleAsterisk ctx next
  | .DataDoubleAsteriskData => handlers.handleDataDoubleAsteriskData ctx next
  | .DataTripleAsterisk => handlers.handleDataTripleAsterisk ctx next
  | .DataTripleAsteriskData => handlers.handleDataTripleAsteriskData ctx next
  | .DataConsumingNumber => handlers.handleDataConsumingNumber ctx next
  | .DataOrdinalNumber => handlers.handleDataOrdinalNumber ctx next
  | .HorizontalLine => handlers.handleHorizontalLine ctx next
  | .DataBacktick => handlers.handleDataBacktick ctx next
  | .DataDoubleBacktick => handlers.handleDataDoubleBacktick ctx next
  | .CodeInline => handlers.handleCodeInlineState ctx next
  | .CodeBlock => handlers.handleCodeBlock ctx next
  | .UnorderedListPrep => handlers.handleUnorderedListPrep ctx next
  | .UnorderedList => handlers.handleUnorderedList ctx next
  | .OrderedListPrep => handlers.handleOrderedListPrep ctx next
  | .Image => handlers.handleImage ctx next
  | .AltOpenSquared => handlers.handleAltOpenSquared ctx next
  | .AltClosedSquared => handlers.handleAltClosedSquared ctx next
  | .UrlOpenRound => handlers.handleUrlOpenRound ctx next
  | .TitleOpenRound => handlers.handleTitleOpenRound ctx next
  | .TitleConsuming => handlers.handleTitleConsuming ctx next
  | .TitleClosedRound => handlers.handleTitleClosedRound ctx next
  | .TableHeaderNames => handlers.handleTableHeaderNames ctx next
  | .TableHeaderSeparationPipeAwaiting =>
      handlers.handleTableHeaderSeparationPipeAwaiting ctx next
  | .TableHeaderSeparation => handlers.handleTableHeaderSeparation ctx next
  | .TableCellPipeAwaiting => handlers.handleTableCellPipeAwaiting ctx next
  | .TableCellData => handlers.handleTableCellData ctx next

/-- `Md_Parser::handle_escape_sequence`.  Two faithful oddities:
the final branch is the C++ `consumed += '\\' + next` whose `char + char`
is integer addition (a single byte is appended), and the newline branch
passes the unscoped enumerator `ElementType::EOF_Reached` (value 21) where a
`bool` is expected, which converts to `true`. -/
def handle_escape_sequence (ctx : Ctx) (next : Char) : Except Err Ctx := do
  if is_escaped_char next then
    pure { ctx with consumed := ctx.consumed ++ [next] }
  else if next = '\n' then
    ctx.handle_unexpected_newline ['\\'] true
  else
    pure { ctx with consumed := ctx.consumed ++ [charPlusChar '\\' next] }

/-- The outcome of one iteration of the `while (true)` read loop:
continue reading, or break out of the loop. -/
inductive IterStep where
  | cont (ctx : Ctx)
  | brk (ctx : Ctx)

/-- One iteration of the `Md_Parser::parse_document` loop body for the
character `next` (already after the EOF-injection of `'\n'`): escape
handling, the backslash escape trigger, handler dispatch, warning draining,
the EOF break and the newline-counter reset. -/
def iterate (ctx : Ctx) (next : Char) : Except Err IterStep := do
  if ctx.is_escaped then
    let ctx ← handle_escape_sequence ctx next
    pure (.cont { ctx with is_escaped := false })
  else if next = '\\' ∧ ctx.state ≠ .CodeInline ∧ ctx.state ≠ .CodeBlock ∧
      ctx.state ≠ .DataBacktick then
    pure (.cont { ctx with is_escaped := true })
  else
    let ctx ← dispatch ctx next
    let ctx := { ctx with warning_msg := "" }  -- drained to the logger
    if ctx.EOF_Reached then pure (.brk ctx)
    else if ctx.newline_counter ≠ 0 ∧ next ≠ '\n' then
      pure (.cont { ctx with newline_counter := 0 })
    else pure (.cont ctx)

/-- After the byte stream is exhausted, every further `md_stream.get()`
returns `-1`: the loop keeps feeding `'\n'` with `EOF_Reached` set until an
iteration reaches the post-handler break.  The escape paths `continue`
before that break, so at most two extra iterations occur; the fuel is
never exhausted. -/
def parseEof : Nat → Ctx → Except Err Ctx
  | 0, _ => .error .fuelExhausted
  | n + 1, ctx => do
    match ← iterate { ctx with EOF_Reached := true } '\n' with
    | .brk ctx2 => pure ctx2
    | .cont ctx2 => parseEof n ctx2

/-- Feed the input characters through the read loop, then the EOF tail. -/
def parseChars : List Char → Ctx → Except Err Ctx
  | [], ctx => parseEof 3 ctx
  | c :: rest, ctx => do
    match ← iterate ctx c with
    | .brk ctx2 => pure ctx2
    | .cont ctx2 => parseChars rest ctx2

/-- The context after `Md_Parser::reset_context`, with a freshly constructed
emitter and return-state stack. -/
def initCtx : Ctx :=
  { EOF_Reached := false, consumed := [], counter := 0, alt_counter := 0,
    indent_level := 0, newline_counter := 0, src := [], alt := [],
    blockquote_in_list := false, is_escaped := false, is_image := false,
    state := .Data, warning_msg := "", emitter := Emitter.init,
    return_stack := [] }

/-- Run `Md_Parser::parse_document` on an input character list and return
the final parsing context. -/
def parseCtx (input : List Char) : Except Err Ctx :=
  parseChars input initCtx

/-- `Md_Parser::parse_document`: the tree root handed to the caller. -/
def parse_document (s : String) : Except Err Node :=
  (parseCtx s.data).map (fun ctx => ctx.emitter.builder.root)

/-- The builder cursor left behind at end-of-parse. -/
def finalCursor (s : String) : Except Err (Option (List Nat)) :=
  (parseCtx s.data).map (fun ctx => ctx.emitter.builder.cur)

/-- The in-order concatenation of Content leaves of the parsed tree. -/
def parsedContents (s : String) : Except Err (List Char) :=
  (parse_document s).map contentsOf

/-- Proof scaffolding: run the read loop over a prefix of the input,
reporting whether it ended in a break.  `parseChars` factors through this
(see `parseChars_append_cont`), which lets concrete runs be evaluated one
input line at a time. -/
def feedChars : List Char → Ctx → Except Err IterStep
  | [], ctx => pure (.cont ctx)
  | c :: rest, ctx => do
    match ← iterate ctx c with
    | .brk ctx2 => pure (.brk ctx2)
    | .cont ctx2 => feedChars rest ctx2

/-- Intermediate parsing context of the concrete runs below. -/
def ectx1 : Ctx :=
  { EOF_Reached := false, consumed := [],
    counter := (0 : Int), alt_counter := (0 : Int), indent_level := (0 : Int), newline_counter := 0,
    src := [], alt := [], blockquote_in_list := false, is_escaped := false, is_image := false,
    state := MdHtml.State.TableHeaderNames, warning_msg := "",
    emitter := { builder := { root := Node.node MdHtml.ElementType.DOCSTART [] NPayload.plain [], cur := some [] }, tm := { table_root := some (Node.node MdHtml.ElementType.Table [MdHtml.Attribute.TableStyle] NPayload.plain [Node.node MdHtml.ElementType.Table_Row [MdHtml.Attribute.TableRow] NPayload.plain [Node.node MdHtml.ElementType.Table_Head [MdHtml.Attribute.TableHeader] NPayload.plain []]]), cur := some [0, 0], col_dims := 0 }, table_parsing_flag := true },
    return_stack := [MdHtml.State.Data] }

/-- Intermediate parsing context of the concrete runs below. -/
def ectx2 : Ctx :=
  { EOF_Reached := false, consumed := ['A'],
    counter := (0 : Int), alt_counter := (0 : Int), indent_level := (0 : Int), newline_counter := 0,
    src := [], alt := [], blockquote_in_list := false, is_escaped := false, is_image := false,
    state := MdHtml.State.TableHeaderNames, warning_msg := "",
    emitter := { builder := { root := Node.node MdHtml.ElementType.DOCSTART [] NPayload.plain [], cur := some [] }, tm := { table_root := some (Node.node MdHtml.ElementType.Table [MdHtml.Attribute.TableStyle] NPayload.plain [Node.node MdHtml.ElementType.Table_Row [MdHtml.Attribute.TableRow] NPayload.plain [Node.node MdHtml.ElementType.Table_Head [MdHtml.Attribute.TableHeader] NPayload.plain []]]), cur := some [0, 0], col_dims := 0 }, table_parsing_flag := true },
    return_stack := [MdHtml.State.Data] }

/-- Intermediate parsing context of the concrete runs below. -/
def ectx3 : Ctx :=
  { EOF_Reached := false, consumed := [],
    counter := (0 : Int), alt_counter := (0 : Int), indent_level := (0 : Int), newline_counter := 0,
    src := [], alt := [], blockquote_in_list := false, is_escaped := false, is_image := false,
    state := MdHtml.State.TableHeaderNames, warning_msg := "",
    emitter := { builder := { root := Node.node MdHtml.ElementType.DOCSTART [] NPayload.plain [], cur := some [] }, tm := { table_root := some (Node.node MdHtml.ElementType.Table [MdHtml.Attribute.TableStyle] NPayload.plain [Node.node MdHtml.ElementType.Table_Row [MdHtml.Attribute.TableRow] NPayload.plain [Node.node MdHtml.ElementType.Table_Head [MdHtml.Attribute.TableHeader] NPayload.plain [Node.node MdHtml.ElementType.Content [] (NPayload.contentP ['A']) []], Node.node MdHtml.ElementType.Table_Head [MdHtml.Attribute.TableHeader] NPayload.plain []]]), cur := some [0, 1], col_dims := 0 }, table_parsing_flag := true },
    return_stack := [MdHtml.State.Data] }

/-- Intermediate parsing context of the concrete runs below. -/
def ectx4 : Ctx :=
  { EOF_Reached := false, consumed := ['B'],
    counter := (0 : Int), alt_counter := (0 : Int), indent_level := (0 : Int), newline_counter := 0,
    src := [], alt := [], blockquote_in_list := false, is_escaped := false, is_image := false,
    state := MdHtml.State.TableHeaderNames, warning_msg := "",
    emitter := { builder := { root := Node.node MdHtml.ElementType.DOCSTART [] NPayload.plain [], cur := some [] }, tm := { table_root := some (Node.node MdHtml.ElementType.Table [MdHtml.Attribute.TableStyle] NPayload.plain [Node.node MdHtml.ElementType.Table_Row [MdHtml.Attribute.TableRow] NPayload.plain [Node.node MdHtml.ElementType.Table_Head [MdHtml.Attribute.TableHeader] NPayload.plain [Node.node MdHtml.ElementType.Content [] (NPayload.contentP ['A']) []], Node.node MdHtml.ElementType.Table_Head [MdHtml.Attribute.TableHeader] NPayload.plain []]]), cur := some [0, 1], col_dims := 0 }, table_parsing_flag := true },
    return_stack := [MdHtml.State.Data] }

/-- Intermediate parsing context of the concrete runs below. -/
def ectx5 : Ctx :=
  { EOF_Reached := false, consumed := [],
    counter := (0 : Int), alt_counter := (0 : Int), indent_level := (0 : Int), newline_counter := 0,
    src := [], alt := [], blockquote_in_list := false, is_escaped := false, is_image := false,
    state := MdHtml.State.TableHeaderNames, warning_msg := "",
    emitter := { builder := { root := Node.node MdHtml.ElementType.DOCSTART [] NPayload.plain [], cur := some [] }, tm := { table_root := some (Node.node MdHtml.ElementType.Table [MdHtml.Attribute.TableStyle] NPayload.plain [Node.node MdHtml.ElementType.Table_Row [MdHtml.Attribute.TableRow] NPayload.plain [Node.node MdHtml.ElementType.Table_Head [MdHtml.Attribute.TableHeader] NPayload.plain [Node.node MdHtml.ElementType.Content [] (NPayload.contentP ['A']) []], Node.node MdHtml.ElementType.Table_Head [MdHtml.Attribute.TableHeader] NPayload.plain [Node.node MdHtml.ElementType.Content [] (NPayload.contentP ['B']) []], Node.node MdHtml.ElementType.Table_Head [MdHtml.Attribute.TableHeader] NPayload.plain []]]), cur := some [0, 2], col_dims := 0 }, table_parsing_flag := true },
    return_stack := [MdHtml.State.Data] }

/-- Intermediate parsing context of the concrete runs below. -/
def ectx6 : Ctx :=
  { EOF_Reached := false, consumed := [],
    counter := (0 : Int), alt_counter := (0 : Int), indent_level := (0 : Int), newline_counter := 0,
    src := [], alt := [], blockquote_in_list := false, is_escaped := false, is_image := false,
    state := MdHtml.State.TableHeaderSeparationPipeAwaiting, warning_msg := "",
    emitter := { builder := { root := Node.node MdHtml.ElementType.DOCSTART [] NPayload.plain [], cur := some [] }, tm := { table_root := some (Node.node MdHtml.ElementType.Table [MdHtml.Attribute.TableStyle] NPayload.plain [Node.node MdHtml.ElementType.Table_Row [MdHtml.Attribute.TableRow] NPayload.plain [Node.node MdHtml.ElementType.Table_Head [MdHtml.Attribute.TableHeader] NPayload.plain [Node.node MdHtml.ElementType.Content [] (NPayload.contentP ['A']) []], Node.node MdHtml.ElementType.Table_Head [MdHtml.Attribute.TableHeader] NPayload.plain [Node.node MdHtml.ElementType.Content [] (NPayload.contentP ['B']) []]]]), cur := some [], col_dims := 2 }, table_parsing_flag := true },
    return_stack := [MdHtml.State.Data] }

/-- Intermediate parsing context of the concrete runs below. -/
def ectx7 : Ctx :=
  { EOF_Reached := false, consumed := ['|'],
    counter := (0 : Int), alt_counter := (0 : Int), indent_level := (0 : Int), newline_counter := 0,
    src := [], alt := [], blockquote_in_list := false, is_escaped := false, is_image := false,
    state := MdHtml.State.TableHeaderSeparation, warning_msg := "",
    emitter := { builder := { root := Node.node MdHtml.ElementType.DOCSTART [] NPayload.plain [], cur := some [] }, tm := { table_root := some (Node.node MdHtml.ElementType.Table [MdHtml.Attribute.TableStyle] NPayload.plain [Node.node MdHtml.ElementType.Table_Row [MdHtml.Attribute.TableRow] NPayload.plain [Node.node MdHtml.ElementType.Table_Head [MdHtml.Attribute.TableHeader] NPayload.plain [Node.node MdHtml.ElementType.Content [] (NPayload.contentP ['A']) []], Node.node MdHtml.ElementType.Table_Head [MdHtml.Attribute.TableHeader] NPayload.plain [Node.node MdHtml.ElementType.Content [] (NPayload.contentP ['B']) []]]]), cur := some [], col_dims := 2 }, table_parsing_flag := true },
    return_stack := [MdHtml.State.Data] }

/-- Intermediate parsing context of the concrete runs below. -/
def ectx8 : Ctx :=
  { EOF_Reached := false, consumed := ['|', '-'],
    counter := (1 : Int), alt_counter := (0 : Int), indent_level := (0 : Int), newline_counter := 0,
    src := [], alt := [], blockquote_in_list := false, is_escaped := false, is_image := false,
    state := MdHtml.State.TableHeaderSeparation, warning_msg := "",
    emitter := { builder := { root := Node.node MdHtml.ElementType.DOCSTART [] NPayload.plain [], cur := some [] }, tm := { table_root := some (Node.node MdHtml.ElementType.Table [MdHtml.Attribute.TableStyle] NPayload.plain [Node.node MdHtml.ElementType.Table_Row [MdHtml.Attribute.TableRow] NPayload.plain [Node.node MdHtml.ElementType.Table_Head [MdHtml.Attribute.TableHeader] NPayload.plain [Node.node MdHtml.ElementType.Content [] (NPayload.contentP ['A']) []], Node.node MdHtml.ElementType.Table_Head [MdHtml.Attribute.TableHeader] NPayload.plain [Node.node MdHtml.ElementType.Content [] (NPayload.contentP ['B']) []]]]), cur := some [], col_dims := 2 }, table_parsing_flag := true },
    return_stack := [MdHtml.State.Data] }

/-- Intermediate parsing context of the concrete runs below. -/
def ectx9 : Ctx :=
  { EOF_Reached := false, consumed := ['|', '-', '-'],
    counter := (2 : Int), alt_counter := (0 : Int), indent_level := (0 : Int), newline_counter := 0,
    src := [], alt := [], blockquote_in_list := false, is_escaped := false, is_image := false,
    state := MdHtml.State.TableHeaderSeparation, warning_msg := "",
    emitter := { builder := { root := Node.node MdHtml.ElementType.DOCSTART [] NPayload.plain [], cur := some [] }, tm := { table_root := some (Node.node MdHtml.ElementType.Table [MdHtml.Attribute.TableStyle] NPayload.plain [Node.node MdHtml.ElementType.Table_Row [MdHtml.Attribute.TableRow] NPayload.plain [Node.node MdHtml.ElementType.Table_Head [MdHtml.Attribute.TableHeader] NPayload.plain [Node.node MdHtml.ElementType.Content [] (NPayload.contentP ['A']) []], Node.node MdHtml.ElementType.Table_Head [MdHtml.Attribute.TableHeader] NPayload.plain [Node.node MdHtml.ElementType.Content [] (NPayload.contentP ['B']) []]]]), cur := some [], col_dims := 2 }, table_parsing_flag := true },
    return_stack := [MdHtml.State.Data] }

/-- Intermediate parsing context of the concrete runs below. -/
def ectx10 : Ctx :=
  { EOF_Reached := false, consumed := ['|', '-', '-', '-'],
    counter := (3 : Int), alt_counter := (0 : Int), indent_level := (0 : Int), newline_counter := 0,
    src := [], alt := [], blockquote_in_list := false, is_escaped := false, is_image := false,
    state := MdHtml.State.TableHeaderSeparation, warning_msg := "",
    emitter := { builder := { root := Node.node MdHtml.ElementType.DOCSTART [] NPayload.plain [], cur := some [] }, tm := { table_root := some (Node.node MdHtml.ElementType.Table [MdHtml.Attribute.TableStyle] NPayload.plain [Node.node MdHtml.ElementType.Table_Row [MdHtml.Attribute.TableRow] NPayload.plain [Node.node MdHtml.ElementType.Table_Head [MdHtml.Attribute.TableHeader] NPayload.plain [Node.node MdHtml.ElementType.Content [] (NPayload.contentP ['A']) []], Node.node MdHtml.ElementType.Table_Head [MdHtml.Attribute.TableHeader] NPayload.plain [Node.node MdHtml.ElementType.Content [] (NPayload.contentP ['B']) []]]]), cur := some [], col_dims := 2 }, table_parsing_flag := true },
    return_stack := [MdHtml.State.Data] }

/-- Intermediate parsing context of the concrete runs below. -/
def ectx11 : Ctx :=
  { EOF_Reached := false, consumed := ['|', '-', '-', '-', '|'],
    counter := (0 : Int), alt_counter := (1 : Int), indent_level := (0 : Int), newline_counter := 0,
    src := [], alt := [], blockquote_in_list := false, is_escaped := false, is_image := false,
    state := MdHtml.State.TableHeaderSeparation, warning_msg := "",
    emitter := { builder := { root := Node.node MdHtml.ElementType.DOCSTART [] NPayload.plain [], cur := some [] }, tm := { table_root := some (Node.node MdHtml.ElementType.Table [MdHtml.Attribute.TableStyle] NPayload.plain [Node.node MdHtml.ElementType.Table_Row [MdHtml.Attribute.TableRow] NPayload.plain [Node.node MdHtml.ElementType.Table_Head [MdHtml.Attribute.TableHeader] NPayload.plain [Node.node MdHtml.ElementType.Content [] (NPayload.contentP ['A']) []], Node.node MdHtml.ElementType.Table_Head [MdHtml.Attribute.TableHeader] NPayload.plain [Node.node MdHtml.ElementType.Content [] (NPayload.contentP ['B']) []]]]), cur := some [], col_dims := 2 }, table_parsing_flag := true },
    return_stack := [MdHtml.State.Data] }

/-- Intermediate parsing context of the concrete runs below. -/
def ectx12 : Ctx :=
  { EOF_Reached := false, consumed := ['|', '-', '-', '-', '|', '-'],
    counter := (1 : Int), alt_counter := (1 : Int), indent_level := (0 : Int), newline_counter := 0,
    src := [], alt := [], blockquote_in_list := false, is_escaped := false, is_image := false,
    state := MdHtml.State.TableHeaderSeparation, warning_msg := "",
    emitter := { builder := { root := Node.node MdHtml.ElementType.DOCSTART [] NPayload.plain [], cur := some [] }, tm := { table_root := some (Node.node MdHtml.ElementType.Table [MdHtml.Attribute.TableStyle] NPayload.plain [Node.node MdHtml.ElementType.Table_Row [MdHtml.Attribute.TableRow] NPayload.plain [Node.node MdHtml.ElementType.Table_Head [MdHtml.Attribute.TableHeader] NPayload.plain [Node.node MdHtml.ElementType.Content [] (NPayload.contentP ['A']) []], Node.node MdHtml.ElementType.Table_Head [MdHtml.Attribute.TableHeader] NPayload.plain [Node.node MdHtml.ElementType.Content [] (NPayload.contentP ['B']) []]]]), cur := some [], col_dims := 2 }, table_parsing_flag := true },
    return_stack := [MdHtml.State.Data] }

/-- Intermediate parsing context of the concrete runs below. -/
def ectx13 : Ctx :=
  { EOF_Reached := false, consumed := ['|', '-', '-', '-', '|', '-', '-'],
    counter := (2 : Int), alt_counter := (1 : Int), indent_level := (0 : Int), newline_counter := 0,
    src := [], alt := [], blockquote_in_list := false, is_escaped := false, is_image := false,
    state := MdHtml.State.TableHeaderSeparation, warning_msg := "",
    emitter := { builder := { root := Node.node MdHtml.ElementType.DOCSTART [] NPayload.plain [], cur := some [] }, tm := { table_root := some (Node.node MdHtml.ElementType.Table [MdHtml.Attribute.TableStyle] NPayload.plain [Node.node MdHtml.ElementType.Table_Row [MdHtml.Attribute.TableRow] NPayload.plain [Node.node MdHtml.ElementType.Table_Head [MdHtml.Attribute.TableHeader] NPayload.plain [Node.node MdHtml.ElementType.Content [] (NPayload.contentP ['A']) []], Node.node MdHtml.ElementType.Table_Head [MdHtml.Attribute.TableHeader] NPayload.plain [Node.node MdHtml.ElementType.Content [] (NPayload.contentP ['B']) []]]]), cur := some [], col_dims := 2 }, table_parsing_flag := true },
    return_stack := [MdHtml.State.Data] }

/-- Intermediate parsing context of the concrete runs below. -/
def ectx14 : Ctx :=
  { EOF_Reached := false, consumed := ['|', '-', '-', '-', '|', '-', '-', '-'],
    counter := (3 : Int), alt_counter := (1 : Int), indent_level := (0 : Int), newline_counter := 0,
    src := [], alt := [], blockquote_in_list := false, is_escaped := false, is_image := false,
    state := MdHtml.State.TableHeaderSeparation, warning_msg := "",
    emitter := { builder := { root := Node.node MdHtml.ElementType.DOCSTART [] NPayload.plain [], cur := some [] }, tm := { table_root := some (Node.node MdHtml.ElementType.Table [MdHtml.Attribute.TableStyle] NPayload.plain [Node.node MdHtml.ElementType.Table_Row [MdHtml.Attribute.TableRow] NPayload.plain [Node.node MdHtml.ElementType.Table_Head [MdHtml.Attribute.TableHeader] NPayload.plain [Node.node MdHtml.ElementType.Content [] (NPayload.contentP ['A']) []], Node.node MdHtml.ElementType.Table_Head [MdHtml.Attribute.TableHeader] NPayload.plain [Node.node MdHtml.ElementType.Content [] (NPayload.contentP ['B']) []]]]), cur := some [], col_dims := 2 }, table_parsing_flag := true },
    return_stack := [MdHtml.State.Data] }

/-- Intermediate parsing context of the concrete runs below. -/
def ectx15 : Ctx :=
  { EOF_Reached := false, consumed := ['|', '-', '-', '-', '|', '-', '-', '-', '|'],
    counter := (0 : Int), alt_counter := (2 : Int), indent_level := (0 : Int), newline_counter := 0,
    src := [], alt := [], blockquote_in_list := false, is_escaped := false, is_image := false,
    state := MdHtml.State.TableHeaderSeparation, warning_msg := "",
    emitter := { builder := { root := Node.node MdHtml.ElementType.DOCSTART [] NPayload.plain [], cur := some [] }, tm := { table_root := some (Node.node MdHtml.ElementType.Table [MdHtml.Attribute.TableStyle] NPayload.plain [Node.node MdHtml.ElementType.Table_Row [MdHtml.Attribute.TableRow] NPayload.plain [Node.node MdHtml.ElementType.Table_Head [MdHtml.Attribute.TableHeader] NPayload.plain [Node.node MdHtml.ElementType.Content [] (NPayload.contentP ['A']) []], Node.node MdHtml.ElementType.Table_Head [MdHtml.Attribute.TableHeader] NPayload.plain [Node.node MdHtml.ElementType.Content [] (NPayload.contentP ['B']) []]]]), cur := some [], col_dims := 2 }, table_parsing_flag := true },
    return_stack := [MdHtml.State.Data] }

/-- Intermediate parsing context of the concrete runs below. -/
def ectx16 : Ctx :=
  { EOF_Reached := false, consumed := [],
    counter := (0 : Int), alt_counter := (0 : Int), indent_level := (0 : Int), newline_counter := 0,
    src := [], alt := [], blockquote_in_list := false, is_escaped := false, is_image := false,
    state := MdHtml.State.TableCellPipeAwaiting, warning_msg := "",
    emitter := { builder := { root := Node.node MdHtml.ElementType.DOCSTART [] NPayload.plain [], cur := some [] }, tm := { table_root := some (Node.node MdHtml.ElementType.Table [MdHtml.Attribute.TableStyle] NPayload.plain [Node.node MdHtml.ElementType.Table_Row [MdHtml.Attribute.TableRow] NPayload.plain [Node.node MdHtml.ElementType.Table_Head [MdHtml.Attribute.TableHeader] NPayload.plain [Node.node MdHtml.ElementType.Content [] (NPayload.contentP ['A']) []], Node.node MdHtml.ElementType.Table_Head [MdHtml.Attribute.TableHeader] NPayload.plain [Node.node MdHtml.ElementType.Content [] (NPayload.contentP ['B']) []]], Node.node MdHtml.ElementType.Table_Row [MdHtml.Attribute.TableRow] NPayload.plain []]), cur := some [1], col_dims := 2 }, table_parsing_flag := true },
    return_stack := [MdHtml.State.Data] }

/-- Intermediate parsing context of the concrete runs below. -/
def ectx17 : Ctx :=
  { EOF_Reached := false, consumed := [],
    counter := (0 : Int), alt_counter := (0 : Int), indent_level := (0 : Int), newline_counter := 0,
    src := [], alt := [], blockquote_in_list := false, is_escaped := false, is_image := false,
    state := MdHtml.State.TableCellData, warning_msg := "",
    emitter := { builder := { root := Node.node MdHtml.ElementType.DOCSTART [] NPayload.plain [], cur := some [] }, tm := { table_root := some (Node.node MdHtml.ElementType.Table [MdHtml.Attribute.TableStyle] NPayload.plain [Node.node MdHtml.ElementType.Table_Row [MdHtml.Attribute.TableRow] NPayload.plain [Node.node MdHtml.ElementType.Table_Head [MdHtml.Attribute.TableHeader] NPayload.plain [Node.node MdHtml.ElementType.Content [] (NPayload.contentP ['A']) []], Node.node MdHtml.ElementType.Table_Head [MdHtml.Attribute.TableHeader] NPayload.plain [Node.node MdHtml.ElementType.Content [] (NPayload.contentP ['B']) []]], Node.node MdHtml.ElementType.Table_Row [MdHtml.Attribute.TableRow] NPayload.plain [Node.node MdHtml.ElementType.Table_Cell [MdHtml.Attribute.TableCell] NPayload.plain []]]), cur := some [1, 0], col_dims := 2 }, table_parsing_flag := true },
    return_stack := [MdHtml.State.Data] }

/-- Intermediate parsing context of the concrete runs below. -/
def ectx18 : Ctx :=
  { EOF_Reached := false, consumed := ['1'],
    counter := (0 : Int), alt_counter := (0 : Int), indent_level := (0 : Int), newline_counter := 0,
    src := [], alt := [], blockquote_in_list := false, is_escaped := false, is_image := false,
    state := MdHtml.State.TableCellData, warning_msg := "",
    emitter := { builder := { root := Node.node MdHtml.ElementType.DOCSTART [] NPayload.plain [], cur := some [] }, tm := { table_root := some (Node.node MdHtml.ElementType.Table [MdHtml.Attribute.TableStyle] NPayload.plain [Node.node MdHtml.ElementType.Table_Row [MdHtml.Attribute.TableRow] NPayload.plain [Node.node MdHtml.ElementType.Table_Head [MdHtml.Attribute.TableHeader] NPayload.plain [Node.node MdHtml.ElementType.Content [] (NPayload.contentP ['A']) []], Node.node MdHtml.ElementType.Table_Head [MdHtml.Attribute.TableHeader] NPayload.plain [Node.node MdHtml.ElementType.Content [] (NPayload.contentP ['B']) []]], Node.node MdHtml.ElementType.Table_Row [MdHtml.Attribute.TableRow] NPayload.plain [Node.node MdHtml.ElementType.Table_Cell [MdHtml.Attribute.TableCell] NPayload.plain []]]), cur := some [1, 0], col_dims := 2 }, table_parsing_flag := true },
    return_stack := [MdHtml.State.Data] }

/-- Intermediate parsing context of the concrete runs below. -/
def ectx19 : Ctx :=
  { EOF_Reached := false, consumed := [],
    counter := (0 : Int), alt_counter := (0 : Int), indent_level := (0 : Int), newline_counter := 0,
    src := [], alt := [], blockquote_in_list := false, is_escaped := false, is_image := false,
    state := MdHtml.State.TableCellData, warning_msg := "",
    emitter := { builder := { root := Node.node MdHtml.ElementType.DOCSTART [] NPayload.plain [], cur := some [] }, tm := { table_root := some (Node.node MdHtml.ElementType.Table [MdHtml.Attribute.TableStyle] NPayload.plain [Node.node MdHtml.ElementType.Table_Row [MdHtml.Attribute.TableRow] NPayload.plain [Node.node MdHtml.ElementType.Table_Head [MdHtml.Attribute.TableHeader] NPayload.plain [Node.node MdHtml.ElementType.Content [] (NPayload.contentP ['A']) []], Node.node MdHtml.ElementType.Table_Head [MdHtml.Attribute.TableHeader] NPayload.plain [Node.node MdHtml.ElementType.Content [] (NPayload.contentP ['B']) []]], Node.node MdHtml.ElementType.Table_Row [MdHtml.Attribute.TableRow] NPayload.plain [Node.node MdHtml.ElementType.Table_Cell [MdHtml.Attribute.TableCell] NPayload.plain [Node.node MdHtml.ElementType.Content [] (NPayload.contentP ['1']) []], Node.node MdHtml.ElementType.Table_Cell [MdHtml.Attribute.TableCell] NPayload.plain []]]), cur := some [1, 1], col_dims := 2 }, table_parsing_flag := true },
    return_stack := [MdHtml.State.Data] }

/-- Intermediate parsing context of the concrete runs below. -/
def ectx20 : Ctx :=
  { EOF_Reached := false, consumed := ['2'],
    counter := (0 : Int), alt_counter := (0 : Int), indent_level := (0 : Int), newline_counter := 0,
    src := [], alt := [], blockquote_in_list := false, is_escaped := false, is_image := false,
    state := MdHtml.State.TableCellData, warning_msg := "",
    emitter := { builder := { root := Node.node MdHtml.ElementType.DOCSTART [] NPayload.plain [], cur := some [] }, tm := { table_root := some (Node.node MdHtml.ElementType.Table [MdHtml.Attribute.TableStyle] NPayload.plain [Node.node MdHtml.ElementType.Table_Row [MdHtml.Attribute.TableRow] NPayload.plain [Node.node MdHtml.ElementType.Table_Head [MdHtml.Attribute.TableHeader] NPayload.plain [Node.node MdHtml.ElementType.Content [] (NPayload.contentP ['A']) []], Node.node MdHtml.ElementType.Table_Head [MdHtml.Attribute.TableHeader] NPayload.plain [Node.node MdHtml.ElementType.Content [] (NPayload.contentP ['B']) []]], Node.node MdHtml.ElementType.Table_Row [MdHtml.Attribute.TableRow] NPayload.plain [Node.node MdHtml.ElementType.Table_Cell [MdHtml.Attribute.TableCell] NPayload.plain [Node.node MdHtml.ElementType.Content [] (NPayload.contentP ['1']) []], Node.node MdHtml.ElementType.Table_Cell [MdHtml.Attribute.TableCell] NPayload.plain []]]), cur := some [1, 1], col_dims := 2 }, table_parsing_flag := true },
    return_stack := [MdHtml.State.Data] }

/-- Intermediate parsing context of the concrete runs below. -/
def ectx21 : Ctx :=
  { EOF_Reached := false, consumed := [],
    counter := (0 : Int), alt_counter := (0 : Int), indent_level := (0 : Int), newline_counter := 0,
    src := [], alt := [], blockquote_in_list := false, is_escaped := false, is_image := false,
    state := MdHtml.State.TableCellData, warning_msg := "",
    emitter := { builder := { root := Node.node MdHtml.ElementType.DOCSTART [] NPayload.plain [], cur := some [] }, tm := { table_root := some (Node.node MdHtml.ElementType.Table [MdHtml.Attribute.TableStyle] NPayload.plain [Node.node MdHtml.ElementType.Table_Row [MdHtml.Attribute.TableRow] NPayload.plain [Node.node MdHtml.ElementType.Table_Head [MdHtml.Attribute.TableHeader] NPayload.plain [Node.node MdHtml.ElementType.Content [] (NPayload.contentP ['A']) []], Node.node MdHtml.ElementType.Table_Head [MdHtml.Attribute.TableHeader] NPayload.plain [Node.node MdHtml.ElementType.Content [] (NPayload.contentP ['B']) []]], Node.node MdHtml.ElementType.Table_Row [MdHtml.Attribute.TableRow] NPayload.plain [Node.node MdHtml.ElementType.Table_Cell [MdHtml.Attribute.TableCell] NPayload.plain [Node.node MdHtml.ElementType.Content [] (NPayload.contentP ['1']) []], Node.node MdHtml.ElementType.Table_Cell [MdHtml.Attribute.TableCell] NPayload.plain [Node.node MdHtml.ElementType.Content [] (NPayload.contentP ['2']) []]]]), cur := some [1], col_dims := 2 }, table_parsing_flag := true },
    return_stack := [MdHtml.State.Data] }

/-- Intermediate parsing context of the concrete runs below. -/
def ectx22 : Ctx :=
  { EOF_Reached := false, consumed := [],
    counter := (0 : Int), alt_counter := (0 : Int), indent_level := (0 : Int), newline_counter := 0,
    src := [], alt := [], blockquote_in_list := false, is_escaped := false, is_image := false,
    state := MdHtml.State.TableCellPipeAwaiting, warning_msg := "",
    emitter := { builder := { root := Node.node MdHtml.ElementType.DOCSTART [] NPayload.plain [], cur := some [] }, tm := { table_root := some (Node.node MdHtml.ElementType.Table [MdHtml.Attribute.TableStyle] NPayload.plain [Node.node MdHtml.ElementType.Table_Row [MdHtml.Attribute.TableRow] NPayload.plain [Node.node MdHtml.ElementType.Table_Head [MdHtml.Attribute.TableHeader] NPayload.plain [Node.node MdHtml.ElementType.Content [] (NPayload.contentP ['A']) []], Node.node MdHtml.ElementType.Table_Head [MdHtml.Attribute.TableHeader] NPayload.plain [Node.node MdHtml.ElementType.Content [] (NPayload.contentP ['B']) []]], Node.node MdHtml.ElementType.Table_Row [MdHtml.Attribute.TableRow] NPayload.plain [Node.node MdHtml.ElementType.Table_Cell [MdHtml.Attribute.TableCell] NPayload.plain [Node.node MdHtml.ElementType.Content [] (NPayload.contentP ['1']) []], Node.node MdHtml.ElementType.Table_Cell [MdHtml.Attribute.TableCell] NPayload.plain [Node.node MdHtml.ElementType.Content [] (NPayload.contentP ['2']) []]], Node.node MdHtml.ElementType.Table_Row [MdHtml.Attribute.TableRow] NPayload.plain []]), cur := some [2], col_dims := 2 }, table_parsing_flag := true },
    return_stack := [MdHtml.State.Data] }

/-- Intermediate parsing context of the concrete runs below. -/
def ectx23 : Ctx :=
  { EOF_Reached := true, consumed := [],
    counter := (0 : Int), alt_counter := (0 : Int), indent_level := (0 : Int), newline_counter := 0,
    src := [], alt := [], blockquote_in_list := false, is_escaped := false, is_image := false,
    state := MdHtml.State.Data, warning_msg := "",
    emitter := { builder := { root := Node.node MdHtml.ElementType.DOCSTART [] NPayload.plain [Node.node MdHtml.ElementType.Table [MdHtml.Attribute.TableStyle] NPayload.plain [Node.node MdHtml.ElementType.Table_Row [MdHtml.Attribute.TableRow] NPayload.plain [Node.node MdHtml.ElementType.Table_Head [MdHtml.Attribute.TableHeader] NPayload.plain [Node.node MdHtml.ElementType.Content [] (NPayload.contentP ['A']) []], Node.node MdHtml.ElementType.Table_Head [MdHtml.Attribute.TableHeader] NPayload.plain [Node.node MdHtml.ElementType.Content [] (NPayload.contentP ['B']) []]], Node.node MdHtml.ElementType.Table_Row [MdHtml.Attribute.TableRow] NPayload.plain [Node.node MdHtml.ElementType.Table_Cell [MdHtml.Attribute.TableCell] NPayload.plain [Node.node MdHtml.ElementType.Content [] (NPayload.contentP ['1']) []], Node.node MdHtml.ElementType.Table_Cell [MdHtml.Attribute.TableCell] NPayload.plain [Node.node MdHtml.ElementType.Content [] (NPayload.contentP ['2']) []]]]], cur := some [] }, tm := { table_root := none, cur := some [2], col_dims := 0 }, table_parsing_flag := false },
    return_stack := [] }

/-- Intermediate parsing context of the concrete runs below. -/
def ectx24 : Ctx :=
  { EOF_Reached := false, consumed := [],
    counter := (1 : Int), alt_counter := (1 : Int), indent_level := (0 : Int), newline_counter := 0,
    src := [], alt := [], blockquote_in_list := false, is_escaped := false, is_image := false,
    state := MdHtml.State.Data, warning_msg := "",
    emitter := { builder := { root := Node.node MdHtml.ElementType.DOCSTART [] NPayload.plain [Node.node MdHtml.ElementType.Paragraph [MdHtml.Attribute.TableRow] NPayload.plain [Node.node MdHtml.ElementType.Content [] (NPayload.contentP ['|']) [], Node.node MdHtml.ElementType.Content [] (NPayload.contentP ['A']) [], Node.node MdHtml.ElementType.Content [] (NPayload.contentP ['|']) [], Node.node MdHtml.ElementType.Content [] (NPayload.contentP ['B']) []], Node.node MdHtml.ElementType.Paragraph [] NPayload.plain [Node.node MdHtml.ElementType.Content [] (NPayload.contentP ['|', '-', '|']) []]], cur := some [1] }, tm := { table_root := none, cur := some [], col_dims := 0 }, table_parsing_flag := false },
    return_stack := [] }

/-- Intermediate parsing context of the concrete runs below. -/
def ectx25 : Ctx :=
  { EOF_Reached := false, consumed := [],
    counter := (2 : Int), alt_counter := (1 : Int), indent_level := (0 : Int), newline_counter := 0,
    src := [], alt := [], blockquote_in_list := false, is_escaped := false, is_image := false,
    state := MdHtml.State.HorizontalLine, warning_msg := "",
    emitter := { builder := { root := Node.node MdHtml.ElementType.DOCSTART [] NPayload.plain [Node.node MdHtml.ElementType.Paragraph [MdHtml.Attribute.TableRow] NPayload.plain [Node.node MdHtml.ElementType.Content [] (NPayload.contentP ['|']) [], Node.node MdHtml.ElementType.Content [] (NPayload.contentP ['A']) [], Node.node MdHtml.ElementType.Content [] (NPayload.contentP ['|']) [], Node.node MdHtml.ElementType.Content [] (NPayload.contentP ['B']) []], Node.node MdHtml.ElementType.Paragraph [] NPayload.plain [Node.node MdHtml.ElementType.Content [] (NPayload.contentP ['|', '-', '|']) []]], cur := some [1] }, tm := { table_root := none, cur := some [], col_dims := 0 }, table_parsing_flag := false },
    return_stack := [MdHtml.State.Data] }

/-- Intermediate parsing context of the concrete runs below. -/
def ectx26 : Ctx :=
  { EOF_Reached := false, consumed := [],
    counter := (0 : Int), alt_counter := (1 : Int), indent_level := (0 : Int), newline_counter := 0,
    src := [], alt := [], blockquote_in_list := false, is_escaped := false, is_image := false,
    state := MdHtml.State.Data, warning_msg := "",
    emitter := { builder := { root := Node.node MdHtml.ElementType.DOCSTART [] NPayload.plain [Node.node MdHtml.ElementType.Paragraph [MdHtml.Attribute.TableRow] NPayload.plain [Node.node MdHtml.ElementType.Content [] (NPayload.contentP ['|']) [], Node.node MdHtml.ElementType.Content [] (NPayload.contentP ['A']) [], Node.node MdHtml.ElementType.Content [] (NPayload.contentP ['|']) [], Node.node MdHtml.ElementType.Content [] (NPayload.contentP ['B']) []], Node.node MdHtml.ElementType.Paragraph [] NPayload.plain [Node.node MdHtml.ElementType.Content [] (NPayload.contentP ['|', '-', '|']) [], Node.node MdHtml.ElementType.Content [] (NPayload.contentP ['-', '-', '|']) []]], cur := some [1] }, tm := { table_root := none, cur := some [], col_dims := 0 }, table_parsing_flag := false },
    return_stack := [] }

/-- Intermediate parsing context of the concrete runs below. -/
def ectx27 : Ctx :=
  { EOF_Reached := false, consumed := [],
    counter := (0 : Int), alt_counter := (1 : Int), indent_level := (0 : Int), newline_counter := 1,
    src := [], alt := [], blockquote_in_list := false, is_escaped := false, is_image := false,
    state := MdHtml.State.Data, warning_msg := "",
    emitter := { builder := { root := Node.node MdHtml.ElementType.DOCSTART [] NPayload.plain [Node.node MdHtml.ElementType.Paragraph [MdHtml.Attribute.TableRow] NPayload.plain [Node.node MdHtml.ElementType.Content [] (NPayload.contentP ['|']) [], Node.node MdHtml.ElementType.Content [] (NPayload.contentP ['A']) [], Node.node MdHtml.ElementType.Content [] (NPayload.contentP ['|']) [], Node.node MdHtml.ElementType.Content [] (NPayload.contentP ['B']) []], Node.node MdHtml.ElementType.Paragraph [] NPayload.plain [Node.node MdHtml.ElementType.Content [] (NPayload.contentP ['|', '-', '|']) [], Node.node MdHtml.ElementType.Content [] (NPayload.contentP ['-', '-', '|']) []]], cur := some [1] }, tm := { table_root := none, cur := some [], col_dims := 0 }, table_parsing_flag := false },
    return_stack := [] }

/-- Intermediate parsing context of the concrete runs below. -/
def ectx28 : Ctx :=
  { EOF_Reached := false, consumed := [],
    counter := (0 : Int), alt_counter := (1 : Int), indent_level := (0 : Int), newline_counter := 0,
    src := [], alt := [], blockquote_in_list := false, is_escaped := false, is_image := false,
    state := MdHtml.State.TableHeaderNames, warning_msg := "",
    emitter := { builder := { root := Node.node MdHtml.ElementType.DOCSTART [] NPayload.plain [Node.node MdHtml.ElementType.Paragraph [MdHtml.Attribute.TableRow] NPayload.plain [Node.node MdHtml.ElementType.Content [] (NPayload.contentP ['|']) [], Node.node MdHtml.ElementType.Content [] (NPayload.contentP ['A']) [], Node.node MdHtml.ElementType.Content [] (NPayload.contentP ['|']) [], Node.node MdHtml.ElementType.Content [] (NPayload.contentP ['B']) []], Node.node MdHtml.ElementType.Paragraph [] NPayload.plain [Node.node MdHtml.ElementType.Content [] (NPayload.contentP ['|', '-', '|']) [], Node.node MdHtml.ElementType.Content [] (NPayload.contentP ['-', '-', '|']) []]], cur := some [1] }, tm := { table_root := some (Node.node MdHtml.ElementType.Table [MdHtml.Attribute.TableStyle] NPayload.plain [Node.node MdHtml.ElementType.Table_Row [MdHtml.Attribute.TableRow] NPayload.plain [Node.node MdHtml.ElementType.Table_Head [MdHtml.Attribute.TableHeader] NPayload.plain []]]), cur := some [0, 0], col_dims := 0 }, table_parsing_flag := true },
    return_stack := [MdHtml.State.Data] }

/-- Intermediate parsing context of the concrete runs below. -/
def ectx29 : Ctx :=
  { EOF_Reached := false, consumed := ['1'],
    counter := (0 : Int), alt_counter := (1 : Int), indent_level := (0 : Int), newline_counter := 0,
    src := [], alt := [], blockquote_in_list := false, is_escaped := false, is_image := false,
    state := MdHtml.State.TableHeaderNames, warning_msg := "",
    emitter := { builder := { root := Node.node MdHtml.ElementType.DOCSTART [] NPayload.plain [Node.node MdHtml.ElementType.Paragraph [MdHtml.Attribute.TableRow] NPayload.plain [Node.node MdHtml.ElementType.Content [] (NPayload.contentP ['|']) [], Node.node MdHtml.ElementType.Content [] (NPayload.contentP ['A']) [], Node.node MdHtml.ElementType.Content [] (NPayload.contentP ['|']) [], Node.node MdHtml.ElementType.Content [] (NPayload.contentP ['B']) []], Node.node MdHtml.ElementType.Paragraph [] NPayload.plain [Node.node MdHtml.ElementType.Content [] (NPayload.contentP ['|', '-', '|']) [], Node.node MdHtml.ElementType.Content [] (NPayload.contentP ['-', '-', '|']) []]], cur := some [1] }, tm := { table_root := some (Node.node MdHtml.ElementType.Table [MdHtml.Attribute.TableStyle] NPayload.plain [Node.node MdHtml.ElementType.Table_Row [MdHtml.Attribute.TableRow] NPayload.plain [Node.node MdHtml.ElementType.Table_Head [MdHtml.Attribute.TableHeader] NPayload.plain []]]), cur := some [0, 0], col_dims := 0 }, table_parsing_flag := true },
    return_stack := [MdHtml.State.Data] }

/-- Intermediate parsing context of the concrete runs below. -/
def ectx30 : Ctx :=
  { EOF_Reached := false, consumed := [],
    counter := (0 : Int), alt_counter := (1 : Int), indent_level := (0 : Int), newline_counter := 0,
    src := [], alt := [], blockquote_in_list := false, is_escaped := false, is_image := false,
    state := MdHtml.State.TableHeaderNames, warning_msg := "",
    emitter := { builder := { root := Node.node MdHtml.ElementType.DOCSTART [] NPayload.plain [Node.node MdHtml.ElementType.Paragraph [MdHtml.Attribute.TableRow] NPayload.plain [Node.node MdHtml.ElementType.Content [] (NPayload.contentP ['|']) [], Node.node MdHtml.ElementType.Content [] (NPayload.contentP ['A']) [], Node.node MdHtml.ElementType.Content [] (NPayload.contentP ['|']) [], Node.node MdHtml.ElementType.Content [] (NPayload.contentP ['B']) []], Node.node MdHtml.ElementType.Paragraph [] NPayload.plain [Node.node MdHtml.ElementType.Content [] (NPayload.contentP ['|', '-', '|']) [], Node.node MdHtml.ElementType.Content [] (NPayload.contentP ['-', '-', '|']) []]], cur := some [1] }, tm := { table_root := some (Node.node MdHtml.ElementType.Table [MdHtml.Attribute.TableStyle] NPayload.plain [Node.node MdHtml.ElementType.Table_Row [MdHtml.Attribute.TableRow] NPayload.plain [Node.node MdHtml.ElementType.Table_Head [MdHtml.Attribute.TableHeader] NPayload.plain [Node.node MdHtml.ElementType.Content [] (NPayload.contentP ['1']) []], Node.node MdHtml.ElementType.Table_Head [MdHtml.Attribute.TableHeader] NPayload.plain []]]), cur := some [0, 1], col_dims := 0 }, table_parsing_flag := true },
    return_stack := [MdHtml.State.Data] }

/-- Intermediate parsing context of the concrete runs below. -/
def ectx31 : Ctx :=
  { EOF_Reached := false, consumed := ['2'],
    counter := (0 : Int), alt_counter := (1 : Int), indent_level := (0 : Int), newline_counter := 0,
    src := [], alt := [], blockquote_in_list := false, is_escaped := false, is_image := false,
    state := MdHtml.State.TableHeaderNames, warning_msg := "",
    emitter := { builder := { root := Node.node MdHtml.ElementType.DOCSTART [] NPayload.plain [Node.node MdHtml.ElementType.Paragraph [MdHtml.Attribute.TableRow] NPayload.plain [Node.node MdHtml.ElementType.Content [] (NPayload.contentP ['|']) [], Node.node MdHtml.ElementType.Content [] (NPayload.contentP ['A']) [], Node.node MdHtml.ElementType.Content [] (NPayload.contentP ['|']) [], Node.node MdHtml.ElementType.Content [] (NPayload.contentP ['B']) []], Node.node MdHtml.ElementType.Paragraph [] NPayload.plain [Node.node MdHtml.ElementType.Content [] (NPayload.contentP ['|', '-', '|']) [], Node.node MdHtml.ElementType.Content [] (NPayload.contentP ['-', '-', '|']) []]], cur := some [1] }, tm := { table_root := some (Node.node MdHtml.ElementType.Table [MdHtml.Attribute.TableStyle] NPayload.plain [Node.node MdHtml.ElementType.Table_Row [MdHtml.Attribute.TableRow] NPayload.plain [Node.node MdHtml.ElementType.Table_Head [MdHtml.Attribute.TableHeader] NPayload.plain [Node.node MdHtml.ElementType.Content [] (NPayload.contentP ['1']) []], Node.node MdHtml.ElementType.Table_Head [MdHtml.Attribute.TableHeader] NPayload.plain []]]), cur := some [0, 1], col_dims := 0 }, table_parsing_flag := true },
    return_stack := [MdHtml.State.Data] }

/-- Intermediate parsing context of the concrete runs below. -/
def ectx32 : Ctx :=
  { EOF_Reached := false, consumed := [],
    counter := (0 : Int), alt_counter := (1 : Int), indent_level := (0 : Int), newline_counter := 0,
    src := [], alt := [], blockquote_in_list := false, is_escaped := false, is_image := false,
    state := MdHtml.State.TableHeaderNames, warning_msg := "",
    emitter := { builder := { root := Node.node MdHtml.ElementType.DOCSTART [] NPayload.plain [Node.node MdHtml.ElementType.Paragraph [MdHtml.Attribute.TableRow] NPayload.plain [Node.node MdHtml.ElementType.Content [] (NPayload.contentP ['|']) [], Node.node MdHtml.ElementType.Content [] (NPayload.contentP ['A']) [], Node.node MdHtml.ElementType.Content [] (NPayload.contentP ['|']) [], Node.node MdHtml.ElementType.Content [] (NPayload.contentP ['B']) []], Node.node MdHtml.ElementType.Paragraph [] NPayload.plain [Node.node MdHtml.ElementType.Content [] (NPayload.contentP ['|', '-', '|']) [], Node.node MdHtml.ElementType.Content [] (NPayload.contentP ['-', '-', '|']) []]], cur := some [1] }, tm := { table_root := some (Node.node MdHtml.ElementType.Table [MdHtml.Attribute.TableStyle] NPayload.plain [Node.node MdHtml.ElementType.Table_Row [MdHtml.Attribute.TableRow] NPayload.plain [Node.node MdHtml.ElementType.Table_Head [MdHtml.Attribute.TableHeader] NPayload.plain [Node.node MdHtml.ElementType.Content [] (NPayload.contentP ['1']) []], Node.node MdHtml.ElementType.Table_Head [MdHtml.Attribute.TableHeader] NPayload.plain [Node.node MdHtml.ElementType.Content [] (NPayload.contentP ['2']) []], Node.node MdHtml.ElementType.Table_Head [MdHtml.Attribute.TableHeader] NPayload.plain []]]), cur := some [0, 2], col_dims := 0 }, table_parsing_flag := true },
    return_stack := [MdHtml.State.Data] }

/-- Intermediate parsing context of the concrete runs below. -/
def ectx33 : Ctx :=
  { EOF_Reached := false, consumed := [],
    counter := (0 : Int), alt_counter := (1 : Int), indent_level := (0 : Int), newline_counter := 0,
    src := [], alt := [], blockquote_in_list := false, is_escaped := false, is_image := false,
    state := MdHtml.State.TableHeaderSeparationPipeAwaiting, warning_msg := "",
    emitter := { builder := { root := Node.node MdHtml.ElementType.DOCSTART [] NPayload.plain [Node.node MdHtml.ElementType.Paragraph [MdHtml.Attribute.TableRow] NPayload.plain [Node.node MdHtml.ElementType.Content [] (NPayload.contentP ['|']) [], Node.node MdHtml.ElementType.Content [] (NPayload.contentP ['A']) [], Node.node MdHtml.ElementType.Content [] (NPayload.contentP ['|']) [], Node.node MdHtml.ElementType.Content [] (NPayload.contentP ['B']) []], Node.node MdHtml.ElementType.Paragraph [] NPayload.plain [Node.node MdHtml.ElementType.Content [] (NPayload.contentP ['|', '-', '|']) [], Node.node MdHtml.ElementType.Content [] (NPayload.contentP ['-', '-', '|']) []]], cur := some [1] }, tm := { table_root := some (Node.node MdHtml.ElementType.Table [MdHtml.Attribute.TableStyle] NPayload.plain [Node.node MdHtml.ElementType.Table_Row [MdHtml.Attribute.TableRow] NPayload.plain [Node.node MdHtml.ElementType.Table_Head [MdHtml.Attribute.TableHeader] NPayload.plain [Node.node MdHtml.ElementType.Content [] (NPayload.contentP ['1']) []], Node.node MdHtml.ElementType.Table_Head [MdHtml.Attribute.TableHeader] NPayload.plain [Node.node MdHtml.ElementType.Content [] (NPayload.contentP ['2']) []]]]), cur := some [], col_dims := 2 }, table_parsing_flag := true },
    return_stack := [MdHtml.State.Data] }

/-- Intermediate parsing context of the concrete runs below. -/
def ectx34 : Ctx :=
  { EOF_Reached := true, consumed := [],
    counter := (0 : Int), alt_counter := (1 : Int), indent_level := (0 : Int), newline_counter := 0,
    src := [], alt := [], blockquote_in_list := false, is_escaped := false, is_image := false,
    state := MdHtml.State.Data, warning_msg := "",
    emitter := { builder := { root := Node.node MdHtml.ElementType.DOCSTART [] NPayload.plain [Node.node MdHtml.ElementType.Paragraph [MdHtml.Attribute.TableRow] NPayload.plain [Node.node MdHtml.ElementType.Content [] (NPayload.contentP ['|']) [], Node.node MdHtml.ElementType.Content [] (NPayload.contentP ['A']) [], Node.node MdHtml.ElementType.Content [] (NPayload.contentP ['|']) [], Node.node MdHtml.ElementType.Content [] (NPayload.contentP ['B']) []], Node.node MdHtml.ElementType.Paragraph [] NPayload.plain [Node.node MdHtml.ElementType.Content [] (NPayload.contentP ['|', '-', '|']) [], Node.node MdHtml.ElementType.Content [] (NPayload.contentP ['-', '-', '|']) [], Node.node MdHtml.ElementType.Paragraph [MdHtml.Attribute.TableRow] NPayload.plain [Node.node MdHtml.ElementType.Content [] (NPayload.contentP ['|']) [], Node.node MdHtml.ElementType.Content [] (NPayload.contentP ['1']) [], Node.node MdHtml.ElementType.Content [] (NPayload.contentP ['|']) [], Node.node MdHtml.ElementType.Content [] (NPayload.contentP ['2']) []]]], cur := some [1] }, tm := { table_root := none, cur := some [], col_dims := 0 }, table_parsing_flag := false },
    return_stack := [] }

/-- Intermediate parsing context of the concrete runs below. -/
def ectx35 : Ctx :=
  { EOF_Reached := false, consumed := [],
    counter := (2 : Int), alt_counter := (1 : Int), indent_level := (0 : Int), newline_counter := 0,
    src := [], alt := [], blockquote_in_list := false, is_escaped := false, is_image := false,
    state := MdHtml.State.Data, warning_msg := "",
    emitter := { builder := { root := Node.node MdHtml.ElementType.DOCSTART [] NPayload.plain [Node.node MdHtml.ElementType.Paragraph [MdHtml.Attribute.TableRow] NPayload.plain [Node.node MdHtml.ElementType.Content [] (NPayload.contentP ['|']) [], Node.node MdHtml.ElementType.Content [] (NPayload.contentP ['A']) [], Node.node MdHtml.ElementType.Content [] (NPayload.contentP ['|']) [], Node.node MdHtml.ElementType.Content [] (NPayload.contentP ['B']) []], Node.node MdHtml.ElementType.Paragraph [] NPayload.plain [Node.node MdHtml.ElementType.Content [] (NPayload.contentP ['|', '-', '-', '|']) []]], cur := some [1] }, tm := { table_root := none, cur := some [], col_dims := 0 }, table_parsing_flag := false },
    return_stack := [] }

/-- Intermediate parsing context of the concrete runs below. -/
def ectx36 : Ctx :=
  { EOF_Reached := false, consumed := [],
    counter := (2 : Int), alt_counter := (1 : Int), indent_level := (0 : Int), newline_counter := 1,
    src := [], alt := [], blockquote_in_list := false, is_escaped := false, is_image := false,
    state := MdHtml.State.Data, warning_msg := "",
    emitter := { builder := { root := Node.node MdHtml.ElementType.DOCSTART [] NPayload.plain [Node.node MdHtml.ElementType.Paragraph [MdHtml.Attribute.TableRow] NPayload.plain [Node.node MdHtml.ElementType.Content [] (NPayload.contentP ['|']) [], Node.node MdHtml.ElementType.Content [] (NPayload.contentP ['A']) [], Node.node MdHtml.ElementType.Content [] (NPayload.contentP ['|']) [], Node.node MdHtml.ElementType.Content [] (NPayload.contentP ['B']) []], Node.node MdHtml.ElementType.Paragraph [] NPayload.plain [Node.node MdHtml.ElementType.Content [] (NPayload.contentP ['|', '-', '-', '|']) []]], cur := some [1] }, tm := { table_root := none, cur := some [], col_dims := 0 }, table_parsing_flag := false },
    return_stack := [] }

/-- Intermediate parsing context of the concrete runs below. -/
def ectx37 : Ctx :=
  { EOF_Reached := true, consumed := [],
    counter := (2 : Int), alt_counter := (1 : Int), indent_level := (0 : Int), newline_counter := 2,
    src := [], alt := [], blockquote_in_list := false, is_escaped := false, is_image := false,
    state := MdHtml.State.Data, warning_msg := "",
    emitter := { builder := { root := Node.node MdHtml.ElementType.DOCSTART [] NPayload.plain [Node.node MdHtml.ElementType.Paragraph [MdHtml.Attribute.TableRow] NPayload.plain [Node.node MdHtml.ElementType.Content [] (NPayload.contentP ['|']) [], Node.node MdHtml.ElementType.Content [] (NPayload.contentP ['A']) [], Node.node MdHtml.ElementType.Content [] (NPayload.contentP ['|']) [], Node.node MdHtml.ElementType.Content [] (NPayload.contentP ['B']) []], Node.node MdHtml.ElementType.Paragraph [] NPayload.plain [Node.node MdHtml.ElementType.Content [] (NPayload.contentP ['|', '-', '-', '|']) []]], cur := some [] }, tm := { table_root := none, cur := some [], col_dims := 0 }, table_parsing_flag := false },
    return_stack := [] }

/-- Intermediate parsing context of the concrete runs below. -/
def ectx38 : Ctx :=
  { EOF_Reached := false, consumed := [],
    counter := (0 : Int), alt_counter := (0 : Int), indent_level := (0 : Int), newline_counter := 0,
    src := [], alt := [], blockquote_in_list := false, is_escaped := false, is_image := false,
    state := MdHtml.State.DataAsterisk, warning_msg := "",
    emitter := { builder := { root := Node.node MdHtml.ElementType.DOCSTART [] NPayload.plain [], cur := some [] }, tm := { table_root := none, cur := none, col_dims := 0 }, table_parsing_flag := false },
    return_stack := [MdHtml.State.Data] }

/-- Intermediate parsing context of the concrete runs below. -/
def ectx39 : Ctx :=
  { EOF_Reached := false, consumed := [],
    counter := (0 : Int), alt_counter := (0 : Int), indent_level := (0 : Int), newline_counter := 0,
    src := [], alt := [], blockquote_in_list := false, is_escaped := false, is_image := false,
    state := MdHtml.State.DataDoubleAsterisk, warning_msg := "",
    emitter := { builder := { root := Node.node MdHtml.ElementType.DOCSTART [] NPayload.plain [], cur := some [] }, tm := { table_root := none, cur := none, col_dims := 0 }, table_parsing_flag := false },
    return_stack := [MdHtml.State.Data] }

/-- Intermediate parsing context of the concrete runs below. -/
def ectx40 : Ctx :=
  { EOF_Reached := false, consumed := ['b'],
    counter := (0 : Int), alt_counter := (0 : Int), indent_level := (0 : Int), newline_counter := 0,
    src := [], alt := [], blockquote_in_list := false, is_escaped := false, is_image := false,
    state := MdHtml.State.DataDoubleAsteriskData, warning_msg := "",
    emitter := { builder := { root := Node.node MdHtml.ElementType.DOCSTART [] NPayload.plain [], cur := some [] }, tm := { table_root := none, cur := none, col_dims := 0 }, table_parsing_flag := false },
    return_stack := [MdHtml.State.Data] }

/-- Intermediate parsing context of the concrete runs below. -/
def ectx41 : Ctx :=
  { EOF_Reached := false, consumed := ['b', 'o'],
    counter := (0 : Int), alt_counter := (0 : Int), indent_level := (0 : Int), newline_counter := 0,
    src := [], alt := [], blockquote_in_list := false, is_escaped := false, is_image := false,
    state := MdHtml.State.DataDoubleAsteriskData, warning_msg := "",
    emitter := { builder := { root := Node.node MdHtml.ElementType.DOCSTART [] NPayload.plain [], cur := some [] }, tm := { table_root := none, cur := none, col_dims := 0 }, table_parsing_flag := false },
    return_stack := [MdHtml.State.Data] }

/-- Intermediate parsing context of the concrete runs below. -/
def ectx42 : Ctx :=
  { EOF_Reached := false, consumed := ['b', 'o', 'l'],
    counter := (0 : Int), alt_counter := (0 : Int), indent_level := (0 : Int), newline_counter := 0,
    src := [], alt := [], blockquote_in_list := false, is_escaped := false, is_image := false,
    state := MdHtml.State.DataDoubleAsteriskData, warning_msg := "",
    emitter := { builder := { root := Node.node MdHtml.ElementType.DOCSTART [] NPayload.plain [], cur := some [] }, tm := { table_root := none, cur := none, col_dims := 0 }, table_parsing_flag := false },
    return_stack := [MdHtml.State.Data] }

/-- Intermediate parsing context of the concrete runs below. -/
def ectx43 : Ctx :=
  { EOF_Reached := false, consumed := ['b', 'o', 'l', 'd'],
    counter := (0 : Int), alt_counter := (0 : Int), indent_level := (0 : Int), newline_counter := 0,
    src := [], alt := [], blockquote_in_list := false, is_escaped := false, is_image := false,
    state := MdHtml.State.DataDoubleAsteriskData, warning_msg := "",
    emitter := { builder := { root := Node.node MdHtml.ElementType.DOCSTART [] NPayload.plain [], cur := some [] }, tm := { table_root := none, cur := none, col_dims := 0 }, table_parsing_flag := false },
    return_stack := [MdHtml.State.Data] }

/-- Intermediate parsing context of the concrete runs below. -/
def ectx44 : Ctx :=
  { EOF_Reached := false, consumed := ['b', 'o', 'l', 'd'],
    counter := (1 : Int), alt_counter := (0 : Int), indent_level := (0 : Int), newline_counter := 0,
    src := [], alt := [], blockquote_in_list := false, is_escaped := false, is_image := false,
    state := MdHtml.State.DataDoubleAsteriskData, warning_msg := "",
    emitter := { builder := { root := Node.node MdHtml.ElementType.DOCSTART [] NPayload.plain [], cur := some [] }, tm := { table_root := none, cur := none, col_dims := 0 }, table_parsing_flag := false },
    return_stack := [MdHtml.State.Data] }

/-- Intermediate parsing context of the concrete runs below. -/
def ectx45 : Ctx :=
  { EOF_Reached := false, consumed := [],
    counter := (0 : Int), alt_counter := (0 : Int), indent_level := (0 : Int), newline_counter := 0,
    src := [], alt := [], blockquote_in_list := false, is_escaped := false, is_image := false,
    state := MdHtml.State.Data, warning_msg := "",
    emitter := { builder := { root := Node.node MdHtml.ElementType.DOCSTART [] NPayload.plain [Node.node MdHtml.ElementType.Span [MdHtml.Attribute.Bold] NPayload.plain [Node.node MdHtml.ElementType.Content [] (NPayload.contentP ['b', 'o', 'l', 'd']) []]], cur := some [] }, tm := { table_root := none, cur := none, col_dims := 0 }, table_parsing_flag := false },
    return_stack := [] }

/-- Intermediate parsing context of the concrete runs below. -/
def ectx46 : Ctx :=
  { EOF_Reached := false, consumed := [' '],
    counter := (0 : Int), alt_counter := (0 : Int), indent_level := (0 : Int), newline_counter := 0,
    src := [], alt := [], blockquote_in_list := false, is_escaped := false, is_image := false,
    state := MdHtml.State.Data, warning_msg := "",
    emitter := { builder := { root := Node.node MdHtml.ElementType.DOCSTART [] NPayload.plain [Node.node MdHtml.ElementType.Span [MdHtml.Attribute.Bold] NPayload.plain [Node.node MdHtml.ElementType.Content [] (NPayload.contentP ['b', 'o', 'l', 'd']) []]], cur := some [] }, tm := { table_root := none, cur := none, col_dims := 0 }, table_parsing_flag := false },
    return_stack := [] }

/-- Intermediate parsing context of the concrete runs below. -/
def ectx47 : Ctx :=
  { EOF_Reached := false, consumed := [' ', 't'],
    counter := (0 : Int), alt_counter := (0 : Int), indent_level := (0 : Int), newline_counter := 0,
    src := [], alt := [], blockquote_in_list := false, is_escaped := false, is_image := false,
    state := MdHtml.State.Data, warning_msg := "",
    emitter := { builder := { root := Node.node MdHtml.ElementType.DOCSTART [] NPayload.plain [Node.node MdHtml.ElementType.Span [MdHtml.Attribute.Bold] NPayload.plain [Node.node MdHtml.ElementType.Content [] (NPayload.contentP ['b', 'o', 'l', 'd']) []]], cur := some [] }, tm := { table_root := none, cur := none, col_dims := 0 }, table_parsing_flag := false },
    return_stack := [] }

/-- Intermediate parsing context of the concrete runs below. -/
def ectx48 : Ctx :=
  { EOF_Reached := false, consumed := [' ', 't', 'a'],
    counter := (0 : Int), alt_counter := (0 : Int), indent_level := (0 : Int), newline_counter := 0,
    src := [], alt := [], blockquote_in_list := false, is_escaped := false, is_image := false,
    state := MdHtml.State.Data, warning_msg := "",
    emitter := { builder := { root := Node.node MdHtml.ElementType.DOCSTART [] NPayload.plain [Node.node MdHtml.ElementType.Span [MdHtml.Attribute.Bold] NPayload.plain [Node.node MdHtml.ElementType.Content [] (NPayload.contentP ['b', 'o', 'l', 'd']) []]], cur := some [] }, tm := { table_root := none, cur := none, col_dims := 0 }, table_parsing_flag := false },
    return_stack := [] }

/-- Intermediate parsing context of the concrete runs below. -/
def ectx49 : Ctx :=
  { EOF_Reached := false, consumed := [' ', 't', 'a', 'i'],
    counter := (0 : Int), alt_counter := (0 : Int), indent_level := (0 : Int), newline_counter := 0,
    src := [], alt := [], blockquote_in_list := false, is_escaped := false, is_image := false,
    state := MdHtml.State.Data, warning_msg := "",
    emitter := { builder := { root := Node.node MdHtml.ElementType.DOCSTART [] NPayload.plain [Node.node MdHtml.ElementType.Span [MdHtml.Attribute.Bold] NPayload.plain [Node.node MdHtml.ElementType.Content [] (NPayload.contentP ['b', 'o', 'l', 'd']) []]], cur := some [] }, tm := { table_root := none, cur := none, col_dims := 0 }, table_parsing_flag := false },
    return_stack := [] }

/-- Intermediate parsing context of the concrete runs below. -/
def ectx50 : Ctx :=
  { EOF_Reached := false, consumed := [' ', 't', 'a', 'i', 'l'],
    counter := (0 : Int), alt_counter := (0 : Int), indent_level := (0 : Int), newline_counter := 0,
    src := [], alt := [], blockquote_in_list := false, is_escaped := false, is_image := false,
    state := MdHtml.State.Data, warning_msg := "",
    emitter := { builder := { root := Node.node MdHtml.ElementType.DOCSTART [] NPayload.plain [Node.node MdHtml.ElementType.Span [MdHtml.Attribute.Bold] NPayload.plain [Node.node MdHtml.ElementType.Content [] (NPayload.contentP ['b', 'o', 'l', 'd']) []]], cur := some [] }, tm := { table_root := none, cur := none, col_dims := 0 }, table_parsing_flag := false },
    return_stack := [] }

/-- Intermediate parsing context of the concrete runs below. -/
def ectx51 : Ctx :=
  { EOF_Reached := false, consumed := [],
    counter := (0 : Int), alt_counter := (0 : Int), indent_level := (0 : Int), newline_counter := 0,
    src := [], alt := [], blockquote_in_list := false, is_escaped := false, is_image := false,
    state := MdHtml.State.Data, warning_msg := "",
    emitter := { builder := { root := Node.node MdHtml.ElementType.DOCSTART [] NPayload.plain [Node.node MdHtml.ElementType.Span [MdHtml.Attribute.Bold] NPayload.plain [Node.node MdHtml.ElementType.Content [] (NPayload.contentP ['b', 'o', 'l', 'd']) []], Node.node MdHtml.ElementType.Paragraph [] NPayload.plain [Node.node MdHtml.ElementType.Content [] (NPayload.contentP [' ', 't', 'a', 'i', 'l']) []]], cur := some [1] }, tm := { table_root := none, cur := none, col_dims := 0 }, table_parsing_flag := false },
    return_stack := [] }

/-- Intermediate parsing context of the concrete runs below. -/
def ectx52 : Ctx :=
  { EOF_Reached := true, consumed := [],
    counter := (0 : Int), alt_counter := (0 : Int), indent_level := (0 : Int), newline_counter := 1,
    src := [], alt := [], blockquote_in_list := false, is_escaped := false, is_image := false,
    state := MdHtml.State.Data, warning_msg := "",
    emitter := { builder := { root := Node.node MdHtml.ElementType.DOCSTART [] NPayload.plain [Node.node MdHtml.ElementType.Span [MdHtml.Attribute.Bold] NPayload.plain [Node.node MdHtml.ElementType.Content [] (NPayload.contentP ['b', 'o', 'l', 'd']) []], Node.node MdHtml.ElementType.Paragraph [] NPayload.plain [Node.node MdHtml.ElementType.Content [] (NPayload.contentP [' ', 't', 'a', 'i', 'l']) []]], cur := some [1] }, tm := { table_root := none, cur := none, col_dims := 0 }, table_parsing_flag := false },
    return_stack := [] }

/-- Intermediate parsing context of the concrete runs below. -/
def ectx53 : Ctx :=
  { EOF_Reached := false, consumed := [],
    counter := (1 : Int), alt_counter := (0 : Int), indent_level := (0 : Int), newline_counter := 0,
    src := [], alt := [], blockquote_in_list := false, is_escaped := false, is_image := false,
    state := MdHtml.State.DataHashtag, warning_msg := "",
    emitter := { builder := { root := Node.node MdHtml.ElementType.DOCSTART [] NPayload.plain [], cur := some [] }, tm := { table_root := none, cur := none, col_dims := 0 }, table_parsing_flag := false },
    return_stack := [MdHtml.State.Data] }

/-- Intermediate parsing context of the concrete runs below. -/
def ectx54 : Ctx :=
  { EOF_Reached := false, consumed := [],
    counter := (2 : Int), alt_counter := (0 : Int), indent_level := (0 : Int), newline_counter := 0,
    src := [], alt := [], blockquote_in_list := false, is_escaped := false, is_image := false,
    state := MdHtml.State.DataHashtag, warning_msg := "",
    emitter := { builder := { root := Node.node MdHtml.ElementType.DOCSTART [] NPayload.plain [], cur := some [] }, tm := { table_root := none, cur := none, col_dims := 0 }, table_parsing_flag := false },
    return_stack := [MdHtml.State.Data] }

/-- Intermediate parsing context of the concrete runs below. -/
def ectx55 : Ctx :=
  { EOF_Reached := false, consumed := [],
    counter := (3 : Int), alt_counter := (0 : Int), indent_level := (0 : Int), newline_counter := 0,
    src := [], alt := [], blockquote_in_list := false, is_escaped := false, is_image := false,
    state := MdHtml.State.DataHashtag, warning_msg := "",
    emitter := { builder := { root := Node.node MdHtml.ElementType.DOCSTART [] NPayload.plain [], cur := some [] }, tm := { table_root := none, cur := none, col_dims := 0 }, table_parsing_flag := false },
    return_stack := [MdHtml.State.Data] }

/-- Intermediate parsing context of the concrete runs below. -/
def ectx56 : Ctx :=
  { EOF_Reached := false, consumed := [],
    counter := (4 : Int), alt_counter := (0 : Int), indent_level := (0 : Int), newline_counter := 0,
    src := [], alt := [], blockquote_in_list := false, is_escaped := false, is_image := false,
    state := MdHtml.State.DataHashtag, warning_msg := "",
    emitter := { builder := { root := Node.node MdHtml.ElementType.DOCSTART [] NPayload.plain [], cur := some [] }, tm := { table_root := none, cur := none, col_dims := 0 }, table_parsing_flag := false },
    return_stack := [MdHtml.State.Data] }

/-- Intermediate parsing context of the concrete runs below. -/
def ectx57 : Ctx :=
  { EOF_Reached := false, consumed := [],
    counter := (5 : Int), alt_counter := (0 : Int), indent_level := (0 : Int), newline_counter := 0,
    src := [], alt := [], blockquote_in_list := false, is_escaped := false, is_image := false,
    state := MdHtml.State.DataHashtag, warning_msg := "",
    emitter := { builder := { root := Node.node MdHtml.ElementType.DOCSTART [] NPayload.plain [], cur := some [] }, tm := { table_root := none, cur := none, col_dims := 0 }, table_parsing_flag := false },
    return_stack := [MdHtml.State.Data] }

/-- Intermediate parsing context of the concrete runs below. -/
def ectx58 : Ctx :=
  { EOF_Reached := false, consumed := [],
    counter := (6 : Int), alt_counter := (0 : Int), indent_level := (0 : Int), newline_counter := 0,
    src := [], alt := [], blockquote_in_list := false, is_escaped := false, is_image := false,
    state := MdHtml.State.DataHashtag, warning_msg := "",
    emitter := { builder := { root := Node.node MdHtml.ElementType.DOCSTART [] NPayload.plain [], cur := some [] }, tm := { table_root := none, cur := none, col_dims := 0 }, table_parsing_flag := false },
    return_stack := [MdHtml.State.Data] }

/-- Intermediate parsing context of the concrete runs below. -/
def ectx59 : Ctx :=
  { EOF_Reached := false, consumed := ['#', '#', '#', '#', '#', '#'],
    counter := (6 : Int), alt_counter := (0 : Int), indent_level := (0 : Int), newline_counter := 0,
    src := [], alt := [], blockquote_in_list := false, is_escaped := false, is_image := false,
    state := MdHtml.State.Data, warning_msg := "",
    emitter := { builder := { root := Node.node MdHtml.ElementType.DOCSTART [] NPayload.plain [], cur := some [] }, tm := { table_root := none, cur := none, col_dims := 0 }, table_parsing_flag := false },
    return_stack := [] }

/-- Intermediate parsing context of the concrete runs below. -/
def ectx60 : Ctx :=
  { EOF_Reached := false, consumed := ['#', '#', '#', '#', '#', '#', ' '],
    counter := (6 : Int), alt_counter := (0 : Int), indent_level := (0 : Int), newline_counter := 0,
    src := [], alt := [], blockquote_in_list := false, is_escaped := false, is_image := false,
    state := MdHtml.State.Data, warning_msg := "",
    emitter := { builder := { root := Node.node MdHtml.ElementType.DOCSTART [] NPayload.plain [], cur := some [] }, tm := { table_root := none, cur := none, col_dims := 0 }, table_parsing_flag := false },
    return_stack := [] }

/-- Intermediate parsing context of the concrete runs below. -/
def ectx61 : Ctx :=
  { EOF_Reached := false, consumed := ['#', '#', '#', '#', '#', '#', ' ', 'x'],
    counter := (6 : Int), alt_counter := (0 : Int), indent_level := (0 : Int), newline_counter := 0,
    src := [], alt := [], blockquote_in_list := false, is_escaped := false, is_image := false,
    state := MdHtml.State.Data, warning_msg := "",
    emitter := { builder := { root := Node.node MdHtml.ElementType.DOCSTART [] NPayload.plain [], cur := some [] }, tm := { table_root := none, cur := none, col_dims := 0 }, table_parsing_flag := false },
    return_stack := [] }

/-- Intermediate parsing context of the concrete runs below. -/
def ectx62 : Ctx :=
  { EOF_Reached := false, consumed := [],
    counter := (6 : Int), alt_counter := (0 : Int), indent_level := (0 : Int), newline_counter := 0,
    src := [], alt := [], blockquote_in_list := false, is_escaped := false, is_image := false,
    state := MdHtml.State.Data, warning_msg := "",
    emitter := { builder := { root := Node.node MdHtml.ElementType.DOCSTART [] NPayload.plain [Node.node MdHtml.ElementType.Paragraph [] NPayload.plain [Node.node MdHtml.ElementType.Content [] (NPayload.contentP ['#', '#', '#', '#', '#', '#', ' ', 'x']) []]], cur := some [0] }, tm := { table_root := none, cur := none, col_dims := 0 }, table_parsing_flag := false },
    return_stack := [] }

/-- Intermediate parsing context of the concrete runs below. -/
def ectx63 : Ctx :=
  { EOF_Reached := true, consumed := [],
    counter := (6 : Int), alt_counter := (0 : Int), indent_level := (0 : Int), newline_counter := 1,
    src := [], alt := [], blockquote_in_list := false, is_escaped := false, is_image := false,
    state := MdHtml.State.Data, warning_msg := "",
    emitter := { builder := { root := Node.node MdHtml.ElementType.DOCSTART [] NPayload.plain [Node.node MdHtml.ElementType.Paragraph [] NPayload.plain [Node.node MdHtml.ElementType.Content [] (NPayload.contentP ['#', '#', '#', '#', '#', '#', ' ', 'x']) []]], cur := some [0] }, tm := { table_root := none, cur := none, col_dims := 0 }, table_parsing_flag := false },
    return_stack := [] }

/-- Intermediate parsing context of the concrete runs below. -/
def ectx64 : Ctx :=
  { EOF_Reached := false, consumed := [],
    counter := (0 : Int), alt_counter := (0 : Int), indent_level := (0 : Int), newline_counter := 0,
    src := [], alt := [], blockquote_in_list := false, is_escaped := false, is_image := false,
    state := MdHtml.State.Data, warning_msg := "",
    emitter := { builder := { root := Node.node MdHtml.ElementType.DOCSTART [] NPayload.plain [Node.node MdHtml.ElementType.Header_1 [MdHtml.Attribute.Bold, MdHtml.Attribute.FontSize1] NPayload.plain []], cur := some [0] }, tm := { table_root := none, cur := none, col_dims := 0 }, table_parsing_flag := false },
    return_stack := [MdHtml.State.Data, MdHtml.State.Data] }

/-- Intermediate parsing context of the concrete runs below. -/
def ectx65 : Ctx :=
  { EOF_Reached := false, consumed := ['x'],
    counter := (0 : Int), alt_counter := (0 : Int), indent_level := (0 : Int), newline_counter := 0,
    src := [], alt := [], blockquote_in_list := false, is_escaped := false, is_image := false,
    state := MdHtml.State.Data, warning_msg := "",
    emitter := { builder := { root := Node.node MdHtml.ElementType.DOCSTART [] NPayload.plain [Node.node MdHtml.ElementType.Header_1 [MdHtml.Attribute.Bold, MdHtml.Attribute.FontSize1] NPayload.plain []], cur := some [0] }, tm := { table_root := none, cur := none, col_dims := 0 }, table_parsing_flag := false },
    return_stack := [MdHtml.State.Data, MdHtml.State.Data] }

/-- Intermediate parsing context of the concrete runs below. -/
def ectx66 : Ctx :=
  { EOF_Reached := false, consumed := [],
    counter := (0 : Int), alt_counter := (0 : Int), indent_level := (0 : Int), newline_counter := 0,
    src := [], alt := [], blockquote_in_list := false, is_escaped := false, is_image := false,
    state := MdHtml.State.Data, warning_msg := "",
    emitter := { builder := { root := Node.node MdHtml.ElementType.DOCSTART [] NPayload.plain [Node.node MdHtml.ElementType.Header_1 [MdHtml.Attribute.Bold, MdHtml.Attribute.FontSize1] NPayload.plain [Node.node MdHtml.ElementType.Content [] (NPayload.contentP ['x']) []]], cur := some [] }, tm := { table_root := none, cur := none, col_dims := 0 }, table_parsing_flag := false },
    return_stack := [MdHtml.State.Data] }

/-- Intermediate parsing context of the concrete runs below. -/
def ectx67 : Ctx :=
  { EOF_Reached := true, consumed := [],
    counter := (0 : Int), alt_counter := (0 : Int), indent_level := (0 : Int), newline_counter := 0,
    src := [], alt := [], blockquote_in_list := false, is_escaped := false, is_image := false,
    state := MdHtml.State.Data, warning_msg := "",
    emitter := { builder := { root := Node.node MdHtml.ElementType.DOCSTART [] NPayload.plain [Node.node MdHtml.ElementType.Header_1 [MdHtml.Attribute.Bold, MdHtml.Attribute.FontSize1] NPayload.plain [Node.node MdHtml.ElementType.Content [] (NPayload.contentP ['x']) []]], cur := some [] }, tm := { table_root := none, cur := none, col_dims := 0 }, table_parsing_flag := false },
    return_stack := [MdHtml.State.Data] }

/-- Intermediate parsing context of the concrete runs below. -/
def ectx68 : Ctx :=
  { EOF_Reached := false, consumed := [],
    counter := (0 : Int), alt_counter := (0 : Int), indent_level := (0 : Int), newline_counter := 0,
    src := [], alt := [], blockquote_in_list := false, is_escaped := false, is_image := false,
    state := MdHtml.State.Data, warning_msg := "",
    emitter := { builder := { root := Node.node MdHtml.ElementType.DOCSTART [] NPayload.plain [Node.node MdHtml.ElementType.Header_6 [MdHtml.Attribute.Bold, MdHtml.Attribute.FontSize6] NPayload.plain []], cur := some [0] }, tm := { table_root := none, cur := none, col_dims := 0 }, table_parsing_flag := false },
    return_stack := [MdHtml.State.Data, MdHtml.State.Data] }

/-- Intermediate parsing context of the concrete runs below. -/
def ectx69 : Ctx :=
  { EOF_Reached := false, consumed := ['x'],
    counter := (0 : Int), alt_counter := (0 : Int), indent_level := (0 : Int), newline_counter := 0,
    src := [], alt := [], blockquote_in_list := false, is_escaped := false, is_image := false,
    state := MdHtml.State.Data, warning_msg := "",
    emitter := { builder := { root := Node.node MdHtml.ElementType.DOCSTART [] NPayload.plain [Node.node MdHtml.ElementType.Header_6 [MdHtml.Attribute.Bold, MdHtml.Attribute.FontSize6] NPayload.plain []], cur := some [0] }, tm := { table_root := none, cur := none, col_dims := 0 }, table_parsing_flag := false },
    return_stack := [MdHtml.State.Data, MdHtml.State.Data] }

/-- Intermediate parsing context of the concrete runs below. -/
def ectx70 : Ctx :=
  { EOF_Reached := false, consumed := [],
    counter := (0 : Int), alt_counter := (0 : Int), indent_level := (0 : Int), newline_counter := 0,
    src := [], alt := [], blockquote_in_list := false, is_escaped := false, is_image := false,
    state := MdHtml.State.Data, warning_msg := "",
    emitter := { builder := { root := Node.node MdHtml.ElementType.DOCSTART [] NPayload.plain [Node.node MdHtml.ElementType.Header_6 [MdHtml.Attribute.Bold, MdHtml.Attribute.FontSize6] NPayload.plain [Node.node MdHtml.ElementType.Content [] (NPayload.contentP ['x']) []]], cur := some [] }, tm := { table_root := none, cur := none, col_dims := 0 }, table_parsing_flag := false },
    return_stack := [MdHtml.State.Data] }

/-- Intermediate parsing context of the concrete runs below. -/
def ectx71 : Ctx :=
  { EOF_Reached := true, consumed := [],
    counter := (0 : Int), alt_counter := (0 : Int), indent_level := (0 : Int), newline_counter := 0,
    src := [], alt := [], blockquote_in_list := false, is_escaped := false, is_image := false,
    state := MdHtml.State.Data, warning_msg := "",
    emitter := { builder := { root := Node.node MdHtml.ElementType.DOCSTART [] NPayload.plain [Node.node MdHtml.ElementType.Header_6 [MdHtml.Attribute.Bold, MdHtml.Attribute.FontSize6] NPayload.plain [Node.node MdHtml.ElementType.Content [] (NPayload.contentP ['x']) []]], cur := some [] }, tm := { table_root := none, cur := none, col_dims := 0 }, table_parsing_flag := false },
    return_stack := [MdHtml.State.Data] }

/-- Intermediate parsing context of the concrete runs below. -/
def ectx72 : Ctx :=
  { EOF_Reached := false, consumed := ['a'],
    counter := (0 : Int), alt_counter := (0 : Int), indent_level := (0 : Int), newline_counter := 0,
    src := [], alt := [], blockquote_in_list := false, is_escaped := false, is_image := false,
    state := MdHtml.State.Data, warning_msg := "",
    emitter := { builder := { root := Node.node MdHtml.ElementType.DOCSTART [] NPayload.plain [], cur := some [] }, tm := { table_root := none, cur := none, col_dims := 0 }, table_parsing_flag := false },
    return_stack := [] }

/-- Intermediate parsing context of the concrete runs below. -/
def ectx73 : Ctx :=
  { EOF_Reached := false, consumed := [],
    counter := (0 : Int), alt_counter := (0 : Int), indent_level := (0 : Int), newline_counter := 0,
    src := [], alt := [], blockquote_in_list := false, is_escaped := false, is_image := false,
    state := MdHtml.State.Data, warning_msg := "",
    emitter := { builder := { root := Node.node MdHtml.ElementType.DOCSTART [] NPayload.plain [Node.node MdHtml.ElementType.Paragraph [] NPayload.plain [Node.node MdHtml.ElementType.Content [] (NPayload.contentP ['a']) []]], cur := some [0] }, tm := { table_root := none, cur := none, col_dims := 0 }, table_parsing_flag := false },
    return_stack := [] }

/-- Intermediate parsing context of the concrete runs below. -/
def ectx74 : Ctx :=
  { EOF_Reached := false, consumed := ['b'],
    counter := (0 : Int), alt_counter := (0 : Int), indent_level := (0 : Int), newline_counter := 0,
    src := [], alt := [], blockquote_in_list := false, is_escaped := false, is_image := false,
    state := MdHtml.State.Data, warning_msg := "",
    emitter := { builder := { root := Node.node MdHtml.ElementType.DOCSTART [] NPayload.plain [Node.node MdHtml.ElementType.Paragraph [] NPayload.plain [Node.node MdHtml.ElementType.Content [] (NPayload.contentP ['a']) []]], cur := some [0] }, tm := { table_root := none, cur := none, col_dims := 0 }, table_parsing_flag := false },
    return_stack := [] }

/-- Intermediate parsing context of the concrete runs below. -/
def ectx75 : Ctx :=
  { EOF_Reached := true, consumed := [],
    counter := (0 : Int), alt_counter := (0 : Int), indent_level := (0 : Int), newline_counter := 1,
    src := [], alt := [], blockquote_in_list := false, is_escaped := false, is_image := false,
    state := MdHtml.State.Data, warning_msg := "",
    emitter := { builder := { root := Node.node MdHtml.ElementType.DOCSTART [] NPayload.plain [Node.node MdHtml.ElementType.Paragraph [] NPayload.plain [Node.node MdHtml.ElementType.Content [] (NPayload.contentP ['a']) [], Node.node MdHtml.ElementType.Content [] (NPayload.contentP ['b']) []]], cur := some [0] }, tm := { table_root := none, cur := none, col_dims := 0 }, table_parsing_flag := false },
    return_stack := [] }

/-- Intermediate parsing context of the concrete runs below. -/
def ectx76 : Ctx :=
  { EOF_Reached := true, consumed := [],
    counter := (0 : Int), alt_counter := (0 : Int), indent_level := (0 : Int), newline_counter := 0,
    src := [], alt := [], blockquote_in_list := false, is_escaped := false, is_image := false,
    state := MdHtml.State.Data, warning_msg := "",
    emitter := { builder := { root := Node.node MdHtml.ElementType.DOCSTART [] NPayload.plain [Node.node MdHtml.ElementType.Paragraph [] NPayload.plain [Node.node MdHtml.ElementType.Content [] (NPayload.contentP ['a']) []]], cur := some [0] }, tm := { table_root := none, cur := none, col_dims := 0 }, table_parsing_flag := false },
    return_stack := [] }


/-- The tree produced by `parse_document` on "|A|B|\n|---|---|\n|1|2|\n". -/
def treeA : Node :=
  Node.node MdHtml.ElementType.DOCSTART [] NPayload.plain [Node.node MdHtml.ElementType.Table [MdHtml.Attribute.TableStyle] NPayload.plain [Node.node MdHtml.ElementType.Table_Row [MdHtml.Attribute.TableRow] NPayload.plain [Node.node MdHtml.ElementType.Table_Head [MdHtml.Attribute.TableHeader] NPayload.plain [Node.node MdHtml.ElementType.Content [] (NPayload.contentP ['A']) []], Node.node MdHtml.ElementType.Table_Head [MdHtml.Attribute.TableHeader] NPayload.plain [Node.node MdHtml.ElementType.Content [] (NPayload.contentP ['B']) []]], Node.node MdHtml.ElementType.Table_Row [MdHtml.Attribute.TableRow] NPayload.plain [Node.node MdHtml.ElementType.Table_Cell [MdHtml.Attribute.TableCell] NPayload.plain [Node.node MdHtml.ElementType.Content [] (NPayload.contentP ['1']) []], Node.node MdHtml.ElementType.Table_Cell [MdHtml.Attribute.TableCell] NPayload.plain [Node.node MdHtml.ElementType.Content [] (NPayload.contentP ['2']) []]]]]

/-- The tree produced by `parse_document` on "|A|B|\n|-|-|\n|1|2|\n". -/
def treeB : Node :=
  Node.node MdHtml.ElementType.DOCSTART [] NPayload.plain [Node.node MdHtml.ElementType.Paragraph [MdHtml.Attribute.TableRow] NPayload.plain [Node.node MdHtml.ElementType.Content [] (NPayload.contentP ['|']) [], Node.node MdHtml.ElementType.Content [] (NPayload.contentP ['A']) [], Node.node MdHtml.ElementType.Content [] (NPayload.contentP ['|']) [], Node.node MdHtml.ElementType.Content [] (NPayload.contentP ['B']) []], Node.node MdHtml.ElementType.Paragraph [] NPayload.plain [Node.node MdHtml.ElementType.Content [] (NPayload.contentP ['|', '-', '|']) [], Node.node MdHtml.ElementType.Content [] (NPayload.contentP ['-', '-', '|']) [], Node.node MdHtml.ElementType.Paragraph [MdHtml.Attribute.TableRow] NPayload.plain [Node.node MdHtml.ElementType.Content [] (NPayload.contentP ['|']) [], Node.node MdHtml.ElementType.Content [] (NPayload.contentP ['1']) [], Node.node MdHtml.ElementType.Content [] (NPayload.contentP ['|']) [], Node.node MdHtml.ElementType.Content [] (NPayload.contentP ['2']) []]]]

/-- The tree produced by `parse_document` on "|A|B|\n|--|\n". -/
def treeC : Node :=
  Node.node MdHtml.ElementType.DOCSTART [] NPayload.plain [Node.node MdHtml.ElementType.Paragraph [MdHtml.Attribute.TableRow] NPayload.plain [Node.node MdHtml.ElementType.Content [] (NPayload.contentP ['|']) [], Node.node MdHtml.ElementType.Content [] (NPayload.contentP ['A']) [], Node.node MdHtml.ElementType.Content [] (NPayload.contentP ['|']) [], Node.node MdHtml.ElementType.Content [] (NPayload.contentP ['B']) []], Node.node MdHtml.ElementType.Paragraph [] NPayload.plain [Node.node MdHtml.ElementType.Content [] (NPayload.contentP ['|', '-', '-', '|']) []]]

/-- The tree produced by `parse_document` on "**bold** tail\n". -/
def treeD : Node :=
  Node.node MdHtml.ElementType.DOCSTART [] NPayload.plain [Node.node MdHtml.ElementType.Span [MdHtml.Attribute.Bold] NPayload.plain [Node.node MdHtml.ElementType.Content [] (NPayload.contentP ['b', 'o', 'l', 'd']) []], Node.node MdHtml.ElementType.Paragraph [] NPayload.plain [Node.node MdHtml.ElementType.Content [] (NPayload.contentP [' ', 't', 'a', 'i', 'l']) []]]

/-- The tree produced by `parse_document` on "####### x\n". -/
def treeE : Node :=
  Node.node MdHtml.ElementType.DOCSTART [] NPayload.plain [Node.node MdHtml.ElementType.Paragraph [] NPayload.plain [Node.node MdHtml.ElementType.Content [] (NPayload.contentP ['#', '#', '#', '#', '#', '#', ' ', 'x']) []]]

/-- The tree produced by `parse_document` on "# x\n". -/
def treeF : Node :=
  Node.node MdHtml.ElementType.DOCSTART [] NPayload.plain [Node.node MdHtml.ElementType.Header_1 [MdHtml.Attribute.Bold, MdHtml.Attribute.FontSize1] NPayload.plain [Node.node MdHtml.ElementType.Content [] (NPayload.contentP ['x']) []]]

/-- The tree produced by `parse_document` on "###### x\n". -/
def treeG : Node :=
  Node.node MdHtml.ElementType.DOCSTART [] NPayload.plain [Node.node MdHtml.ElementType.Header_6 [MdHtml.Attribute.Bold, MdHtml.Attribute.FontSize6] NPayload.plain [Node.node MdHtml.ElementType.Content [] (NPayload.contentP ['x']) []]]

/-- The tree produced by `parse_document` on "a\nb". -/
def treeH : Node :=
  Node.node MdHtml.ElementType.DOCSTART [] NPayload.plain [Node.node MdHtml.ElementType.Paragraph [] NPayload.plain [Node.node MdHtml.ElementType.Content [] (NPayload.contentP ['a']) [], Node.node MdHtml.ElementType.Content [] (NPayload.contentP ['b']) []]]

/-- The tree produced by `parse_document` on "a". -/
def treeI : Node :=
  Node.node MdHtml.ElementType.DOCSTART [] NPayload.plain [Node.node MdHtml.ElementType.Paragraph [] NPayload.plain [Node.node MdHtml.ElementType.Content [] (NPayload.contentP ['a']) []]]

/-- A Content leaf (`ContentNode` with no attributes and no children). -/
def contentLeaf (s : List Char) : Node :=
  .node .Content [] (.contentP s) []

/-- A character with no Markdown significance for `handleData`: not one of
the sigils the handler branches on (`#`, `*`, `-`, backtick, `>`, `[`, `!`,
`|`), not a newline, not the escape backslash, and not a digit (a digit at
line start starts the ordered-list recognition). -/
def plainChar (c : Char) : Prop :=
  c ≠ '#' ∧ c ≠ '*' ∧ c ≠ '-' ∧ c ≠ backtickChar ∧ c ≠ '>' ∧ c ≠ '[' ∧
    c ≠ '!' ∧ c ≠ '|' ∧ c ≠ '\n' ∧ c ≠ '\\' ∧ c.isDigit = false

/-- A character of a sigil-free input: plain text or a newline. -/
def plainOrNl (c : Char) : Prop :=
  plainChar c ∨ c = '\n'

instance (c : Char) : Decidable (plainChar c) := by
  unfold plainChar; infer_instance

instance (c : Char) : Decidable (plainOrNl c) := by
  unfold plainOrNl; infer_instance

/-- The cursor of the tree builder sits either on the root or on the
still-open Paragraph that is the last child of the root. -/
def cursorOk (b : TreeB) : Prop :=
  b.cur = some [] ∨
    ∃ cs0 last, b.root.children = cs0 ++ [last] ∧
      b.cur = some [cs0.length] ∧ last.element = .Paragraph

/-- Shape of the builder cursor relative to the newline counter on
sigil-free input: either the cursor sits on the root (after zero newlines or
a completed paragraph break), or it sits on the still-open Paragraph that is
the last child of the root (with at most one pending newline). -/
def shapeP (b : TreeB) (nlc : Nat) : Prop :=
  (b.cur = some [] ∧ (nlc = 0 ∨ nlc = 2)) ∨
    (∃ cs0 last, b.root.children = cs0 ++ [last] ∧
      b.cur = some [cs0.length] ∧ last.element = .Paragraph ∧
      (nlc = 0 ∨ nlc = 1))

/-- Invariant maintained by the read loop on sigil-free input: the machine
stays in the `Data` state with an empty return stack, the table mode is
off, the builder cursor is at the root or inside the open trailing
Paragraph, and the Content leaves plus the pending `consumed` buffer spell
out the newline-free text processed so far.  The flag `eo` tracks the
`EOF_Reached` member, so the same invariant serves the final
newline-injecting iteration. -/
structure PInv (eo : Bool) (ctx : Ctx) (txt : List Char) : Prop where
  hstate : ctx.state = .Data
  hstack : ctx.return_stack = []
  hesc : ctx.is_escaped = false
  heof : ctx.EOF_Reached = eo
  hflag : ctx.emitter.table_parsing_flag = false
  hcount : ctx.counter = 0
  hblock : ctx.blockquote_in_list = false
  hrootel : ctx.emitter.builder.root.element = .DOCSTART
  hshape : shapeP ctx.emitter.builder ctx.newline_counter
  hcontent : contentsOf ctx.emitter.builder.root ++ ctx.consumed = txt
  hcnl : ctx.consumed ≠ [] → ctx.newline_counter = 0

/-- The table tree claimed by the spec scenario for `|A|B|` with a two-column
separator and one body row:
`DocStart[Table(TableStyle)[TableRow(TableRow)[TableHead(TableHeader)[A],
TableHead(TableHeader)[B]], TableRow(TableRow)[TableCell(TableCell)[1],
TableCell(TableCell)[2]]]]`. -/
def tableScenarioTree : Node :=
  .node .DOCSTART [] .plain [
    .node .Table [.TableStyle] .plain [
      .node .Table_Row [.TableRow] .plain [
        .node .Table_Head [.TableHeader] .plain [contentLeaf ['A']],
        .node .Table_Head [.TableHeader] .plain [contentLeaf ['B']]],
      .node .Table_Row [.TableRow] .plain [
        .node .Table_Cell [.TableCell] .plain [contentLeaf ['1']],
        .node .Table_Cell [.TableCell] .plain [contentLeaf ['2']]]]]

/-- The tree claimed by the spec for `|A|B|\n|--|\n`: exactly one Paragraph
(with no attributes) holding the cells interleaved with literal pipes, and
nothing else. -/
def c3ClaimedTree : Node :=
  .node .DOCSTART [] .plain [
    .node .Paragraph [] .plain
      [contentLeaf ['|'], contentLeaf ['A'], contentLeaf ['|'], contentLeaf ['B']]]

/-- The tree the code actually produces for `|A|B|\n|--|\n`: the demoted
header row keeps its `TableRow` attribute, and a second Paragraph holds the
literal separator text accumulated up to the failure point. -/
def c3AmendedTree : Node :=
  .node .DOCSTART [] .plain [
    .node .Paragraph [.TableRow] .plain
      [contentLeaf ['|'], contentLeaf ['A'], contentLeaf ['|'], contentLeaf ['B']],
    .node .Paragraph [] .plain [contentLeaf ['|', '-', '-', '|']]]

/-- The tree claimed by the spec for `**bold** tail\n`: a Paragraph holding
the bold Span followed by the text leaf. -/
def c4ClaimedTree : Node :=
  .node .DOCSTART [] .plain [
    .node .Paragraph [] .plain [
      .node .Span [.Bold] .plain [contentLeaf ['b', 'o', 'l', 'd']],
      contentLeaf [' ', 't', 'a', 'i', 'l']]]

/-- The tree the code actually produces for `**bold** tail\n`: the bold Span
is a direct child of the root, followed by a Paragraph holding the tail
text. -/
def c4AmendedTree : Node :=
  .node .DOCSTART [] .plain [
    .node .Span [.Bold] .plain [contentLeaf ['b', 'o', 'l', 'd']],
    .node .Paragraph [] .plain [contentLeaf [' ', 't', 'a', 'i', 'l']]]

/-- Modelled from the claim's words: the input with trailing newlines
trimmed. -/
def rtrimNewlines (l : List Char) : List Char :=
  (l.reverse.dropWhile (fun c => c = '\n')).reverse

/-- The parsing context right after the driver consumes a `'\\'` in the
`Data` state: the escape flag is set and nothing else has changed. -/
def escFlagCtx : Ctx :=
  { initCtx with is_escaped := true }

/-- The parsing context after an escaped character `c` has been consumed:
`c` sits alone in the `consumed` buffer. -/
def escSeenCtx (c : Char) : Ctx :=
  { initCtx with consumed := [c] }

/-- The final context of parsing `\c` for an escapable `c`: the injected
newline opened a Paragraph and flushed `c` into it. -/
def escFinalCtx (c : Char) : Ctx :=
  { initCtx with
    EOF_Reached := true,
    newline_counter := 0,
    emitter :=
      { builder :=
          { root := .node .DOCSTART [] .plain
              [.node .Paragraph [] .plain [contentLeaf [c]]],
            cur := some [0] },
        tm := TableM.init,
        table_parsing_flag := false } }

/-- A table-manager state whose cursor sits two levels below the table root
(on the first cell of the first row), used to witness the cursor-ascent
behaviour of `consume_token`. -/
def c10tm : TableM :=
  { table_root := some (.node .Table [.TableStyle] .plain
      [.node .Table_Row [.TableRow] .plain
        [.node .Table_Cell [.TableCell] .plain []]]),
    cur := some [0, 0],
    col_dims := 2 }

/-- Evaluation helper: `bind` on an `ok` value. -/
theorem exceptBind_ok {α β : Type} (x : α) (f : α → Except Err β) :
    (Except.ok x : Except Err α) >>= f = f x := rfl

/-- Evaluation helper: `bind` on an error. -/
theorem exceptBind_err {α β : Type} (e : Err) (f : α → Except Err β) :
    (Except.error e : Except Err α) >>= f = .error e := rfl

/-- Evaluation helper: `pure` into `Except`. -/
theorem exceptPure {α : Type} (x : α) : (pure x : Except Err α) = .ok x := rfl

/-- Evaluation helper: `Except.map` on an `ok` value. -/
theorem exceptMap_ok {α β : Type} (f : α → β) (x : α) :
    Except.map f (Except.ok x : Except Err α) = .ok (f x) := rfl

/-- The read loop on an exhausted input is the EOF tail. -/
theorem parseChars_nil (ctx : Ctx) : parseChars [] ctx = parseEof 3 ctx := rfl

/-- One non-breaking iteration of the read loop advances the context. -/
theorem parseChars_cons_cont {c : Char} {cs : List Char} {ctx ctx2 : Ctx}
    (h : iterate ctx c = .ok (.cont ctx2)) :
    parseChars (c :: cs) ctx = parseChars cs ctx2 := by
  simp only [parseChars, h, exceptBind_ok]

/-- The read loop consumes the input piecewise: a prefix that does not break
advances the context, after which the rest of the input is parsed. -/
theorem parseChars_append_cont {l1 l2 : List Char} {ctx ctx2 : Ctx}
    (h : feedChars l1 ctx = .ok (.cont ctx2)) :
    parseChars (l1 ++ l2) ctx = parseChars l2 ctx2 := by
  induction l1 generalizing ctx with
  | nil =>
    simp only [feedChars, exceptPure, Except.ok.injEq] at h
    cases h
    simp only [List.nil_append]
  | cons c cs ih =>
    rw [List.cons_append]
    simp only [feedChars] at h
    cases hit : iterate ctx c with
    | error e => rw [hit, exceptBind_err] at h; exact absurd h (by simp)
    | ok st =>
      rw [hit, exceptBind_ok] at h
      cases st with
      | brk c2 =>
        simp only [exceptPure, Except.ok.injEq] at h
        exact absurd h (by simp)
      | cont c2 =>
        simp only [parseChars, hit, exceptBind_ok]
        exact ih h

/-- Evaluation of the read loop on the input "|A|B|\n|---|---|\n|1|2|\n". -/
theorem parsectx_eval_A : parseCtx ("|A|B|\n|---|---|\n|1|2|\n".data) = .ok ectx23 := by
  rw [parseCtx]
  rw [show ("|A|B|\n|---|---|\n|1|2|\n".data) = ['|', 'A', '|', 'B', '|', '\n', '|', '-', '-', '-', '|', '-', '-', '-', '|', '\n', '|', '1', '|', '2', '|', '\n'] from rfl]
  rw [parseChars_cons_cont (show iterate initCtx '|' = .ok (.cont ectx1) from rfl)]
  rw [parseChars_cons_cont (show iterate ectx1 'A' = .ok (.cont ectx2) from rfl)]
  rw [parseChars_cons_cont (show iterate ectx2 '|' = .ok (.cont ectx3) from rfl)]
  rw [parseChars_cons_cont (show iterate ectx3 'B' = .ok (.cont ectx4) from rfl)]
  rw [parseChars_cons_cont (show iterate ectx4 '|' = .ok (.cont ectx5) from rfl)]
  rw [parseChars_cons_cont (show iterate ectx5 '\n' = .ok (.cont ectx6) from rfl)]
  rw [parseChars_cons_cont (show iterate ectx6 '|' = .ok (.cont ectx7) from rfl)]
  rw [parseChars_cons_cont (show iterate ectx7 '-' = .ok (.cont ectx8) from rfl)]
  rw [parseChars_cons_cont (show iterate ectx8 '-' = .ok (.cont ectx9) from rfl)]
  rw [parseChars_cons_cont (show iterate ectx9 '-' = .ok (.cont ectx10) from rfl)]
  rw [parseChars_cons_cont (show iterate ectx10 '|' = .ok (.cont ectx11) from rfl)]
  rw [parseChars_cons_cont (show iterate ectx11 '-' = .ok (.cont ectx12) from rfl)]
  rw [parseChars_cons_cont (show iterate ectx12 '-' = .ok (.cont ectx13) from rfl)]
  rw [parseChars_cons_cont (show iterate ectx13 '-' = .ok (.cont ectx14) from rfl)]
  rw [parseChars_cons_cont (show iterate ectx14 '|' = .ok (.cont ectx15) from rfl)]
  rw [parseChars_cons_cont (show iterate ectx15 '\n' = .ok (.cont ectx16) from rfl)]
  rw [parseChars_cons_cont (show iterate ectx16 '|' = .ok (.cont ectx17) from rfl)]
  rw [parseChars_cons_cont (show iterate ectx17 '1' = .ok (.cont ectx18) from rfl)]
  rw [parseChars_cons_cont (show iterate ectx18 '|' = .ok (.cont ectx19) from rfl)]
  rw [parseChars_cons_cont (show iterate ectx19 '2' = .ok (.cont ectx20) from rfl)]
  rw [parseChars_cons_cont (show iterate ectx20 '|' = .ok (.cont ectx21) from rfl)]
  rw [parseChars_cons_cont (show iterate ectx21 '\n' = .ok (.cont ectx22) from rfl)]
  rw [parseChars_nil]
  exact (show parseEof 3 ectx22 = .ok ectx23 from rfl)

/-- The tree produced for the input "|A|B|\n|---|---|\n|1|2|\n". -/
theorem parse_eval_A : parse_document "|A|B|\n|---|---|\n|1|2|\n" = .ok treeA := by
  rw [parse_document, parsectx_eval_A]
  rfl

/-- Evaluation of the read loop on the input "|A|B|\n|-|-|\n|1|2|\n". -/
theorem parsectx_eval_B : parseCtx ("|A|B|\n|-|-|\n|1|2|\n".data) = .ok ectx34 := by
  rw [parseCtx]
  rw [show ("|A|B|\n|-|-|\n|1|2|\n".data) = ['|', 'A', '|', 'B', '|', '\n', '|', '-', '|', '-', '|', '\n', '|', '1', '|', '2', '|', '\n'] from rfl]
  rw [parseChars_cons_cont (show iterate initCtx '|' = .ok (.cont ectx1) from rfl)]
  rw [parseChars_cons_cont (show iterate ectx1 'A' = .ok (.cont ectx2) from rfl)]
  rw [parseChars_cons_cont (show iterate ectx2 '|' = .ok (.cont ectx3) from rfl)]
  rw [parseChars_cons_cont (show iterate ectx3 'B' = .ok (.cont ectx4) from rfl)]
  rw [parseChars_cons_cont (show iterate ectx4 '|' = .ok (.cont ectx5) from rfl)]
  rw [parseChars_cons_cont (show iterate ectx5 '\n' = .ok (.cont ectx6) from rfl)]
  rw [parseChars_cons_cont (show iterate ectx6 '|' = .ok (.cont ectx7) from rfl)]
  rw [parseChars_cons_cont (show iterate ectx7 '-' = .ok (.cont ectx8) from rfl)]
  rw [parseChars_cons_cont (show iterate ectx8 '|' = .ok (.cont ectx24) from rfl)]
  rw [parseChars_cons_cont (show iterate ectx24 '-' = .ok (.cont ectx25) from rfl)]
  rw [parseChars_cons_cont (show iterate ectx25 '|' = .ok (.cont ectx26) from rfl)]
  rw [parseChars_cons_cont (show iterate ectx26 '\n' = .ok (.cont ectx27) from rfl)]
  rw [parseChars_cons_cont (show iterate ectx27 '|' = .ok (.cont ectx28) from rfl)]
  rw [parseChars_cons_cont (show iterate ectx28 '1' = .ok (.cont ectx29) from rfl)]
  rw [parseChars_cons_cont (show iterate ectx29 '|' = .ok (.cont ectx30) from rfl)]
  rw [parseChars_cons_cont (show iterate ectx30 '2' = .ok (.cont ectx31) from rfl)]
  rw [parseChars_cons_cont (show iterate ectx31 '|' = .ok (.cont ectx32) from rfl)]
  rw [parseChars_cons_cont (show iterate ectx32 '\n' = .ok (.cont ectx33) from rfl)]
  rw [parseChars_nil]
  exact (show parseEof 3 ectx33 = .ok ectx34 from rfl)

/-- The tree produced for the input "|A|B|\n|-|-|\n|1|2|\n". -/
theorem parse_eval_B : parse_document "|A|B|\n|-|-|\n|1|2|\n" = .ok treeB := by
  rw [parse_document, parsectx_eval_B]
  rfl

/-- Evaluation of the read loop on the input "|A|B|\n|--|\n". -/
theorem parsectx_eval_C : parseCtx ("|A|B|\n|--|\n".data) = .ok ectx37 := by
  rw [parseCtx]
  rw [show ("|A|B|\n|--|\n".data) = ['|', 'A', '|', 'B', '|', '\n', '|', '-', '-', '|', '\n'] from rfl]
  rw [parseChars_cons_cont (show iterate initCtx '|' = .ok (.cont ectx1) from rfl)]
  rw [parseChars_cons_cont (show iterate ectx1 'A' = .ok (.cont ectx2) from rfl)]
  rw [parseChars_cons_cont (show iterate ectx2 '|' = .ok (.cont ectx3) from rfl)]
  rw [parseChars_cons_cont (show iterate ectx3 'B' = .ok (.cont ectx4) from rfl)]
  rw [parseChars_cons_cont (show iterate ectx4 '|' = .ok (.cont ectx5) from rfl)]
  rw [parseChars_cons_cont (show iterate ectx5 '\n' = .ok (.cont ectx6) from rfl)]
  rw [parseChars_cons_cont (show iterate ectx6 '|' = .ok (.cont ectx7) from rfl)]
  rw [parseChars_cons_cont (show iterate ectx7 '-' = .ok (.cont ectx8) from rfl)]
  rw [parseChars_cons_cont (show iterate ectx8 '-' = .ok (.cont ectx9) from rfl)]
  rw [parseChars_cons_cont (show iterate ectx9 '|' = .ok (.cont ectx35) from rfl)]
  rw [parseChars_cons_cont (show iterate ectx35 '\n' = .ok (.cont ectx36) from rfl)]
  rw [parseChars_nil]
  exact (show parseEof 3 ectx36 = .ok ectx37 from rfl)

/-- The tree produced for the input "|A|B|\n|--|\n". -/
theorem parse_eval_C : parse_document "|A|B|\n|--|\n" = .ok treeC := by
  rw [parse_document, parsectx_eval_C]
  rfl

/-- Evaluation of the read loop on the input "**bold** tail\n". -/
theorem parsectx_eval_D : parseCtx ("**bold** tail\n".data) = .ok ectx52 := by
  rw [parseCtx]
  rw [show ("**bold** tail\n".data) = ['*', '*', 'b', 'o', 'l', 'd', '*', '*', ' ', 't', 'a', 'i', 'l', '\n'] from rfl]
  rw [parseChars_cons_cont (show iterate initCtx '*' = .ok (.cont ectx38) from rfl)]
  rw [parseChars_cons_cont (show iterate ectx38 '*' = .ok (.cont ectx39) from rfl)]
  rw [parseChars_cons_cont (show iterate ectx39 'b' = .ok (.cont ectx40) from rfl)]
  rw [parseChars_cons_cont (show iterate ectx40 'o' = .ok (.cont ectx41) from rfl)]
  rw [parseChars_cons_cont (show iterate ectx41 'l' = .ok (.cont ectx42) from rfl)]
  rw [parseChars_cons_cont (show iterate ectx42 'd' = .ok (.cont ectx43) from rfl)]
  rw [parseChars_cons_cont (show iterate ectx43 '*' = .ok (.cont ectx44) from rfl)]
  rw [parseChars_cons_cont (show iterate ectx44 '*' = .ok (.cont ectx45) from rfl)]
  rw [parseChars_cons_cont (show iterate ectx45 ' ' = .ok (.cont ectx46) from rfl)]
  rw [parseChars_cons_cont (show iterate ectx46 't' = .ok (.cont ectx47) from rfl)]
  rw [parseChars_cons_cont (show iterate ectx47 'a' = .ok (.cont ectx48) from rfl)]
  rw [parseChars_cons_cont (show iterate ectx48 'i' = .ok (.cont ectx49) from rfl)]
  rw [parseChars_cons_cont (show iterate ectx49 'l' = .ok (.cont ectx50) from rfl)]
  rw [parseChars_cons_cont (show iterate ectx50 '\n' = .ok (.cont ectx51) from rfl)]
  rw [parseChars_nil]
  exact (show parseEof 3 ectx51 = .ok ectx52 from rfl)

/-- The tree produced for the input "**bold** tail\n". -/
theorem parse_eval_D : parse_document "**bold** tail\n" = .ok treeD := by
  rw [parse_document, parsectx_eval_D]
  rfl

/-- Evaluation of the read loop on the input "####### x\n". -/
theorem parsectx_eval_E : parseCtx ("####### x\n".data) = .ok ectx63 := by
  rw [parseCtx]
  rw [show ("####### x\n".data) = ['#', '#', '#', '#', '#', '#', '#', ' ', 'x', '\n'] from rfl]
  rw [parseChars_cons_cont (show iterate initCtx '#' = .ok (.cont ectx53) from rfl)]
  rw [parseChars_cons_cont (show iterate ectx53 '#' = .ok (.cont ectx54) from rfl)]
  rw [parseChars_cons_cont (show iterate ectx54 '#' = .ok (.cont ectx55) from rfl)]
  rw [parseChars_cons_cont (show iterate ectx55 '#' = .ok (.cont ectx56) from rfl)]
  rw [parseChars_cons_cont (show iterate ectx56 '#' = .ok (.cont ectx57) from rfl)]
  rw [parseChars_cons_cont (show iterate ectx57 '#' = .ok (.cont ectx58) from rfl)]
  rw [parseChars_cons_cont (show iterate ectx58 '#' = .ok (.cont ectx59) from rfl)]
  rw [parseChars_cons_cont (show iterate ectx59 ' ' = .ok (.cont ectx60) from rfl)]
  rw [parseChars_cons_cont (show iterate ectx60 'x' = .ok (.cont ectx61) from rfl)]
  rw [parseChars_cons_cont (show iterate ectx61 '\n' = .ok (.cont ectx62) from rfl)]
  rw [parseChars_nil]
  exact (show parseEof 3 ectx62 = .ok ectx63 from rfl)

/-- The tree produced for the input "####### x\n". -/
theorem parse_eval_E : parse_document "####### x\n" = .ok treeE := by
  rw [parse_document, parsectx_eval_E]
  rfl

/-- Evaluation of the read loop on the input "# x\n". -/
theorem parsectx_eval_F : parseCtx ("# x\n".data) = .ok ectx67 := by
  rw [parseCtx]
  rw [show ("# x\n".data) = ['#', ' ', 'x', '\n'] from rfl]
  rw [parseChars_cons_cont (show iterate initCtx '#' = .ok (.cont ectx53) from rfl)]
  rw [parseChars_cons_cont (show iterate ectx53 ' ' = .ok (.cont ectx64) from rfl)]
  rw [parseChars_cons_cont (show iterate ectx64 'x' = .ok (.cont ectx65) from rfl)]
  rw [parseChars_cons_cont (show iterate ectx65 '\n' = .ok (.cont ectx66) from rfl)]
  rw [parseChars_nil]
  exact (show parseEof 3 ectx66 = .ok ectx67 from rfl)

/-- The tree produced for the input "# x\n". -/
theorem parse_eval_F : parse_document "# x\n" = .ok treeF := by
  rw [parse_document, parsectx_eval_F]
  rfl

/-- Evaluation of the read loop on the input "###### x\n". -/
theorem parsectx_eval_G : parseCtx ("###### x\n".data) = .ok ectx71 := by
  rw [parseCtx]
  rw [show ("###### x\n".data) = ['#', '#', '#', '#', '#', '#', ' ', 'x', '\n'] from rfl]
  rw [parseChars_cons_cont (show iterate initCtx '#' = .ok (.cont ectx53) from rfl)]
  rw [parseChars_cons_cont (show iterate ectx53 '#' = .ok (.cont ectx54) from rfl)]
  rw [parseChars_cons_cont (show iterate ectx54 '#' = .ok (.cont ectx55) from rfl)]
  rw [parseChars_cons_cont (show iterate ectx55 '#' = .ok (.cont ectx56) from rfl)]
  rw [parseChars_cons_cont (show iterate ectx56 '#' = .ok (.cont ectx57) from rfl)]
  rw [parseChars_cons_cont (show iterate ectx57 '#' = .ok (.cont ectx58) from rfl)]
  rw [parseChars_cons_cont (show iterate ectx58 ' ' = .ok (.cont ectx68) from rfl)]
  rw [parseChars_cons_cont (show iterate ectx68 'x' = .ok (.cont ectx69) from rfl)]
  rw [parseChars_cons_cont (show iterate ectx69 '\n' = .ok (.cont ectx70) from rfl)]
  rw [parseChars_nil]
  exact (show parseEof 3 ectx70 = .ok ectx71 from rfl)

/-- The tree produced for the input "###### x\n". -/
theorem parse_eval_G : parse_document "###### x\n" = .ok treeG := by
  rw [parse_document, parsectx_eval_G]
  rfl

/-- Evaluation of the read loop on the input "a\nb". -/
theorem parsectx_eval_H : parseCtx ("a\nb".data) = .ok ectx75 := by
  rw [parseCtx]
  rw [show ("a\nb".data) = ['a', '\n', 'b'] from rfl]
  rw [parseChars_cons_cont (show iterate initCtx 'a' = .ok (.cont ectx72) from rfl)]
  rw [parseChars_cons_cont (show iterate ectx72 '\n' = .ok (.cont ectx73) from rfl)]
  rw [parseChars_cons_cont (show iterate ectx73 'b' = .ok (.cont ectx74) from rfl)]
  rw [parseChars_nil]
  exact (show parseEof 3 ectx74 = .ok ectx75 from rfl)

/-- The tree produced for the input "a\nb". -/
theorem parse_eval_H : parse_document "a\nb" = .ok treeH := by
  rw [parse_document, parsectx_eval_H]
  rfl

/-- Evaluation of the read loop on the input "a". -/
theorem parsectx_eval_I : parseCtx ("a".data) = .ok ectx76 := by
  rw [parseCtx]
  rw [show ("a".data) = ['a'] from rfl]
  rw [parseChars_cons_cont (show iterate initCtx 'a' = .ok (.cont ectx72) from rfl)]
  rw [parseChars_nil]
  exact (show parseEof 3 ectx72 = .ok ectx76 from rfl)

/-- The tree produced for the input "a". -/
theorem parse_eval_I : parse_document "a" = .ok treeI := by
  rw [parse_document, parsectx_eval_I]
  rfl

/-- Claim C1, counterexample: the input `a\nb` contains only plain ASCII
text, yet the in-order concatenation of Content leaves is `ab`, not the
input with trailing newlines trimmed (`a\nb`): interior newlines are not
preserved in the tree. -/
theorem c1_counterexample :
    parsedContents "a\nb" ≠ .ok (rtrimNewlines ("a\nb".data)) := by
  intro h
  rw [parsedContents, parse_eval_H] at h
  exact absurd h (by decide)

/-- Claim C2, counterexample: on `|A|B|\n|-|-|\n|1|2|\n` the separator
columns hold a single dash each, which fails the three-dash minimum of
`handleTableHeaderSeparation`, so the parse does not produce the claimed
table tree. -/
theorem c2_counterexample :
    parse_document "|A|B|\n|-|-|\n|1|2|\n" ≠ .ok tableScenarioTree := by
  intro h
  rw [parse_eval_B] at h
  exact absurd h (by decide)

/-- Claim C2, amended: with a separator of three dashes per column,
`|A|B|\n|---|---|\n|1|2|\n` parses to exactly the claimed table tree. -/
theorem c2_amended_table_scenario :
    parse_document "|A|B|\n|---|---|\n|1|2|\n" = .ok tableScenarioTree := by
  rw [parse_eval_A]
  decide

/-- Claim C3, counterexample: `|A|B|\n|--|\n` does not produce exactly
`DocStart[Paragraph["|","A","|","B"]]`: the demoted row keeps a `TableRow`
attribute and a second Paragraph holding the literal `|--|` is added. -/
theorem c3_counterexample :
    parse_document "|A|B|\n|--|\n" ≠ .ok c3ClaimedTree := by
  intro h
  rw [parse_eval_C] at h
  exact absurd h (by decide)

/-- Claim C3, amended: `|A|B|\n|--|\n` produces the failed header row as a
Paragraph (carrying the row's `TableRow` attribute) whose children are the
row's cells interleaved with literal `|` leaves, followed by a second
Paragraph holding the consumed separator text `|--|`; no Table node is
emitted. -/
theorem c3_amended_failed_table_tree :
    parse_document "|A|B|\n|--|\n" = .ok c3AmendedTree := by
  rw [parse_eval_C]
  decide

/-- Claim C4, counterexample: on `**bold** tail\n` the bold Span is not
wrapped in a Paragraph, so the claimed tree is not produced. -/
theorem c4_counterexample :
    parse_document "**bold** tail\n" ≠ .ok c4ClaimedTree := by
  intro h
  rw [parse_eval_D] at h
  exact absurd h (by decide)

/-- Claim C4, amended: `**bold** tail\n` produces
`DocStart[Span(Bold)["bold"], Paragraph[" tail"]]`: the bold Span is a
direct child of the root (no Paragraph is opened for it because `consumed`
is empty when `**` is read), and the following text opens a Paragraph of
its own. -/
theorem c4_amended_bold_tree :
    parse_document "**bold** tail\n" = .ok c4AmendedTree := by
  rw [parse_eval_D]
  decide

/-- Claim C5, counterexample: after parsing the input `a` the builder
cursor is the still-open Paragraph (path `[0]`), not the root. -/
theorem c5_counterexample : finalCursor "a" ≠ .ok (some ([] : List Nat)) := by
  intro h
  rw [finalCursor, parsectx_eval_I] at h
  exact absurd h (by decide)

/-- Claim C6: heading-bound evaluation.  One to six `#` followed by a space
yield the corresponding header (shown for k = 1 and k = 6), but for k = 7
the paragraph text begins with only six `#` characters: the seventh is
dropped by the `handleHashtag` fallback branch, contradicting the claim
that the text begins with exactly k hashes. -/
theorem c6_heading_bound_eval :
    parse_document "# x\n" =
      .ok (.node .DOCSTART [] .plain
        [.node .Header_1 [.Bold, .FontSize1] .plain [contentLeaf ['x']]]) ∧
    parse_document "###### x\n" =
      .ok (.node .DOCSTART [] .plain
        [.node .Header_6 [.Bold, .FontSize6] .plain [contentLeaf ['x']]]) ∧
    parse_document "####### x\n" =
      .ok (.node .DOCSTART [] .plain
        [.node .Paragraph [] .plain
          [contentLeaf ['#', '#', '#', '#', '#', '#', ' ', 'x']]]) := by
  refine ⟨?_, ?_, ?_⟩
  · rw [parse_eval_F]
    decide
  · rw [parse_eval_G]
    decide
  · rw [parse_eval_E]
    decide

/-- Claim C7: for a character that is neither escapable nor a newline, the
C++ `consumed += '\\' + next` is integer addition of two `char`s: exactly
one byte, `('\\' + next) mod 256`, is appended — not the backslash followed
by the character.  At the failing input `next = 'a'` the appended byte is
189, a single character different from the claimed two-character
sequence. -/
theorem c7_escape_char_plus_char :
    (∀ (ctx : Ctx) (c : Char), is_escaped_char c = false → c ≠ '\n' →
      handle_escape_sequence ctx c =
        .ok { ctx with consumed := ctx.consumed ++ [charPlusChar '\\' c] }) ∧
    handle_escape_sequence initCtx 'a' =
      .ok { initCtx with consumed := [Char.ofNat 189] } ∧
    [Char.ofNat 189] ≠ ['\\', 'a'] := by
  refine ⟨?_, by decide, by decide⟩
  intro ctx c h1 h2
  simp [handle_escape_sequence, h1, h2, exceptPure]

/-- Claim C7 witness: the general branch applied at the concrete input
`'q'`. -/
theorem c7_escape_char_plus_char_witness :
    handle_escape_sequence initCtx 'q' =
      .ok { initCtx with consumed := [charPlusChar '\\' 'q'] } :=
  c7_escape_char_plus_char.1 initCtx 'q' (by decide) (by decide)

/-- The driver consumes the backslash by setting the escape flag. -/
theorem esc_step1 : iterate initCtx '\\' = .ok (.cont escFlagCtx) := rfl

/-- The escaped character is appended verbatim to `consumed` when it lies in
the escapable set. -/
theorem esc_step2 (c : Char) (h : is_escaped_char c = true) :
    iterate escFlagCtx c = .ok (.cont (escSeenCtx c)) := by
  simp [iterate, escFlagCtx, escSeenCtx, initCtx, handle_escape_sequence, h,
    exceptPure, exceptBind_ok, Ctx.mk.injEq]

/-- The injected end-of-stream newline flushes the escaped character into a
lazily opened Paragraph. -/
theorem esc_step3 (c : Char) : parseEof 3 (escSeenCtx c) = .ok (escFinalCtx c) := by
  simp [parseEof, iterate, dispatch, escSeenCtx, escFinalCtx, initCtx,
    handlers.handleData, Ctx.emit_content_token, Ctx.emit_token,
    Emitter.init, Emitter.emit_token, Emitter.fetch_current_element,
    TreeB.init, TreeB.consume, TreeB.openChild, TreeB.attachChild,
    TreeB.get_current_element, TableM.init, getAt, getAtL, modifyAt, modifyAtL,
    Node.addChild, Node.element, Node.attrs, Node.payload, Node.children,
    contentLeaf, exceptPure, exceptBind_ok, exceptMap_ok, backtickChar,
    RSS.push, RSS.top, RSS.top_n_pop, is_a_return_state, allowed_return_states,
    Ctx.mk.injEq, Emitter.mk.injEq, TreeB.mk.injEq, TableM.mk.injEq,
    Node.node.injEq]

/-- Claim C8: for every character `c` accepted by `is_escaped_char` (the
code's escapable set), parsing the two-character input `\c` produces
exactly `DocStart[Paragraph[c]]`: a single Content leaf holding `c`, with
no attribute anywhere and no element other than the lazily opened
Paragraph that wraps any top-level text. -/
theorem c8_escape_idempotence (c : Char) (h : is_escaped_char c = true) :
    parse_document (String.mk ['\\', c]) =
      .ok (.node .DOCSTART [] .plain
        [.node .Paragraph [] .plain [contentLeaf [c]]]) := by
  rw [parse_document, parseCtx]
  rw [show (String.mk ['\\', c]).data = ['\\', c] from rfl]
  rw [parseChars_cons_cont esc_step1]
  rw [parseChars_cons_cont (esc_step2 c h)]
  rw [parseChars_nil, esc_step3 c]
  rfl

/-- Claim C8 witness: the escape theorem applied at `c = '*'`. -/
theorem c8_escape_idempotence_witness :
    parse_document (String.mk ['\\', '*']) =
      .ok (.node .DOCSTART [] .plain
        [.node .Paragraph [] .plain [contentLeaf ['*']]]) :=
  c8_escape_idempotence '*' (by decide)

/-- Claim C9: `ReturnStateStack::push` accepts exactly the five states of
`allowed_return_states` (`Data`, `UnorderedListPrep`, `OrderedListPrep`,
`TableHeaderNames`, `TableCellData`) and fails with the internal-state
error on every other state; `top` and `top_n_pop` on an empty stack return
`State::Data` and log a warning (the boolean) instead of failing. -/
theorem c9_return_stack_contract :
    (∀ (s : State) (st : List State), s ∈ allowed_return_states →
      RSS.push s st = .ok (s :: st)) ∧
    (∀ (s : State) (st : List State), s ∉ allowed_return_states →
      RSS.push s st = .error .badPush) ∧
    RSS.top [] = (State.Data, true) ∧
    RSS.top_n_pop [] = (State.Data, [], true) := by
  refine ⟨?_, ?_, rfl, rfl⟩
  · intro s st hs
    have hb : is_a_return_state s = true := by
      cases s <;> first
        | rfl
        | exact absurd hs (by decide)
    simp [RSS.push, hb, exceptPure]
  · intro s st hs
    have hb : is_a_return_state s = false := by
      cases s <;> first
        | rfl
        | exact absurd (by decide) hs
    simp [RSS.push, hb]

/-- Claim C9 witness: a valid push, a rejected push, and the empty-stack
reads, all at concrete inputs. -/
theorem c9_return_stack_contract_witness :
    RSS.push State.Data [] = .ok [State.Data] ∧
    RSS.push State.DataHashtag [] = .error .badPush :=
  ⟨c9_return_stack_contract.1 State.Data [] (by decide),
   c9_return_stack_contract.2.1 State.DataHashtag [] (by decide)⟩

/-- `current = current->parent` on a cursor with a last path component
drops that component. -/
theorem TableM_ascend_concat {tm : TableM} {p : List Nat} {k : Nat}
    (h : tm.cur = some (p ++ [k])) :
    tm.ascend = .ok { tm with cur := some p } := by
  rcases hp : p ++ [k] with _ | ⟨a, rest⟩
  · exact absurd hp (by simp)
  · simp only [TableM.ascend, h, hp]
    rw [← hp, List.dropLast_concat]
    rfl

/-- Claim C10: when the table manager consumes a Close token for a
`Hypertext` element, the missing `break` makes control fall through into
the `Span`/`Codeblock` case, so the cursor ascends two levels, ending at
the grandparent of its previous position; every other Close token it
accepts (`Table_Head`, `Span`, `Codeblock`, and — under their guards —
`Table_Cell` and `Table_Row`) ascends exactly one level. -/
theorem c10_hyperlink_close_double_ascent (tm : TableM) (q : List Nat) (i j : Nat)
    (h : tm.cur = some (q ++ [i, j])) :
    (∃ tm2, tm.consume_token ⟨.CloseToken, .Hypertext, [], [], []⟩ = .ok tm2 ∧
      tm2.cur = some q) ∧
    (∀ el, (el = ElementType.Table_Head ∨ el = .Span ∨ el = .Codeblock) →
      ∃ tm2, tm.consume_token ⟨.CloseToken, el, [], [], []⟩ = .ok tm2 ∧
        tm2.cur = some (q ++ [i])) ∧
    (∀ cn, tm.getCur = .ok cn → cn.element = .Table_Cell →
      ∃ tm2, tm.consume_token ⟨.CloseToken, .Table_Cell, [], [], []⟩ = .ok tm2 ∧
        tm2.cur = some (q ++ [i])) ∧
    (tm.col_dims ≠ 0 → ∀ cn, tm.getCur = .ok cn →
      ∃ tm2, tm.consume_token ⟨.CloseToken, .Table_Row, [], [], []⟩ = .ok tm2 ∧
        tm2.cur = some (q ++ [i])) := by
  have hsplit : q ++ [i, j] = (q ++ [i]) ++ [j] := by simp
  have hasc1 : tm.ascend = .ok { tm with cur := some (q ++ [i]) } :=
    TableM_ascend_concat (by rw [h, hsplit])
  have hasc2 : TableM.ascend { tm with cur := some (q ++ [i]) } =
      .ok { tm with cur := some q } :=
    TableM_ascend_concat rfl
  refine ⟨?_, ?_, ?_, ?_⟩
  · refine ⟨{ tm with cur := some q }, ?_, rfl⟩
    simp only [TableM.consume_token, hasc1, exceptBind_ok, hasc2]
    rfl
  · rintro el (rfl | rfl | rfl) <;>
      exact ⟨{ tm with cur := some (q ++ [i]) }, by
        simp only [TableM.consume_token, hasc1]
        rfl, rfl⟩
  · intro cn hget hel
    refine ⟨{ tm with cur := some (q ++ [i]) }, ?_, rfl⟩
    simp only [TableM.consume_token, hget, exceptBind_ok, hel, reduceIte, hasc1]
    rfl
  · intro hcd cn hget
    rcases hroot : tm.table_root with _ | r
    · rw [TableM.getCur, hroot] at hget
      rcases hcur : tm.cur with _ | p <;> rw [hcur] at hget <;> exact absurd hget (by simp)
    · have hmod : tm.modifyCur (fun n =>
          Node.node n.element n.attrs n.payload
            (n.children ++ List.replicate (tm.col_dims - cn.children.length)
              (Node.node .Table_Cell [] .plain []))) =
          .ok { tm with table_root := some (modifyAt r (q ++ [i, j]) (fun n =>
            Node.node n.element n.attrs n.payload
              (n.children ++ List.replicate (tm.col_dims - cn.children.length)
                (Node.node .Table_Cell [] .plain [])))) } := by
        simp only [TableM.modifyCur, h, hroot]
        rfl
      refine ⟨{ tm with table_root := some (modifyAt r (q ++ [i, j]) (fun n =>
        Node.node n.element n.attrs n.payload
          (n.children ++ List.replicate (tm.col_dims - cn.children.length)
            (Node.node .Table_Cell [] .plain [])))), cur := some (q ++ [i]) }, ?_, rfl⟩
      simp only [TableM.consume_token]
      rw [if_neg (show ¬(TokenType.CloseToken = TokenType.OpenToken) by decide)]
      rw [if_pos hcd]
      rw [hget, exceptBind_ok, hmod, exceptBind_ok]
      exact TableM_ascend_concat (by rw [show ({ tm with table_root := some (modifyAt r (q ++ [i, j]) (fun n =>
        Node.node n.element n.attrs n.payload
          (n.children ++ List.replicate (tm.col_dims - cn.children.length)
            (Node.node .Table_Cell [] .plain [])))) } : TableM).cur = tm.cur from rfl, h, hsplit])

/-- Claim C10 witness: at a concrete manager whose cursor is on the first
cell of the first row, a Hyperlink close lands on the table root. -/
theorem c10_hyperlink_close_double_ascent_witness :
    ∃ tm2, c10tm.consume_token ⟨.CloseToken, .Hypertext, [], [], []⟩ = .ok tm2 ∧
      tm2.cur = some ([] : List Nat) :=
  (c10_hyperlink_close_double_ascent c10tm [] 0 0 rfl).1

/-- Content concatenation distributes over appended children lists. -/
theorem contentsOfL_append (l1 l2 : List Node) :
    contentsOfL (l1 ++ l2) = contentsOfL l1 ++ contentsOfL l2 := by
  induction l1 with
  | nil => simp [contentsOfL]
  | cons n ns ih => simp [contentsOfL, ih]

/-- Appending a child appends its contents. -/
theorem contentsOf_addChild (n c : Node) :
    contentsOf (n.addChild c) = contentsOf n ++ contentsOf c := by
  cases n with
  | node e a p cs =>
    simp [Node.addChild, contentsOf, Node.element, Node.attrs, Node.payload,
      Node.children, contentsOfL_append, contentsOfL]

/-- `addChild` does not change the element tag. -/
theorem element_addChild (n c : Node) : (n.addChild c).element = n.element := by
  cases n; rfl

/-- `addChild` appends to the children sequence. -/
theorem children_addChild (n c : Node) :
    (n.addChild c).children = n.children ++ [c] := by
  cases n; rfl

/-- Looking up the last child of a node by its index. -/
theorem getAtL_last (cs0 : List Node) (last : Node) :
    getAtL (cs0 ++ [last]) cs0.length [] = some last := by
  induction cs0 with
  | nil => simp [getAtL, getAt]
  | cons c cs ih => simpa only [List.cons_append, List.length_cons, getAtL] using ih

/-- Modifying the last child of a children list by its index. -/
theorem modifyAtL_last_eq (cs0 : List Node) (last : Node) (f : Node → Node) :
    modifyAtL (cs0 ++ [last]) cs0.length [] f = cs0 ++ [f last] := by
  induction cs0 with
  | nil => simp [modifyAtL, modifyAt]
  | cons c cs ih =>
    simp only [List.cons_append, List.length_cons, modifyAtL, List.append_eq, ih]

/-- `handleData` on a plain character only appends it to `consumed`. -/
theorem handleData_plain {ctx : Ctx} {c : Char} (h : plainChar c) :
    handlers.handleData ctx c = .ok { ctx with consumed := ctx.consumed ++ [c] } := by
  obtain ⟨h1, h2, h3, h4, h5, h6, h7, h8, h9, _, h11⟩ := h
  simp [handlers.handleData, h1, h2, h3, h4, h5, h6, h7, h8, h9, h11, exceptPure]

/-- One loop iteration on a plain character in the `Data` state: the
character is appended to `consumed`, the warning is drained and the
newline counter is (re)set to zero. -/
theorem iterate_plain {ctx : Ctx} {c : Char} (hpl : plainChar c)
    (hesc : ctx.is_escaped = false) (hst : ctx.state = .Data)
    (heof : ctx.EOF_Reached = false) :
    iterate ctx c = .ok (.cont { ctx with consumed := ctx.consumed ++ [c], warning_msg := "", newline_counter := 0 }) := by
  have hnl : c ≠ '\n' := hpl.2.2.2.2.2.2.2.2.1
  have hbs : c ≠ '\\' := hpl.2.2.2.2.2.2.2.2.2.1
  obtain ⟨eo, cons, cnt, ac, il, nlc, sr, al, bq, esc, im, st, wm, em, rst⟩ := ctx
  simp only [Ctx.is_escaped] at hesc
  simp only [Ctx.state] at hst
  simp only [Ctx.EOF_Reached] at heof
  subst hesc hst heof
  by_cases hn : nlc = 0 <;>
    simp [iterate, dispatch, handleData_plain hpl, hbs, hnl, hn,
      exceptBind_ok, exceptPure]

/-- Behaviour of `handleData` on a newline with the cursor on the root and
nothing consumed: a no-op (no lazy Paragraph is opened for empty content,
and `DOCSTART` is neither closed nor counted). -/
theorem handleData_nl_root_nil (eo : Bool) (cnt ac il : Int) (nlc : Nat)
    (sr al : List Char) (bq esc im : Bool) (st : State) (wm : String)
    (ra : List Attribute) (rp : NPayload) (rcs : List Node) (tmv : TableM)
    (rst : List State) :
    handlers.handleData
      ⟨eo, [], cnt, ac, il, nlc, sr, al, bq, esc, im, st, wm,
        ⟨⟨.node .DOCSTART ra rp rcs, some []⟩, tmv, false⟩, rst⟩ '\n' =
      .ok ⟨eo, [], cnt, ac, il, nlc, sr, al, bq, esc, im, st, wm,
        ⟨⟨.node .DOCSTART ra rp rcs, some []⟩, tmv, false⟩, rst⟩ := by
  simp [handlers.handleData, Ctx.emit_content_token,
    Emitter.fetch_current_element, TreeB.get_current_element, getAt,
    Node.element, backtickChar, exceptBind_ok, exceptPure]

/-- Behaviour of `handleData` on a newline with the cursor on the root and
pending content: a lazy Paragraph is opened under the root and the content
is attached inside it, emptying `consumed`. -/
theorem handleData_nl_root_cons (eo : Bool) (c0 : Char) (cr : List Char)
    (cnt ac il : Int) (nlc : Nat) (sr al : List Char) (bq esc im : Bool)
    (st : State) (wm : String) (ra : List Attribute) (rp : NPayload)
    (rcs : List Node) (tmv : TableM) (rst : List State) :
    handlers.handleData
      ⟨eo, c0 :: cr, cnt, ac, il, nlc, sr, al, bq, esc, im, st, wm,
        ⟨⟨.node .DOCSTART ra rp rcs, some []⟩, tmv, false⟩, rst⟩ '\n' =
      .ok ⟨eo, [], cnt, ac, il, nlc, sr, al, bq, esc, im, st, wm,
        ⟨⟨.node .DOCSTART ra rp
            (rcs ++ [.node .Paragraph [] .plain
              [.node .Content [] (.contentP (c0 :: cr)) []]]),
          some [rcs.length]⟩, tmv, false⟩, rst⟩ := by
  simp [handlers.handleData, Ctx.emit_content_token, Ctx.emit_token,
    Emitter.emit_token, Emitter.fetch_current_element,
    TreeB.get_current_element, TreeB.consume, TreeB.openChild,
    TreeB.attachChild, getAt, modifyAt, modifyAtL_last_eq, Node.addChild,
    Node.element, Node.children, Node.attrs, Node.payload, backtickChar,
    exceptBind_ok, exceptPure]

/-- Behaviour of `handleData` on a first newline with the cursor inside the
open trailing Paragraph and nothing consumed: only the newline counter is
bumped to one. -/
theorem handleData_nl_para_nil (eo : Bool) (cnt ac il : Int)
    (sr al : List Char) (bq esc im : Bool) (st : State) (wm : String)
    (ra : List Attribute) (rp : NPayload) (cs0 : List Node)
    (la : List Attribute) (lp : NPayload) (lcs : List Node) (tmv : TableM)
    (rst : List State) :
    handlers.handleData
      ⟨eo, [], cnt, ac, il, 0, sr, al, bq, esc, im, st, wm,
        ⟨⟨.node .DOCSTART ra rp (cs0 ++ [.node .Paragraph la lp lcs]),
          some [cs0.length]⟩, tmv, false⟩, rst⟩ '\n' =
      .ok ⟨eo, [], cnt, ac, il, 1, sr, al, bq, esc, im, st, wm,
        ⟨⟨.node .DOCSTART ra rp (cs0 ++ [.node .Paragraph la lp lcs]),
          some [cs0.length]⟩, tmv, false⟩, rst⟩ := by
  simp [handlers.handleData, Ctx.emit_content_token,
    Emitter.fetch_current_element, TreeB.get_current_element, getAt,
    getAtL_last, Node.element, backtickChar, exceptBind_ok, exceptPure]

/-- Behaviour of `handleData` on a first newline with the cursor inside the
open trailing Paragraph and pending content: the content is attached to the
Paragraph, `consumed` is emptied and the newline counter is bumped to
one. -/
theorem handleData_nl_para_cons (eo : Bool) (c0 : Char) (cr : List Char)
    (cnt ac il : Int) (sr al : List Char) (bq esc im : Bool) (st : State)
    (wm : String) (ra : List Attribute) (rp : NPayload) (cs0 : List Node)
    (la : List Attribute) (lp : NPayload) (lcs : List Node) (tmv : TableM)
    (rst : List State) :
    handlers.handleData
      ⟨eo, c0 :: cr, cnt, ac, il, 0, sr, al, bq, esc, im, st, wm,
        ⟨⟨.node .DOCSTART ra rp (cs0 ++ [.node .Paragraph la lp lcs]),
          some [cs0.length]⟩, tmv, false⟩, rst⟩ '\n' =
      .ok ⟨eo, [], cnt, ac, il, 1, sr, al, bq, esc, im, st, wm,
        ⟨⟨.node .DOCSTART ra rp (cs0 ++ [.node .Paragraph la lp
            (lcs ++ [.node .Content [] (.contentP (c0 :: cr)) []])]),
          some [cs0.length]⟩, tmv, false⟩, rst⟩ := by
  simp [handlers.handleData, Ctx.emit_content_token, Ctx.emit_token,
    Emitter.emit_token, Emitter.fetch_current_element,
    TreeB.get_current_element, TreeB.consume, TreeB.attachChild, getAt,
    getAtL_last, modifyAt, modifyAtL_last_eq, Node.addChild, Node.element,
    Node.children, Node.attrs, Node.payload, backtickChar, exceptBind_ok,
    exceptPure]

/-- Behaviour of `handleData` on a second consecutive newline with the
cursor inside the open trailing Paragraph and nothing consumed: the
Paragraph is closed (the cursor ascends to the root) and the newline
counter reaches two. -/
theorem handleData_nl_para_close (eo : Bool) (cnt ac il : Int)
    (sr al : List Char) (bq esc im : Bool) (st : State) (wm : String)
    (ra : List Attribute) (rp : NPayload) (cs0 : List Node)
    (la : List Attribute) (lp : NPayload) (lcs : List Node) (tmv : TableM)
    (rst : List State) :
    handlers.handleData
      ⟨eo, [], cnt, ac, il, 1, sr, al, bq, esc, im, st, wm,
        ⟨⟨.node .DOCSTART ra rp (cs0 ++ [.node .Paragraph la lp lcs]),
          some [cs0.length]⟩, tmv, false⟩, rst⟩ '\n' =
      .ok ⟨eo, [], cnt, ac, il, 2, sr, al, bq, esc, im, st, wm,
        ⟨⟨.node .DOCSTART ra rp (cs0 ++ [.node .Paragraph la lp lcs]),
          some []⟩, tmv, false⟩, rst⟩ := by
  simp [handlers.handleData, Ctx.emit_content_token, Ctx.emit_token,
    Emitter.emit_token, Emitter.fetch_current_element,
    TreeB.get_current_element, TreeB.consume, getAt, getAtL_last,
    Node.element, List.dropLast_single, backtickChar, exceptBind_ok,
    exceptPure]

/-- One loop iteration on a newline in the `Data` state preserves the
sigil-free invariant, empties `consumed`, and breaks out of the read loop
exactly when the EOF flag is set. -/
theorem iterate_nl {eo : Bool} {ctx : Ctx} {txt : List Char}
    (hinv : PInv eo ctx txt) :
    ∃ ctx2, iterate ctx '\n' =
        .ok (if eo then IterStep.brk ctx2 else IterStep.cont ctx2) ∧
      PInv eo ctx2 txt ∧ ctx2.consumed = [] := by
  obtain ⟨hstate, hstack, hesc, heof, hflag, hcount, hblock, hrootel, hshape,
    hcontent, hcnl⟩ := hinv
  obtain ⟨eo0, cons, cnt, ac, il, nlc, sr, al, bq, esc, im, st, wm, em, rst⟩ := ctx
  obtain ⟨bldr, tmv, flag⟩ := em
  obtain ⟨root, cur⟩ := bldr
  obtain ⟨re, ra, rp, rcs⟩ := root
  dsimp only at hstate hstack hesc heof hflag hcount hblock hrootel hshape hcontent hcnl
  simp only [shapeP] at hshape
  subst hstate hstack hesc heof hflag hcount hblock hrootel
  rcases hshape with ⟨hcur, hn⟩ | ⟨cs0, last, hch, hcur, hel, hn⟩
  · subst hcur
    cases cons with
    | nil =>
      refine ⟨⟨eo0, [], 0, ac, il, nlc, sr, al, false, false, im, .Data, "",
          ⟨⟨.node .DOCSTART ra rp rcs, some []⟩, tmv, false⟩, []⟩, ?_, ?_, rfl⟩
      · simp [iterate, dispatch, handleData_nl_root_nil, exceptBind_ok,
          exceptPure, apply_ite]
      · exact ⟨rfl, rfl, rfl, rfl, rfl, rfl, rfl, rfl, Or.inl ⟨rfl, hn⟩,
          hcontent, fun h => absurd rfl h⟩
    | cons c0 cr =>
      have h0 : nlc = 0 := hcnl (List.cons_ne_nil _ _)
      subst h0
      refine ⟨⟨eo0, [], 0, ac, il, 0, sr, al, false, false, im, .Data, "",
          ⟨⟨.node .DOCSTART ra rp
              (rcs ++ [.node .Paragraph [] .plain
                [.node .Content [] (.contentP (c0 :: cr)) []]]),
            some [rcs.length]⟩, tmv, false⟩, []⟩, ?_, ?_, rfl⟩
      · simp [iterate, dispatch, handleData_nl_root_cons, exceptBind_ok,
          exceptPure, apply_ite]
      · refine ⟨rfl, rfl, rfl, rfl, rfl, rfl, rfl, rfl,
          Or.inr ⟨rcs, _, rfl, rfl, rfl, Or.inl rfl⟩, ?_, fun h => absurd rfl h⟩
        simp only [contentsOf, contentsOfL, contentsOfL_append,
          List.append_nil, List.nil_append, List.append_assoc] at hcontent ⊢
        exact hcontent
  · obtain ⟨le, la, lp, lcs⟩ := last
    dsimp only [Node.element] at hel
    subst hel
    subst hcur
    subst hch
    rcases hn with hn | hn
    · subst hn
      cases cons with
      | nil =>
        refine ⟨⟨eo0, [], 0, ac, il, 1, sr, al, false, false, im, .Data, "",
            ⟨⟨.node .DOCSTART ra rp (cs0 ++ [.node .Paragraph la lp lcs]),
              some [cs0.length]⟩, tmv, false⟩, []⟩, ?_, ?_, rfl⟩
        · simp [iterate, dispatch, handleData_nl_para_nil, exceptBind_ok,
            exceptPure, apply_ite]
        · exact ⟨rfl, rfl, rfl, rfl, rfl, rfl, rfl, rfl,
            Or.inr ⟨cs0, _, rfl, rfl, rfl, Or.inr rfl⟩, hcontent,
            fun h => absurd rfl h⟩
      | cons c0 cr =>
        refine ⟨⟨eo0, [], 0, ac, il, 1, sr, al, false, false, im, .Data, "",
            ⟨⟨.node .DOCSTART ra rp (cs0 ++ [.node .Paragraph la lp
                (lcs ++ [.node .Content [] (.contentP (c0 :: cr)) []])]),
              some [cs0.length]⟩, tmv, false⟩, []⟩, ?_, ?_, rfl⟩
        · simp [iterate, dispatch, handleData_nl_para_cons, exceptBind_ok,
            exceptPure, apply_ite]
        · refine ⟨rfl, rfl, rfl, rfl, rfl, rfl, rfl, rfl,
            Or.inr ⟨cs0, _, rfl, rfl, rfl, Or.inr rfl⟩, ?_,
            fun h => absurd rfl h⟩
          simp only [contentsOf, contentsOfL, contentsOfL_append,
            List.append_nil, List.nil_append, List.append_assoc] at hcontent ⊢
          exact hcontent
    · subst hn
      cases cons with
      | nil =>
        refine ⟨⟨eo0, [], 0, ac, il, 2, sr, al, false, false, im, .Data, "",
            ⟨⟨.node .DOCSTART ra rp (cs0 ++ [.node .Paragraph la lp lcs]),
              some []⟩, tmv, false⟩, []⟩, ?_, ?_, rfl⟩
        · simp [iterate, dispatch, handleData_nl_para_close, exceptBind_ok,
            exceptPure, apply_ite]
        · exact ⟨rfl, rfl, rfl, rfl, rfl, rfl, rfl, rfl,
            Or.inl ⟨rfl, Or.inr rfl⟩, hcontent, fun h => absurd rfl h⟩
      | cons c0 cr =>
        exact absurd (hcnl (List.cons_ne_nil _ _)) (by decide)

/-- Unfolding of one step of the EOF tail of the read loop. -/
theorem parseEof_succ (n : Nat) (ctx : Ctx) :
    parseEof (n + 1) ctx =
      (iterate { ctx with EOF_Reached := true } '\n') >>= (fun s =>
        match s with
        | .brk ctx2 => pure ctx2
        | .cont ctx2 => parseEof n ctx2) := rfl

/-- The sigil-free invariant survives raising the EOF flag. -/
theorem PInv_setEof {ctx : Ctx} {txt : List Char} (h : PInv false ctx txt) :
    PInv true { ctx with EOF_Reached := true } txt := by
  obtain ⟨h1, h2, h3, _, h5, h6, h7, h8, h9, h10, h11⟩ := h
  exact ⟨h1, h2, h3, rfl, h5, h6, h7, h8, h9, h10, h11⟩

/-- The cursor shape of the sigil-free invariant implies the amended cursor
property. -/
theorem shapeP_cursorOk {b : TreeB} {nlc : Nat} (h : shapeP b nlc) :
    cursorOk b := by
  rcases h with ⟨h, _⟩ | ⟨cs0, last, h1, h2, h3, _⟩
  · exact Or.inl h
  · exact Or.inr ⟨cs0, last, h1, h2, h3⟩

/-- The EOF tail on a context satisfying the sigil-free invariant: one final
newline-injecting iteration breaks out, flushing any pending content and
leaving the cursor on the root or on the open trailing Paragraph. -/
theorem parseEof_inv {ctx : Ctx} {txt : List Char} (hinv : PInv false ctx txt) :
    ∃ ctx2, parseEof 3 ctx = .ok ctx2 ∧
      contentsOf ctx2.emitter.builder.root = txt ∧
      cursorOk ctx2.emitter.builder ∧
      ctx2.emitter.builder.root.element = .DOCSTART := by
  obtain ⟨ctx2, hrun, hinv2, hcons⟩ := iterate_nl (PInv_setEof hinv)
  rw [if_pos rfl] at hrun
  refine ⟨ctx2, ?_, ?_, shapeP_cursorOk hinv2.hshape, hinv2.hrootel⟩
  · rw [parseEof_succ 2 ctx, hrun]
    rfl
  · have h := hinv2.hcontent
    rw [hcons, List.append_nil] at h
    exact h

/-- The sigil-free invariant after consuming one plain character. -/
theorem PInv_plain {ctx : Ctx} {txt : List Char} {c : Char}
    (hinv : PInv false ctx txt) :
    PInv false { ctx with consumed := ctx.consumed ++ [c], warning_msg := "", newline_counter := 0 } (txt ++ [c]) := by
  obtain ⟨h1, h2, h3, h4, h5, h6, h7, h8, h9, h10, _⟩ := hinv
  refine ⟨h1, h2, h3, h4, h5, h6, h7, h8, ?_, ?_, fun _ => rfl⟩
  · rcases h9 with ⟨hc, _⟩ | ⟨cs0, last, hch, hc, hel, _⟩
    · exact Or.inl ⟨hc, Or.inl rfl⟩
    · exact Or.inr ⟨cs0, last, hch, hc, hel, Or.inl rfl⟩
  · show contentsOf ctx.emitter.builder.root ++ (ctx.consumed ++ [c]) = txt ++ [c]
    rw [← List.append_assoc, h10]

/-- The fresh parsing context satisfies the sigil-free invariant for the
empty text. -/
theorem PInv_init : PInv false initCtx [] :=
  ⟨rfl, rfl, rfl, rfl, rfl, rfl, rfl, rfl, Or.inl ⟨rfl, Or.inl rfl⟩, rfl,
    fun h => absurd rfl h⟩

/-- The read loop on a sigil-free input: parsing succeeds, the Content
leaves spell out the processed text with the newlines removed, and the final
cursor sits on the root or on the open trailing Paragraph. -/
theorem parseChars_plain (cs : List Char) (ctx : Ctx) (txt : List Char)
    (hcs : ∀ c ∈ cs, plainOrNl c) (hinv : PInv false ctx txt) :
    ∃ ctx2, parseChars cs ctx = .ok ctx2 ∧
      contentsOf ctx2.emitter.builder.root =
        txt ++ cs.filter (fun c => decide (c ≠ '\n')) ∧
      cursorOk ctx2.emitter.builder ∧
      ctx2.emitter.builder.root.element = .DOCSTART := by
  induction cs generalizing ctx txt with
  | nil =>
    obtain ⟨ctx2, h1, h2, h3, h4⟩ := parseEof_inv hinv
    exact ⟨ctx2, h1, by simpa using h2, h3, h4⟩
  | cons c rest ih =>
    have hrest : ∀ x ∈ rest, plainOrNl x := fun x hx =>
      hcs x (List.mem_cons_of_mem _ hx)
    rcases hcs c (List.mem_cons_self c rest) with hpl | hnl
    · have hit := iterate_plain hpl hinv.hesc hinv.hstate hinv.heof
      rw [parseChars_cons_cont hit]
      obtain ⟨ctx2, h1, h2, h3, h4⟩ := ih _ _ hrest (@PInv_plain ctx txt c hinv)
      refine ⟨ctx2, h1, ?_, h3, h4⟩
      rw [h2]
      have hne : c ≠ '\n' := hpl.2.2.2.2.2.2.2.2.1
      simp [List.filter_cons, hne, List.append_assoc]
    · subst hnl
      obtain ⟨ctx2, hrun, hinv2, _⟩ := iterate_nl hinv
      rw [if_neg (by simp)] at hrun
      rw [parseChars_cons_cont hrun]
      obtain ⟨ctx3, h1, h2, h3, h4⟩ := ih _ _ hrest hinv2
      refine ⟨ctx3, h1, ?_, h3, h4⟩
      rw [h2]
      simp [List.filter_cons]

/-- Claim C1 (amended): on an input of plain text and newlines (no Markdown
sigils), the in-order concatenation of the Content leaves of the parsed
tree equals the input with every newline character removed. -/
theorem c1_amended_content_preservation (cs : List Char)
    (hcs : ∀ c ∈ cs, plainOrNl c) :
    parsedContents (String.mk cs) =
      .ok (cs.filter (fun c => decide (c ≠ '\n'))) := by
  obtain ⟨ctx2, h1, h2, _, _⟩ := parseChars_plain cs initCtx [] hcs PInv_init
  rw [show parsedContents (String.mk cs) =
    ((parseChars cs initCtx).map
      (fun ctx => ctx.emitter.builder.root)).map contentsOf from rfl]
  rw [h1, exceptMap_ok, exceptMap_ok, h2, List.nil_append]

/-- Claim C1 witness: the input `ab<newline>cd` parses with Content
concatenation `abcd`. -/
theorem c1_amended_content_preservation_witness :
    parsedContents (String.mk ['a', 'b', '\n', 'c', 'd']) =
      .ok ['a', 'b', 'c', 'd'] := by
  have h := c1_amended_content_preservation ['a', 'b', '\n', 'c', 'd']
    (by decide)
  rw [show (['a', 'b', '\n', 'c', 'd'].filter (fun c => decide (c ≠ '\n'))) =
    ['a', 'b', 'c', 'd'] from by decide] at h
  exact h

/-- Claim C5 (amended): at end-of-parse on an input of plain text and
newlines (no Markdown sigils), the builder cursor equals the root unless a
Paragraph is still open, in which case it points at that Paragraph, the
last child of the root. -/
theorem c5_amended_cursor_root_or_open_paragraph (cs : List Char)
    (hcs : ∀ c ∈ cs, plainOrNl c) :
    ∃ ctx2, parseCtx cs = .ok ctx2 ∧ cursorOk ctx2.emitter.builder := by
  obtain ⟨ctx2, h1, _, h3, _⟩ := parseChars_plain cs initCtx [] hcs PInv_init
  exact ⟨ctx2, h1, h3⟩

/-- Claim C5 witness: the single-character input `a` parses, and its final
cursor satisfies the root-or-open-Paragraph property (concretely it sits on
the still-open Paragraph). -/
theorem c5_amended_cursor_root_or_open_paragraph_witness :
    ∃ ctx2, parseCtx ['a'] = .ok ctx2 ∧ cursorOk ctx2.emitter.builder :=
  c5_amended_cursor_root_or_open_paragraph ['a'] (by decide)

end MdHtml
